import Mathlib

/-!
# USemLog: the manipulator bone contact monitor

A shallow embedding of `USLManipulatorBoneContactMonitor`
(Source/USemLog/Private/Monitors/SLManipulatorBoneContactMonitor.cpp) and of the
identity lookup of `FSLIndividualUtils`
(Source/USemLog/Private/Individuals/SLIndividualUtils.cpp).

Conventions of the embedding:
* member functions take the monitor as an explicit state and return the new state
  together with the delegate broadcasts they made, in order;
* `GetWorld()->GetTimeSeconds()` is an explicit argument (`now`, `CurrTime`, ...);
  time is a rational number of seconds; the `float` subtractions of the source round
  their result to the nearest `float` (`FloatSub`);
* pointers are values carrying a `ptr` field, pointer equality is equality of values,
  a null pointer is `none`;
* `UE_LOG` output and the render state are not part of the state.
-/

namespace USemLog

/-- World time in seconds. -/
abbrev Time := ℚ

/-! ## Single-precision arithmetic

World times, the timestamps of the pending ends and `ConcatenateIfSmaller` are `float`s in
the source, and `StartTime - EvItr->Timestamp` and `CurrTime - EvItr->Timestamp` are
`float` subtractions: the exact difference rounded to the nearest `float`, ties to the
even significand. Values of magnitude `2 ^ 128` and above, where a `float` is an infinity,
do not occur as times and are rounded in the binade of exponent 127. The delays handed to
`SetTimer` are not rounded: the timer manager is the engine's, and a timer of the model
expires exactly at its delay. -/

/-- Rounding of a rational to the nearest integer, a tie to the even one. -/
def RoundHalfEven (q : ℚ) : ℤ :=
  if q - ⌊q⌋ < 1 / 2 then ⌊q⌋
  else if 1 / 2 < q - ⌊q⌋ then ⌊q⌋ + 1
  else if ⌊q⌋ % 2 = 0 then ⌊q⌋
  else ⌊q⌋ + 1

/-- The search of the `float` exponent of a positive `x`: from `e` upwards, over at most
`n` binades, for the first binade whose upper end `2 ^ (e + 1)` is above `x`. -/
def FloatExponentFrom (x : ℚ) : ℕ → ℤ → ℤ
  | 0, e => e
  | n + 1, e => if x < 2 ^ (e + 1) then e else FloatExponentFrom x n (e + 1)

/-- The exponent of the `float` binade of a positive `x`: the `e` with
`2 ^ e ≤ x < 2 ^ (e + 1)`, kept between -126 (the subnormal numbers share the spacing of
the smallest normal binade) and 127. -/
def FloatExponent (x : ℚ) : ℤ := FloatExponentFrom x 253 (-126)

/-- The `float` nearest to a positive `x`: a multiple of `2 ^ (e - 23)`, the spacing of
the 24-bit significands in the binade of `x`. -/
def RoundToFloatPos (x : ℚ) : ℚ :=
  RoundHalfEven (x / 2 ^ (FloatExponent x - 23)) * 2 ^ (FloatExponent x - 23)

/-- The `float` nearest to `x`, a tie to the even significand. -/
def RoundToFloat (x : ℚ) : ℚ :=
  if 0 < x then RoundToFloatPos x else if x < 0 then -RoundToFloatPos (-x) else 0

/-- The `float` subtraction `a - b`: on two `float`s, the result of the machine
subtraction. -/
def FloatSub (a b : Time) : Time := RoundToFloat (a - b)

/-! ## Engine containers and timers -/

/-- Modelled from the spec: the container of `ActiveContacts`. The member is declared in
the monitor's header, which is not among the sources; the data model of the spec
describes an active contact as set membership, so the container is the engine's `TSet`,
a collection without repeated elements. `Elements` is the order in which a range-for
visits the set. -/
structure TSet (α : Type) where
  Elements : List α
  nodup : Elements.Nodup

namespace TSet

variable {α : Type} [DecidableEq α]

instance : DecidableEq (TSet α) := fun a b =>
  match a, b with
  | ⟨xs, _⟩, ⟨ys, _⟩ =>
    if h : xs = ys then isTrue (by subst h; rfl)
    else isFalse (by intro hab; cases hab; exact h rfl)

/-- `TSet::Empty()`. -/
def Empty : TSet α := ⟨[], List.nodup_nil⟩

/-- `TSet::Contains`. -/
def Contains (s : TSet α) (x : α) : Bool := decide (x ∈ s.Elements)

/-- `TSet::Num()`. -/
def Num (s : TSet α) : Nat := s.Elements.length

/-- `TSet::Emplace`: adds the element unless an equal one is already stored. -/
def Emplace (s : TSet α) (x : α) : TSet α :=
  if h : x ∈ s.Elements then s
  else ⟨s.Elements ++ [x], List.Nodup.append s.nodup (List.nodup_singleton x)
    (by
      intro a ha hx
      have : a = x := by simpa using hx
      exact h (this ▸ ha))⟩

/-- `TSet::Remove`: removes the element, returns the set and the number of removed
elements. -/
def Remove (s : TSet α) (x : α) : TSet α × Nat :=
  (⟨s.Elements.erase x, s.nodup.erase x⟩, if x ∈ s.Elements then 1 else 0)

end TSet

/-- `FTimerHandle` as seen through the world's timer manager: `none` when no timer is
pending for the handle, `some t` when a one-shot timer is pending and expires at `t`. -/
abbrev FTimerHandle := Option Time

/-- `FTimerManager::IsTimerActive`. -/
def IsTimerActive (Handle : FTimerHandle) : Bool := Handle.isSome

/-- `FTimerManager::SetTimer(Handle, ..., InRate, false)` called at time `now`: replaces
whatever was pending for the handle; a rate that is not positive only clears it. -/
def SetTimer (now : Time) (InRate : Time) : FTimerHandle :=
  if 0 < InRate then some (now + InRate) else none

/-- `FTimerManager::ClearTimer`. -/
def ClearTimer : FTimerHandle := none

/-! ## Individuals and actors -/

/-- `USLBaseIndividual*` (non-null): the semantic individual, identified by its address. -/
structure USLBaseIndividual where
  ptr : Nat
  deriving DecidableEq, Repr

/-- `USLIndividualComponent`: holds the individual object, which may be null.
`bIsLoaded` is what `IsLoaded()` returns. -/
structure USLIndividualComponent where
  IndividualObject : Option USLBaseIndividual
  bIsLoaded : Bool := false
  deriving DecidableEq, Repr

/-- Modelled from the spec: `USLIndividualComponent::GetIndividualObject`, whose source
is not among the sources; it is the lookup of the individual the component holds and
returns null when the component holds none. -/
def USLIndividualComponent.GetIndividualObject (IC : USLIndividualComponent) :
    Option USLBaseIndividual :=
  IC.IndividualObject

/-- `FName`. -/
abbrev FName := String

/-- `INDEX_NONE`. -/
def INDEX_NONE : Int := -1

/-- `FString`. -/
abbrev FString := String

/-- `USkeletalMeshComponent*` (non-null): the names of the bones of its mesh, in the order
of their indices, and what `SkeletalMesh->GetFullName()` returns (`none` when
`SkeletalMesh` is null). -/
structure USkeletalMeshComponent where
  BoneNames : List FName
  SkeletalMesh : Option FString := none
  deriving DecidableEq, Repr

/-- `USkeletalMeshComponent::GetBoneIndex`. -/
def USkeletalMeshComponent.GetBoneIndex (SMC : USkeletalMeshComponent) (BoneName : FName) :
    Int :=
  if BoneName ∈ SMC.BoneNames then (SMC.BoneNames.indexOf BoneName : Int) else INDEX_NONE

/-- `UStaticMeshComponent*` (non-null): what `GetStaticMesh()->GetFullName()` returns
(`none` when `GetStaticMesh()` is null). -/
structure UStaticMeshComponent where
  StaticMesh : Option FString
  deriving DecidableEq, Repr

/-- `ELinearConstraintMotion`. -/
inductive ELinearConstraintMotion
  | LCM_Free
  | LCM_Limited
  | LCM_Locked
  deriving DecidableEq, Repr

/-- `EAngularConstraintMotion`. -/
inductive EAngularConstraintMotion
  | ACM_Free
  | ACM_Limited
  | ACM_Locked
  deriving DecidableEq, Repr

/-- `FConstraintInstance`: what its six motion getters return. -/
structure FConstraintInstance where
  LinearXMotion : ELinearConstraintMotion
  LinearYMotion : ELinearConstraintMotion
  LinearZMotion : ELinearConstraintMotion
  AngularSwing1Motion : EAngularConstraintMotion
  AngularSwing2Motion : EAngularConstraintMotion
  AngularTwistMotion : EAngularConstraintMotion
  deriving DecidableEq, Repr

/-- `UPhysicsConstraintComponent*` (non-null). -/
structure UPhysicsConstraintComponent where
  ConstraintInstance : FConstraintInstance
  deriving DecidableEq, Repr

/-- `AActor*` (non-null). `bIsStaticMeshActor` is `IsA(AStaticMeshActor::StaticClass())`,
`IndividualComponent` is `GetComponentByClass(USLIndividualComponent::StaticClass())`.
`bIsSkeletalMeshActor` says whether `Cast<ASkeletalMeshActor>` succeeds, and
`SkeletalMeshComponent` is what `GetSkeletalMeshComponent()` returns then; in the same
way `StaticMeshComponent` is what `GetStaticMeshComponent()` returns,
`bIsPhysicsConstraintActor` and `ConstraintComp` stand for `APhysicsConstraintActor` and
`GetConstraintComp()`, `bIsVirtualCameraView` for `ASLVirtualCameraView` and
`bIsAtmosphericFog` for `AAtmosphericFog`. `Name` is `GetName()`, `ActorLabel` is
`GetActorLabel()`. `AttachParentClass` is `none` when `GetAttachParentActor()` is null, and
otherwise what `FSLTagIO::GetValue` reads from the parent for the tag type `SemLog` and
the key `Class`; `AttachParentSocketName` is `GetAttachParentSocketName()`, with `none` for
`NAME_None`. -/
structure AActor where
  ptr : Nat
  bIsStaticMeshActor : Bool
  IndividualComponent : Option USLIndividualComponent
  bIsSkeletalMeshActor : Bool := false
  SkeletalMeshComponent : Option USkeletalMeshComponent := none
  StaticMeshComponent : Option UStaticMeshComponent := none
  bIsPhysicsConstraintActor : Bool := false
  ConstraintComp : Option UPhysicsConstraintComponent := none
  bIsVirtualCameraView : Bool := false
  bIsAtmosphericFog : Bool := false
  Name : FString := ""
  ActorLabel : FString := ""
  AttachParentClass : Option FString := none
  AttachParentSocketName : Option FName := none
  bIsValidLowLevel : Bool := true
  bIsPendingKillOrUnreachable : Bool := false
  deriving DecidableEq, Repr

namespace FSLIndividualUtils

/-- `FSLIndividualUtils::GetIndividualComponent`. -/
def GetIndividualComponent (Owner : AActor) : Option USLIndividualComponent :=
  match Owner.IndividualComponent with
  | some AC => some AC
  | none => none

/-- `FSLIndividualUtils::GetIndividualObject`. -/
def GetIndividualObject (Owner : AActor) : Option USLBaseIndividual :=
  match GetIndividualComponent Owner with
  | some IC => IC.GetIndividualObject
  | none => none

end FSLIndividualUtils

/-! ## The monitor -/

/-- The colours the monitor gives to its debug shape. -/
inductive FColor
  | Unset
  | Red
  | Yellow
  | Green
  deriving DecidableEq, Repr

/-- `FSLManipulatorContactMonitorEndEvent`: a pending end of an overlap, with the two
members the monitor reads. -/
structure FSLManipulatorContactMonitorEndEvent where
  Other : USLBaseIndividual
  Timestamp : Time
  deriving DecidableEq

/-- What the monitor broadcasts on its four delegates. -/
inductive Broadcast
  | OnBeginGraspBoneOverlap (Other : USLBaseIndividual)
  | OnEndGraspBoneOverlap (Other : USLBaseIndividual)
  | OnBeginContactBoneOverlap (Other : USLBaseIndividual)
  | OnEndContactBoneOverlap (Other : USLBaseIndividual)
  deriving DecidableEq, Repr

/-- The two constants `ConcatenateIfSmaller` and `ConcatenateIfSmallerDelay` of the
monitor's header, which is not among the sources; they are parameters of the model. -/
structure Constants where
  ConcatenateIfSmaller : Time
  ConcatenateIfSmallerDelay : Time

/-- The state of a `USLManipulatorBoneContactMonitor`: the members its member functions
read and write.

`bGraspCallbacksBound` says that `OnGraspOverlapBegin` and `OnGraspOverlapEnd` are bound to
`OnComponentBeginOverlap` and `OnComponentEndOverlap`; the source adds and removes the
two only together. `bContactCallbacksBound` is the same for the contact callbacks.
`bGenerateOverlapEvents` and `bHiddenInGame` are the values last given to
`SetGenerateOverlapEvents` and `SetHiddenInGame`. -/
structure USLManipulatorBoneContactMonitor where
  Owner : AActor
  IgnoreList : List (Option AActor)
  bIsInit : Bool
  bIsStarted : Bool
  bIsFinished : Bool
  bIsNotSkeletal : Bool
  bIsGraspCheckPaused : Bool
  bDetectGrasps : Bool
  bDetectContacts : Bool
  bVisualDebug : Bool
  bHiddenInGame : Bool
  bGenerateOverlapEvents : Bool
  ShapeColor : FColor
  bGraspCallbacksBound : Bool
  bContactCallbacksBound : Bool
  ActiveContacts : TSet USLBaseIndividual
  GraspDelayTimerHandle : FTimerHandle
  ContactDelayTimerHandle : FTimerHandle
  RecentlyEndedGraspOverlapEvents : List FSLManipulatorContactMonitorEndEvent
  RecentlyEndedContactOverlapEvents : List FSLManipulatorContactMonitorEndEvent
  BoneName : FName
  deriving DecidableEq

namespace USLManipulatorBoneContactMonitor

/-- A member function's result: the monitor afterwards and the broadcasts made. -/
abbrev Result := USLManipulatorBoneContactMonitor × List Broadcast

/-- `SetColor`. -/
def SetColor (m : USLManipulatorBoneContactMonitor) (Color : FColor) :
    USLManipulatorBoneContactMonitor :=
  if m.ShapeColor ≠ Color then { m with ShapeColor := Color } else m

/-- `BindGraspOverlapCallbacks`; the two `IsAlreadyBound` tests read the one flag. -/
def BindGraspOverlapCallbacks (m : USLManipulatorBoneContactMonitor) :
    USLManipulatorBoneContactMonitor :=
  if m.bGraspCallbacksBound || m.bGraspCallbacksBound then m
  else { m with bGraspCallbacksBound := true }

/-- `UnbindGraspOverlapCallbacks`; the two `IsAlreadyBound` tests read the one flag. -/
def UnbindGraspOverlapCallbacks (m : USLManipulatorBoneContactMonitor) :
    USLManipulatorBoneContactMonitor :=
  if !m.bGraspCallbacksBound || !m.bGraspCallbacksBound then m
  else { m with bGraspCallbacksBound := false }

/-- `BindContactOverlapCallbacks`; the two `IsAlreadyBound` tests read the one flag. -/
def BindContactOverlapCallbacks (m : USLManipulatorBoneContactMonitor) :
    USLManipulatorBoneContactMonitor :=
  if m.bContactCallbacksBound || m.bContactCallbacksBound then m
  else { m with bContactCallbacksBound := true }

/-- `UnbindContactOverlapCallbacks`; the two `IsAlreadyBound` tests read the one flag. -/
def UnbindContactOverlapCallbacks (m : USLManipulatorBoneContactMonitor) :
    USLManipulatorBoneContactMonitor :=
  if !m.bContactCallbacksBound || !m.bContactCallbacksBound then m
  else { m with bContactCallbacksBound := false }

/-- The loop of `SkipRecentGraspOverlapEndEventBroadcast` and of `SkipIfJitterContact`
over a pending-end array: the first entry of the same individual for which the `float`
difference `StartTime - EvItr->Timestamp` is less than `ConcatenateIfSmaller` is removed
and the remaining array returned; `none` when the loop runs to its end without removing
anything. -/
def RemoveFirstJitter (K : Constants) (OtherIndividual : USLBaseIndividual)
    (StartTime : Time) :
    List FSLManipulatorContactMonitorEndEvent →
      Option (List FSLManipulatorContactMonitorEndEvent)
  | [] => none
  | Ev :: Rest =>
    if Ev.Other = OtherIndividual ∧ FloatSub StartTime Ev.Timestamp < K.ConcatenateIfSmaller then
      some Rest
    else
      (RemoveFirstJitter K OtherIndividual StartTime Rest).map (fun r => Ev :: r)

/-- `SkipRecentGraspOverlapEndEventBroadcast`: the monitor afterwards and the returned
flag. -/
def SkipRecentGraspOverlapEndEventBroadcast (K : Constants)
    (m : USLManipulatorBoneContactMonitor) (OtherIndividual : USLBaseIndividual)
    (StartTime : Time) : USLManipulatorBoneContactMonitor × Bool :=
  match RemoveFirstJitter K OtherIndividual StartTime m.RecentlyEndedGraspOverlapEvents with
  | some Rest =>
    let m1 := { m with RecentlyEndedGraspOverlapEvents := Rest }
    if m1.RecentlyEndedGraspOverlapEvents.length = 0 then
      ({ m1 with GraspDelayTimerHandle := ClearTimer }, true)
    else (m1, true)
  | none => (m, false)

/-- `SkipIfJitterContact`: the monitor afterwards and the returned flag. -/
def SkipIfJitterContact (K : Constants)
    (m : USLManipulatorBoneContactMonitor) (OtherIndividual : USLBaseIndividual)
    (StartTime : Time) : USLManipulatorBoneContactMonitor × Bool :=
  match RemoveFirstJitter K OtherIndividual StartTime m.RecentlyEndedContactOverlapEvents with
  | some Rest =>
    let m1 := { m with RecentlyEndedContactOverlapEvents := Rest }
    if m1.RecentlyEndedContactOverlapEvents.length = 0 then
      ({ m1 with ContactDelayTimerHandle := ClearTimer }, true)
    else (m1, true)
  | none => (m, false)

/-- `OnGraspOverlapBegin`, called at world time `now`. -/
def OnGraspOverlapBegin (K : Constants) (m : USLManipulatorBoneContactMonitor)
    (OtherActor : AActor) (now : Time) : Result :=
  if OtherActor = m.Owner then (m, [])
  else
    match FSLIndividualUtils.GetIndividualObject OtherActor with
    | none => (m, [])
    | some OtherIndividual =>
      if OtherActor.bIsStaticMeshActor && !(m.IgnoreList.contains (some OtherActor)) then
        let m1 := { m with ActiveContacts := m.ActiveContacts.Emplace OtherIndividual }
        let skip := SkipRecentGraspOverlapEndEventBroadcast K m1 OtherIndividual now
        let out := if !skip.2 then [Broadcast.OnBeginGraspBoneOverlap OtherIndividual] else []
        let m2 := skip.1
        if m2.bVisualDebug then (m2.SetColor FColor.Green, out) else (m2, out)
      else (m, [])

/-- `OnGraspOverlapEnd`, called at world time `now`. -/
def OnGraspOverlapEnd (K : Constants) (m : USLManipulatorBoneContactMonitor)
    (OtherActor : AActor) (now : Time) : Result :=
  if OtherActor = m.Owner then (m, [])
  else
    match FSLIndividualUtils.GetIndividualObject OtherActor with
    | none => (m, [])
    | some OtherIndividual =>
      if OtherActor.bIsStaticMeshActor && !(m.IgnoreList.contains (some OtherActor)) then
        let removed := m.ActiveContacts.Remove OtherIndividual
        let m1 := { m with ActiveContacts := removed.1 }
        let m2 :=
          if removed.2 > 0 then
            let m3 := { m1 with
              RecentlyEndedGraspOverlapEvents :=
                m1.RecentlyEndedGraspOverlapEvents ++ [⟨OtherIndividual, now⟩] }
            if !IsTimerActive m3.GraspDelayTimerHandle then
              { m3 with GraspDelayTimerHandle :=
                  SetTimer now (K.ConcatenateIfSmaller * (11 / 10)) }
            else m3
          else m1
        if m2.bVisualDebug then
          if m2.ActiveContacts.Num = 0 then (m2.SetColor FColor.Red, []) else (m2, [])
        else (m2, [])
      else (m, [])

/-- `DelayedGraspOverlapEndEventCallback`, called at world time `CurrTime`. -/
def DelayedGraspOverlapEndEventCallback (K : Constants)
    (m : USLManipulatorBoneContactMonitor) (CurrTime : Time) : Result :=
  let out := (m.RecentlyEndedGraspOverlapEvents.filter
      (fun Ev => FloatSub CurrTime Ev.Timestamp > K.ConcatenateIfSmaller)).map
      (fun Ev => Broadcast.OnEndGraspBoneOverlap Ev.Other)
  let m1 := { m with
    RecentlyEndedGraspOverlapEvents := m.RecentlyEndedGraspOverlapEvents.filter
      (fun Ev => !decide (FloatSub CurrTime Ev.Timestamp > K.ConcatenateIfSmaller)) }
  if m1.RecentlyEndedGraspOverlapEvents.length > 0 then
    ({ m1 with GraspDelayTimerHandle :=
        SetTimer CurrTime (K.ConcatenateIfSmaller + K.ConcatenateIfSmallerDelay) }, out)
  else (m1, out)

/-- `OnContactOverlapBegin`, called at world time `now`. -/
def OnContactOverlapBegin (K : Constants) (m : USLManipulatorBoneContactMonitor)
    (OtherActor : AActor) (now : Time) : Result :=
  if OtherActor = m.Owner then (m, [])
  else
    match FSLIndividualUtils.GetIndividualObject OtherActor with
    | none => (m, [])
    | some OtherIndividual =>
      if OtherActor.bIsStaticMeshActor && !(m.IgnoreList.contains (some OtherActor)) then
        let skip := SkipIfJitterContact K m OtherIndividual now
        if !skip.2 then (skip.1, [Broadcast.OnBeginContactBoneOverlap OtherIndividual])
        else (skip.1, [])
      else (m, [])

/-- `OnContactOverlapEnd`, called at world time `now`. -/
def OnContactOverlapEnd (K : Constants) (m : USLManipulatorBoneContactMonitor)
    (OtherActor : AActor) (now : Time) : Result :=
  if OtherActor = m.Owner then (m, [])
  else
    match FSLIndividualUtils.GetIndividualObject OtherActor with
    | none => (m, [])
    | some OtherIndividual =>
      if OtherActor.bIsStaticMeshActor && !(m.IgnoreList.contains (some OtherActor)) then
        let m1 := { m with
          RecentlyEndedContactOverlapEvents :=
            m.RecentlyEndedContactOverlapEvents ++ [⟨OtherIndividual, now⟩] }
        if !IsTimerActive m1.ContactDelayTimerHandle then
          ({ m1 with ContactDelayTimerHandle :=
              SetTimer now (K.ConcatenateIfSmaller + K.ConcatenateIfSmallerDelay) }, [])
        else (m1, [])
      else (m, [])

/-- `DelayContactEndCallback`, called at world time `CurrTime`. -/
def DelayContactEndCallback (K : Constants)
    (m : USLManipulatorBoneContactMonitor) (CurrTime : Time) : Result :=
  let out := (m.RecentlyEndedContactOverlapEvents.filter
      (fun Ev => FloatSub CurrTime Ev.Timestamp > K.ConcatenateIfSmaller)).map
      (fun Ev => Broadcast.OnEndContactBoneOverlap Ev.Other)
  let m1 := { m with
    RecentlyEndedContactOverlapEvents := m.RecentlyEndedContactOverlapEvents.filter
      (fun Ev => !decide (FloatSub CurrTime Ev.Timestamp > K.ConcatenateIfSmaller)) }
  if m1.RecentlyEndedContactOverlapEvents.length > 0 then
    ({ m1 with ContactDelayTimerHandle :=
        SetTimer CurrTime (K.ConcatenateIfSmaller + K.ConcatenateIfSmallerDelay) }, out)
  else (m1, out)

/-- `TriggerInitialGraspOverlaps`, called at world time `now`. `CurrOverlappingComponents`
is what `GetOverlappingComponents` returns, each component given by its owner. -/
def TriggerInitialGraspOverlaps (K : Constants) (m : USLManipulatorBoneContactMonitor)
    (CurrOverlappingComponents : List AActor) (now : Time) : Result :=
  CurrOverlappingComponents.foldl
    (fun acc CompOwner =>
      let r := OnGraspOverlapBegin K acc.1 CompOwner now
      (r.1, acc.2 ++ r.2))
    (m, [])

/-- `SetGraspCheckPaused`, called at world time `now` while the components of
`CurrOverlappingComponents` overlap the monitor. -/
def SetGraspCheckPaused (K : Constants) (m : USLManipulatorBoneContactMonitor)
    (bNewValue : Bool) (CurrOverlappingComponents : List AActor) (now : Time) : Result :=
  if bNewValue ≠ m.bIsGraspCheckPaused then
    let m1 := { m with bIsGraspCheckPaused := bNewValue }
    let m2 :=
      if m1.bVisualDebug then
        (if m1.bIsGraspCheckPaused then m1.SetColor FColor.Yellow else m1.SetColor FColor.Red)
      else m1
    if m2.bIsGraspCheckPaused then
      let out := m2.ActiveContacts.Elements.map (fun AC => Broadcast.OnEndGraspBoneOverlap AC)
      let m3 := { m2 with ActiveContacts := TSet.Empty }
      (m3.UnbindGraspOverlapCallbacks, out)
    else
      let r := TriggerInitialGraspOverlaps K m2 CurrOverlappingComponents now
      (r.1.BindGraspOverlapCallbacks, r.2)
  else (m, [])

/-- `Finish`. -/
def Finish (m : USLManipulatorBoneContactMonitor) (_bForced : Bool) : Result :=
  if !m.bIsFinished && (m.bIsInit || m.bIsStarted) then
    let outGrasp := m.RecentlyEndedGraspOverlapEvents.map
      (fun EvItr => Broadcast.OnEndGraspBoneOverlap EvItr.Other)
    let m1 := { m with RecentlyEndedGraspOverlapEvents := [] }
    let outContact := m1.RecentlyEndedContactOverlapEvents.map
      (fun EvItr => Broadcast.OnEndContactBoneOverlap EvItr.Other)
    let m2 := { m1 with RecentlyEndedContactOverlapEvents := [] }
    let m3 := { m2 with bGenerateOverlapEvents := false }
    ({ m3 with bIsStarted := false, bIsInit := false, bIsFinished := true },
      outGrasp ++ outContact)
  else (m, [])

/-! ## The monitor in its environment -/

/-- The guard the four overlap callbacks share: the individual of the other actor when
the signal is accepted (the actor is not the owner, is annotated, is a static mesh actor
and is not on the ignore list), `none` when the callback returns early. -/
def AcceptedIndividual (m : USLManipulatorBoneContactMonitor) (OtherActor : AActor) :
    Option USLBaseIndividual :=
  if OtherActor = m.Owner then none
  else
    match FSLIndividualUtils.GetIndividualObject OtherActor with
    | none => none
    | some OtherIndividual =>
      if OtherActor.bIsStaticMeshActor && !(m.IgnoreList.contains (some OtherActor)) then
        some OtherIndividual
      else none

/-- What the engine delivers to the monitor: the four overlap signals of the physics
layer and the expiry of the two delay timers, each with the world time of the call. -/
inductive Event
  | GraspOverlapBegin (OtherActor : AActor) (now : Time)
  | GraspOverlapEnd (OtherActor : AActor) (now : Time)
  | ContactOverlapBegin (OtherActor : AActor) (now : Time)
  | ContactOverlapEnd (OtherActor : AActor) (now : Time)
  | GraspDelayTimer (now : Time)
  | ContactDelayTimer (now : Time)
  deriving DecidableEq

/-- The world time of an event. -/
def Event.time : Event → Time
  | .GraspOverlapBegin _ now => now
  | .GraspOverlapEnd _ now => now
  | .ContactOverlapBegin _ now => now
  | .ContactOverlapEnd _ now => now
  | .GraspDelayTimer now => now
  | .ContactDelayTimer now => now

/-- The timer manager fires `GraspDelayTimerHandle`: the one-shot timer is no longer
pending and `DelayedGraspOverlapEndEventCallback` runs. -/
def FireGraspDelayTimer (K : Constants) (m : USLManipulatorBoneContactMonitor)
    (now : Time) : Result :=
  DelayedGraspOverlapEndEventCallback K { m with GraspDelayTimerHandle := none } now

/-- The timer manager fires `ContactDelayTimerHandle`: the one-shot timer is no longer
pending and `DelayContactEndCallback` runs. -/
def FireContactDelayTimer (K : Constants) (m : USLManipulatorBoneContactMonitor)
    (now : Time) : Result :=
  DelayContactEndCallback K { m with ContactDelayTimerHandle := none } now

/-- The monitor handles one event. -/
def Step (K : Constants) (m : USLManipulatorBoneContactMonitor) : Event → Result
  | .GraspOverlapBegin OtherActor now => OnGraspOverlapBegin K m OtherActor now
  | .GraspOverlapEnd OtherActor now => OnGraspOverlapEnd K m OtherActor now
  | .ContactOverlapBegin OtherActor now => OnContactOverlapBegin K m OtherActor now
  | .ContactOverlapEnd OtherActor now => OnContactOverlapEnd K m OtherActor now
  | .GraspDelayTimer now => FireGraspDelayTimer K m now
  | .ContactDelayTimer now => FireContactDelayTimer K m now

/-- The monitor handles a sequence of events; the broadcasts are collected in order. -/
def Run (K : Constants) (m : USLManipulatorBoneContactMonitor) : List Event → Result
  | [] => (m, [])
  | e :: es =>
    let r := Step K m e
    let rs := Run K r.1 es
    (rs.1, r.2 ++ rs.2)

/-- The pending delay timer that expires first, if it expires strictly before `t`: the
overlap signals of a frame are handled before a timer of that frame fires. -/
def NextExpired (m : USLManipulatorBoneContactMonitor) (t : Time) : Option Event :=
  match m.GraspDelayTimerHandle, m.ContactDelayTimerHandle with
  | some g, some c =>
    if g ≤ c then (if g < t then some (Event.GraspDelayTimer g) else none)
    else (if c < t then some (Event.ContactDelayTimer c) else none)
  | some g, none => if g < t then some (Event.GraspDelayTimer g) else none
  | none, some c => if c < t then some (Event.ContactDelayTimer c) else none
  | none, none => none

/-- The timer manager advances the world time to `t`: the delay timers that expire
before `t` fire, each exactly at its expiry time, earliest first. `fuel` bounds the
number of firings. -/
def TickTimers (K : Constants) : Nat → Time → Result → Result
  | 0, _, r => r
  | fuel + 1, t, r =>
    match NextExpired r.1 t with
    | none => r
    | some e =>
      let r1 := Step K r.1 e
      TickTimers K fuel t (r1.1, r.2 ++ r1.2)

/-- The monitor handles a sequence of overlap signals while the timer manager fires
the delay timers at their expiry times in between. -/
def RunTimed (K : Constants) (fuel : Nat) (m : USLManipulatorBoneContactMonitor) :
    List Event → Result
  | [] => (m, [])
  | e :: es =>
    let r0 := TickTimers K fuel e.time (m, [])
    let r1 := Step K r0.1 e
    let rs := RunTimed K fuel r1.1 es
    (rs.1, r0.2 ++ r1.2 ++ rs.2)

/-- A monitor with nothing in flight: no active contact, no pending end, no pending
timer (as the constructor leaves it). -/
def Fresh (m : USLManipulatorBoneContactMonitor) : Prop :=
  m.ActiveContacts = TSet.Empty ∧
  m.RecentlyEndedGraspOverlapEvents = [] ∧ m.RecentlyEndedContactOverlapEvents = [] ∧
  m.GraspDelayTimerHandle = none ∧ m.ContactDelayTimerHandle = none

instance (m : USLManipulatorBoneContactMonitor) : Decidable m.Fresh := by
  unfold Fresh
  exact inferInstance

/-- The monitor handles a sequence of events and is then finished. -/
def RunThenFinish (K : Constants) (m : USLManipulatorBoneContactMonitor) (es : List Event)
    (bForced : Bool) : Result :=
  let r := Run K m es
  let f := Finish r.1 bForced
  (f.1, r.2 ++ f.2)

/-- What an event is for individual `X` on the grasp channel: `some true` for an
accepted grasp begin signal of `X`, `some false` for an accepted grasp end signal of `X`,
`none` for everything else. -/
def GraspSignalOf (m : USLManipulatorBoneContactMonitor) (X : USLBaseIndividual) :
    Event → Option Bool
  | .GraspOverlapBegin OtherActor _ =>
    if AcceptedIndividual m OtherActor = some X then some true else none
  | .GraspOverlapEnd OtherActor _ =>
    if AcceptedIndividual m OtherActor = some X then some false else none
  | _ => none

/-- What an event is for individual `X` on the contact channel: `some true` for an
accepted contact begin signal of `X`, `some false` for an accepted contact end signal of
`X`, `none` for everything else. -/
def ContactSignalOf (m : USLManipulatorBoneContactMonitor) (X : USLBaseIndividual) :
    Event → Option Bool
  | .ContactOverlapBegin OtherActor _ =>
    if AcceptedIndividual m OtherActor = some X then some true else none
  | .ContactOverlapEnd OtherActor _ =>
    if AcceptedIndividual m OtherActor = some X then some false else none
  | _ => none

/-- The accepted grasp overlap signals of individual `X` in a sequence of events, in
order: `true` for a begin, `false` for an end. -/
def GraspSignalsOf (m : USLManipulatorBoneContactMonitor) (X : USLBaseIndividual)
    (es : List Event) : List Bool :=
  es.filterMap (GraspSignalOf m X)

/-- The accepted contact overlap signals of individual `X` in a sequence of events, in
order: `true` for a begin, `false` for an end. -/
def ContactSignalsOf (m : USLManipulatorBoneContactMonitor) (X : USLBaseIndividual)
    (es : List Event) : List Bool :=
  es.filterMap (ContactSignalOf m X)

/-- Begin and end signals alternate, the first one being `expect`. -/
def Alternates : Bool → List Bool → Bool
  | _, [] => true
  | expect, s :: ss => (s == expect) && Alternates (!expect) ss

/-- Whether the overlap is on after the signals, given whether it was on before: the
last signal decides. -/
def OpenAfter : Bool → List Bool → Bool
  | b, [] => b
  | _, s :: ss => OpenAfter s ss

/-- The number of pending ends of individual `X` in a pending-end array. -/
def PendingOf (X : USLBaseIndividual) (Q : List FSLManipulatorContactMonitorEndEvent) : Nat :=
  Q.countP (fun Ev => Ev.Other = X)

/-- The number of pending ends of individual `X` in a pending-end array that a begin
signal of `X` at time `t` would concatenate with (the `float` difference of `t` and
their timestamp is less than `ConcatenateIfSmaller`). -/
def JitterCount (K : Constants) (X : USLBaseIndividual) (t : Time)
    (Q : List FSLManipulatorContactMonitorEndEvent) : Nat :=
  Q.countP
    (fun Ev => decide (Ev.Other = X ∧ FloatSub t Ev.Timestamp < K.ConcatenateIfSmaller))

/-- The states a monitor reaches, together with the world time at which it is in the
state: it starts with nothing in flight and then handles overlap signals and timer
firings, is paused and resumed, and finished, while the world time never goes back. -/
inductive Reachable (K : Constants) : USLManipulatorBoneContactMonitor → Time → Prop
  | fresh (m : USLManipulatorBoneContactMonitor) (t : Time) :
      m.Fresh → Reachable K m t
  | event (m : USLManipulatorBoneContactMonitor) (t : Time) (e : Event) :
      Reachable K m t → t ≤ e.time → Reachable K (Step K m e).1 e.time
  | paused (m : USLManipulatorBoneContactMonitor) (t : Time) (bNewValue : Bool)
      (CurrOverlappingComponents : List AActor) (now : Time) :
      Reachable K m t → t ≤ now →
      Reachable K (SetGraspCheckPaused K m bNewValue CurrOverlappingComponents now).1 now
  | finished (m : USLManipulatorBoneContactMonitor) (t : Time) (bForced : Bool) :
      Reachable K m t → Reachable K (Finish m bForced).1 t

/-! ### A concrete scene -/

/-- A hand: the skeletal actor that owns the monitor. -/
def Hand : AActor :=
  { ptr := 0, bIsStaticMeshActor := false, IndividualComponent := none,
    bIsSkeletalMeshActor := true,
    SkeletalMeshComponent := some { BoneNames := ["hand_r", "thumb_03_r", "index_03_r"] } }

/-- The individual of the cup. -/
def CupIndividual : USLBaseIndividual := { ptr := 7 }

/-- A cup: an annotated static mesh actor. -/
def Cup : AActor :=
  { ptr := 1, bIsStaticMeshActor := true, IndividualComponent := some { IndividualObject := some CupIndividual } }

/-- A static mesh actor with an individual component that holds no individual. -/
def Crate : AActor :=
  { ptr := 2, bIsStaticMeshActor := true, IndividualComponent := some { IndividualObject := none } }

/-- The constants 0.25 s and 0.05 s. -/
def QuarterSecond : Constants :=
  { ConcatenateIfSmaller := 1 / 4, ConcatenateIfSmallerDelay := 1 / 20 }

/-- A monitor on the hand, initialized and started for both channels, nothing in
flight. -/
def StartedMonitor : USLManipulatorBoneContactMonitor :=
  { Owner := Hand, IgnoreList := [], bIsInit := true, bIsStarted := true,
    bIsFinished := false, bIsNotSkeletal := false, bIsGraspCheckPaused := false,
    bDetectGrasps := true, bDetectContacts := true, bVisualDebug := false,
    bHiddenInGame := true, bGenerateOverlapEvents := true, ShapeColor := FColor.Unset,
    bGraspCallbacksBound := true, bContactCallbacksBound := true,
    ActiveContacts := TSet.Empty, GraspDelayTimerHandle := none,
    ContactDelayTimerHandle := none, RecentlyEndedGraspOverlapEvents := [],
    RecentlyEndedContactOverlapEvents := [], BoneName := "index_03_r" }

/-- At time `t`, every individual has at most one pending grasp end inside the
concatenation window, and none when it is an active contact. -/
def JitterFree (K : Constants) (m : USLManipulatorBoneContactMonitor) (t : Time) : Prop :=
  ∀ X, JitterCount K X t m.RecentlyEndedGraspOverlapEvents +
    (if X ∈ m.ActiveContacts.Elements then 1 else 0) ≤ 1

/-! ## Init and Start -/

/-- `AttachToBone`: the returned flag. `bAttachToComponent` is what the engine's
`AttachToComponent` returns if it is called; the attachment itself is part of the scene,
not of the monitor's members. -/
def AttachToBone (m : USLManipulatorBoneContactMonitor) (bAttachToComponent : Bool) : Bool :=
  match (if m.Owner.bIsSkeletalMeshActor then some m.Owner else none) with
  | some SkelAct =>
    match SkelAct.SkeletalMeshComponent with
    | some SMC =>
      if SMC.GetBoneIndex m.BoneName ≠ INDEX_NONE then
        if bAttachToComponent then true else false
      else false
    | none => false
  | none => false

/-- `Init`. `bAttachToComponent` is what the engine's `AttachToComponent` returns if
`AttachToBone` calls it. -/
def Init (m : USLManipulatorBoneContactMonitor) (bGrasp bContact : Bool)
    (bAttachToComponent : Bool) : USLManipulatorBoneContactMonitor :=
  if !bGrasp && !bContact then m
  else if !m.bIsInit then
    let m1 := { m with bDetectGrasps := bGrasp, bDetectContacts := bContact }
    let m2 := { m1 with IgnoreList := m1.IgnoreList.filter (fun IA => decide (IA ≠ none)) }
    let m3 := { m2 with bGenerateOverlapEvents := false }
    let m4 := if m3.bDetectGrasps then m3.BindGraspOverlapCallbacks else m3
    let m5 := if m4.bDetectContacts then m4.BindContactOverlapCallbacks else m4
    if m5.bIsNotSkeletal then
      let m6 :=
        if m5.bVisualDebug then
          let m7 := { m5 with bHiddenInGame := false }
          if m7.bIsGraspCheckPaused then m7.SetColor FColor.Yellow
          else m7.SetColor FColor.Red
        else m5
      { m6 with bIsInit := true }
    else if AttachToBone m5 bAttachToComponent then
      let m6 :=
        if m5.bVisualDebug then
          let m7 := { m5 with bHiddenInGame := false }
          if m7.bIsGraspCheckPaused then m7.SetColor FColor.Yellow
          else m7.SetColor FColor.Red
        else m5
      { m6 with bIsInit := true }
    else m5
  else m

/-- `Start`. -/
def Start (m : USLManipulatorBoneContactMonitor) : USLManipulatorBoneContactMonitor :=
  if !m.bIsStarted && m.bIsInit then
    let m1 :=
      if m.bVisualDebug then
        (if m.bIsGraspCheckPaused then m.SetColor FColor.Yellow else m.SetColor FColor.Red)
      else m
    let m2 := { m1 with bGenerateOverlapEvents := true }
    { m2 with bIsStarted := true }
  else m

/-! ## Calls on the monitor -/

/-- Everything that is called on a monitor: its public member functions, and the
overlap signals and timer firings the engine delivers. -/
inductive Call
  | Init (bGrasp bContact bAttachToComponent : Bool)
  | Start
  | SetGraspCheckPaused (bNewValue : Bool) (CurrOverlappingComponents : List AActor)
      (now : Time)
  | Finish (bForced : Bool)
  | Engine (e : Event)

/-- The monitor handles one call. -/
def Apply (K : Constants) (m : USLManipulatorBoneContactMonitor) : Call → Result
  | .Init bGrasp bContact bAttachToComponent => (Init m bGrasp bContact bAttachToComponent, [])
  | .Start => (Start m, [])
  | .SetGraspCheckPaused bNewValue CurrOverlappingComponents now =>
    SetGraspCheckPaused K m bNewValue CurrOverlappingComponents now
  | .Finish bForced => Finish m bForced
  | .Engine e => Step K m e

/-- The monitor handles a sequence of calls; the broadcasts are collected in order. -/
def ApplyAll (K : Constants) (m : USLManipulatorBoneContactMonitor) : List Call → Result
  | [] => (m, [])
  | c :: cs =>
    let r := Apply K m c
    let rs := ApplyAll K r.1 cs
    (rs.1, r.2 ++ rs.2)

/-- The call is an `Init`. -/
def Call.IsInit : Call → Bool
  | .Init _ _ _ => true
  | _ => false

/-- The call is one of the lifecycle calls `Init`, `Start`, `SetGraspCheckPaused`,
`Finish`. -/
def Call.IsLifecycle : Call → Bool
  | .Engine _ => false
  | _ => true

/-- The call is a `SetGraspCheckPaused`. -/
def Call.IsSetGraspCheckPaused : Call → Bool
  | .SetGraspCheckPaused _ _ _ => true
  | _ => false

/-- A broadcast on one of the two grasp delegates. -/
def IsGraspBroadcast : Broadcast → Bool
  | .OnBeginGraspBoneOverlap _ => true
  | .OnEndGraspBoneOverlap _ => true
  | _ => false

/-- A broadcast on one of the two contact delegates. -/
def IsContactBroadcast : Broadcast → Bool
  | .OnBeginContactBoneOverlap _ => true
  | .OnEndContactBoneOverlap _ => true
  | _ => false

/-- The world time never goes back along the events, starting at time `t`. -/
def Chronological : Time → List Event → Bool
  | _, [] => true
  | t, e :: es => decide (t ≤ e.time) && Chronological e.time es

/-- The world time after the events, starting at time `t`. -/
def TimeAfter : Time → List Event → Time
  | t, [] => t
  | _, e :: es => TimeAfter e.time es

/-- The call is a `Finish`. -/
def Call.IsFinish : Call → Bool
  | .Finish _ => true
  | _ => false

/-- On each channel a sweep timer is pending whenever the pending-end array is not
empty. -/
def PendingHaveTimer (m : USLManipulatorBoneContactMonitor) : Prop :=
  (m.RecentlyEndedGraspOverlapEvents ≠ [] → IsTimerActive m.GraspDelayTimerHandle = true) ∧
  (m.RecentlyEndedContactOverlapEvents ≠ [] →
    IsTimerActive m.ContactDelayTimerHandle = true)

/-- On each channel the pending-end array is not empty whenever a sweep timer is
pending. -/
def TimersHavePending (m : USLManipulatorBoneContactMonitor) : Prop :=
  (IsTimerActive m.GraspDelayTimerHandle = true → m.RecentlyEndedGraspOverlapEvents ≠ []) ∧
  (IsTimerActive m.ContactDelayTimerHandle = true →
    m.RecentlyEndedContactOverlapEvents ≠ [])

/-- A monitor on the hand before `Init`: the members as the constructor sets them, the
bone chosen in the editor. -/
def ConstructedMonitor : USLManipulatorBoneContactMonitor :=
  { Owner := Hand, IgnoreList := [], bIsInit := false, bIsStarted := false,
    bIsFinished := false, bIsNotSkeletal := false, bIsGraspCheckPaused := false,
    bDetectGrasps := false, bDetectContacts := false, bVisualDebug := false,
    bHiddenInGame := true, bGenerateOverlapEvents := true, ShapeColor := FColor.Unset,
    bGraspCallbacksBound := false, bContactCallbacksBound := false,
    ActiveContacts := TSet.Empty, GraspDelayTimerHandle := none,
    ContactDelayTimerHandle := none, RecentlyEndedGraspOverlapEvents := [],
    RecentlyEndedContactOverlapEvents := [], BoneName := "index_03_r" }

end USLManipulatorBoneContactMonitor

/-! ## Strings -/

namespace FString

/-- `FString::FindLastChar`: the index of the last occurrence of the character,
`INDEX_NONE` when there is none. -/
def FindLastChar (s : FString) (InChar : Char) : Int :=
  if InChar ∈ s.toList then
    ((s.toList.length - 1 - s.toList.reverse.indexOf InChar : Nat) : Int)
  else INDEX_NONE

/-- `FString::RemoveAt(Index, Count)`. -/
def RemoveAt (s : FString) (Index Count : Int) : FString :=
  String.mk (s.toList.take Index.toNat ++ s.toList.drop (Index.toNat + Count.toNat))

/-- Whether the characters begin with the given ones, case ignored. -/
def BeginsWith : List Char → List Char → Bool
  | _, [] => true
  | [], _ :: _ => false
  | c :: cs, d :: ds => (c.toLower == d.toLower) && BeginsWith cs ds

/-- `FString::RemoveFromStart` with the default `ESearchCase::IgnoreCase`: the string
afterwards and the returned flag. -/
def RemoveFromStart (s InStr : FString) : FString × Bool :=
  if InStr.toList = [] then (s, false)
  else if BeginsWith s.toList InStr.toList then
    (String.mk (s.toList.drop InStr.toList.length), true)
  else (s, false)

/-- Whether the characters `SubStr` occur in a row somewhere in the characters, case
ignored. -/
def Occurs (SubStr : List Char) : List Char → Bool
  | [] => BeginsWith [] SubStr
  | c :: cs => BeginsWith (c :: cs) SubStr || Occurs SubStr cs

/-- `FString::Contains` with the default `ESearchCase::IgnoreCase`, for a `SubStr` that
is not empty. -/
def Contains (s SubStr : FString) : Bool :=
  Occurs SubStr.toList s.toList

end FString

/-! ## Individuals of actors -/

/-- The classes of individuals that `CreateIndividualObject` instantiates. -/
inductive USLIndividualClass
  | USLRigidIndividual
  | USLConstraintIndividual
  | USLVirtualViewIndividual
  | USLSkeletalIndividual
  | USLSkyIndividual
  deriving DecidableEq, Repr

namespace FSLIndividualUtils

/-- `FSLIndividualUtils::GetIndividualClassName`. `CompOwner` is what
`IndividualComponent->GetOwner()` returns. The value is `none` where the source
dereferences a null mesh. -/
def GetIndividualClassName (CompOwner : AActor) (bDefaultToLabelName : Bool) :
    Option FString :=
  if CompOwner.bIsStaticMeshActor then
    match CompOwner.StaticMeshComponent with
    | some SMC =>
      match SMC.StaticMesh with
      | some FullName =>
        let FindCharPos := FString.FindLastChar FullName '.'
        let ClassName := FString.RemoveAt FullName 0 (FindCharPos + 1)
        some (FString.RemoveFromStart ClassName "SM_").1
      | none => none
    | none => some ""
  else if CompOwner.bIsSkeletalMeshActor then
    match CompOwner.SkeletalMeshComponent with
    | some SkMC =>
      match SkMC.SkeletalMesh with
      | some FullName =>
        let FindCharPos := FString.FindLastChar FullName '.'
        let ClassName := FString.RemoveAt FullName 0 (FindCharPos + 1)
        some (FString.RemoveFromStart ClassName "SK_").1
      | none => none
    | none => some ""
  else if CompOwner.bIsVirtualCameraView then
    match CompOwner.AttachParentClass with
    | some AttParentClass =>
      match CompOwner.AttachParentSocketName with
      | some SocketName => some (SocketName ++ "View")
      | none =>
        if !(AttParentClass.toList = []) then some (AttParentClass ++ "View")
        else some "View"
    | none => some "View"
  else if CompOwner.bIsPhysicsConstraintActor then
    match CompOwner.ConstraintComp with
    | some PCC =>
      if PCC.ConstraintInstance.LinearXMotion ≠ ELinearConstraintMotion.LCM_Locked ∨
          PCC.ConstraintInstance.LinearYMotion ≠ ELinearConstraintMotion.LCM_Locked ∨
          PCC.ConstraintInstance.LinearZMotion ≠ ELinearConstraintMotion.LCM_Locked then
        some ("Linear" ++ "Joint")
      else if PCC.ConstraintInstance.AngularSwing1Motion ≠ EAngularConstraintMotion.ACM_Locked ∨
          PCC.ConstraintInstance.AngularSwing2Motion ≠ EAngularConstraintMotion.ACM_Locked ∨
          PCC.ConstraintInstance.AngularTwistMotion ≠ EAngularConstraintMotion.ACM_Locked then
        some ("Revolute" ++ "Joint")
      else some ("Fixed" ++ "Joint")
    | none => some "Joint"
  else if CompOwner.bIsAtmosphericFog then some "AtmosphericFog"
  else if FString.Contains CompOwner.Name "SkySphere" then some "SkySphere"
  else if bDefaultToLabelName then some CompOwner.ActorLabel
  else some ""

/-- `FSLIndividualUtils::CreateIndividualObject`: the class of the object that
`NewObject` creates in `Outer`, `none` for the null pointer. -/
def CreateIndividualObject (Owner : AActor) : Option USLIndividualClass :=
  if Owner.bIsStaticMeshActor then some USLIndividualClass.USLRigidIndividual
  else if Owner.bIsPhysicsConstraintActor then some USLIndividualClass.USLConstraintIndividual
  else if Owner.bIsVirtualCameraView then some USLIndividualClass.USLVirtualViewIndividual
  else if Owner.bIsSkeletalMeshActor then some USLIndividualClass.USLSkeletalIndividual
  else if Owner.bIsAtmosphericFog || FString.Contains Owner.Name "SkySphere" then
    some USLIndividualClass.USLSkyIndividual
  else none

/-- `FSLIndividualUtils::CanHaveIndividualComponent`. -/
def CanHaveIndividualComponent (Actor : AActor) : Bool :=
  Actor.bIsStaticMeshActor
    || Actor.bIsSkeletalMeshActor
    || Actor.bIsPhysicsConstraintActor
    || Actor.bIsAtmosphericFog
    || Actor.bIsVirtualCameraView
    || FString.Contains Actor.Name "SkySphere"

end FSLIndividualUtils

/-- `USLConstraintIndividual`, as far as `CalcDefaultClassValue` reads it: `bIsInit` is
what `IsInit()` returns, `ParentActor` may be null, `TypeName` is what `GetTypeName()`
returns. -/
structure USLConstraintIndividual where
  bIsInit : Bool
  ParentActor : Option AActor
  TypeName : FString
  deriving DecidableEq, Repr

namespace USLConstraintIndividual

/-- `USLConstraintIndividual::CalcDefaultClassValue`. -/
def CalcDefaultClassValue (I : USLConstraintIndividual) : FString :=
  if I.bIsInit then
    match (match I.ParentActor with
      | some P => if P.bIsPhysicsConstraintActor then some P else none
      | none => none) with
    | some PCA =>
      match PCA.ConstraintComp with
      | some PCC =>
        if PCC.ConstraintInstance.LinearXMotion ≠ ELinearConstraintMotion.LCM_Locked ∨
            PCC.ConstraintInstance.LinearYMotion ≠ ELinearConstraintMotion.LCM_Locked ∨
            PCC.ConstraintInstance.LinearZMotion ≠ ELinearConstraintMotion.LCM_Locked then
          "LinearJoint"
        else if PCC.ConstraintInstance.AngularSwing1Motion ≠
              EAngularConstraintMotion.ACM_Locked ∨
            PCC.ConstraintInstance.AngularSwing2Motion ≠ EAngularConstraintMotion.ACM_Locked ∨
            PCC.ConstraintInstance.AngularTwistMotion ≠ EAngularConstraintMotion.ACM_Locked then
          "RevoluteJoint"
        else "FixedJoint"
      | none => I.TypeName
    | none => I.TypeName
  else I.TypeName

end USLConstraintIndividual

/-! ### A concrete scene of constraints -/

/-- A hinge: a physics constraint actor whose constraint is free in twist only. -/
def Hinge : AActor :=
  { ptr := 20, bIsStaticMeshActor := false, IndividualComponent := none,
    bIsPhysicsConstraintActor := true,
    ConstraintComp := some { ConstraintInstance :=
      { LinearXMotion := .LCM_Locked, LinearYMotion := .LCM_Locked,
        LinearZMotion := .LCM_Locked, AngularSwing1Motion := .ACM_Locked,
        AngularSwing2Motion := .ACM_Locked, AngularTwistMotion := .ACM_Free } },
    Name := "Hinge_1" }

/-- A drawer rail: a physics constraint actor that is limited along X and free in
twist. -/
def DrawerRail : AActor :=
  { ptr := 21, bIsStaticMeshActor := false, IndividualComponent := none,
    bIsPhysicsConstraintActor := true,
    ConstraintComp := some { ConstraintInstance :=
      { LinearXMotion := .LCM_Limited, LinearYMotion := .LCM_Locked,
        LinearZMotion := .LCM_Locked, AngularSwing1Motion := .ACM_Locked,
        AngularSwing2Motion := .ACM_Locked, AngularTwistMotion := .ACM_Free } },
    Name := "DrawerRail_1" }

/-- The sky: an actor of no supported class whose name contains `SkySphere`. -/
def SkySphereActor : AActor :=
  { ptr := 22, bIsStaticMeshActor := false, IndividualComponent := none,
    Name := "BP_SkySphere_2" }

/-- A light: an actor of no supported class. -/
def LightActor : AActor :=
  { ptr := 23, bIsStaticMeshActor := false, IndividualComponent := none,
    Name := "PointLight_1" }

/-! ## The world of the managers and of the logger -/

/-- `ASLIndividualManager*` (non-null): its address, what `IsValidLowLevel()` and
`IsPendingKillOrUnreachable()` return, and what `Load(false)` returns. -/
structure ASLIndividualManager where
  ptr : Nat
  bIsValidLowLevel : Bool := true
  bIsPendingKillOrUnreachable : Bool := false
  bLoad : Bool := true
  deriving DecidableEq, Repr

/-- `ASLVizHighlightManager*` (non-null). -/
structure ASLVizHighlightManager where
  ptr : Nat
  bIsValidLowLevel : Bool := true
  bIsPendingKillOrUnreachable : Bool := false
  deriving DecidableEq, Repr

/-- `ASLVizMarkerManager*` (non-null). -/
structure ASLVizMarkerManager where
  ptr : Nat
  bIsValidLowLevel : Bool := true
  bIsPendingKillOrUnreachable : Bool := false
  deriving DecidableEq, Repr

/-- `ASLVizEpisodeReplayManager*` (non-null). -/
structure ASLVizEpisodeReplayManager where
  ptr : Nat
  bIsValidLowLevel : Bool := true
  bIsPendingKillOrUnreachable : Bool := false
  deriving DecidableEq, Repr

/-- A `UShapeComponent` that `TObjectIterator<UShapeComponent>` visits: its address, its
owner, whether `Cast<ISLContactShapeInterface>` succeeds, and what `IsInit()` returns for
an `FSLContactEventHandler` that has been initialised with it. -/
structure UShapeComponent where
  ptr : Nat
  Owner : AActor
  bIsContactShape : Bool := true
  bContactHandlerIsInit : Bool := true
  deriving DecidableEq, Repr

/-- A `USLManipulatorListener` that `TObjectIterator<USLManipulatorListener>` visits: its
address, its owner, what its `Init(bGrasp, bContact)` returns, and what `IsInit()`
returns for an `FSLGraspEventHandler` and for an `FSLManipulatorContactEventHandler` that
have been initialised with it. -/
structure USLManipulatorListener where
  ptr : Nat
  Owner : AActor
  bInit : Bool := true
  bGraspHandlerIsInit : Bool := true
  bManipulatorContactHandlerIsInit : Bool := true
  deriving DecidableEq, Repr

/-- `USLReachListener*` (non-null). -/
structure USLReachListener where
  ptr : Nat
  deriving DecidableEq, Repr

/-- `USLPickAndPlaceListener*` (non-null). -/
structure USLPickAndPlaceListener where
  ptr : Nat
  deriving DecidableEq, Repr

/-- `USLContainerListener*` (non-null). -/
structure USLContainerListener where
  ptr : Nat
  deriving DecidableEq, Repr

/-- What a member function reads from the world and from the engine: the actors of the
world, the managers that the actor iterators visit, in their order, the actor that
`SpawnActor` returns for each manager class, the objects that the object iterators
visit, in their order, the identifiers that `FSLUuid::NewGuidInBase64Url` returns, in
order, and `FPaths::ProjectDir()`. -/
structure UWorld where
  Actors : List AActor := []
  IndividualManagers : List ASLIndividualManager := []
  SpawnedIndividualManager : ASLIndividualManager := { ptr := 0 }
  VizHighlightManagers : List ASLVizHighlightManager := []
  SpawnedVizHighlightManager : ASLVizHighlightManager := { ptr := 0 }
  VizMarkerManagers : List ASLVizMarkerManager := []
  SpawnedVizMarkerManager : ASLVizMarkerManager := { ptr := 0 }
  EpisodeReplayManagers : List ASLVizEpisodeReplayManager := []
  SpawnedEpisodeReplayManager : ASLVizEpisodeReplayManager := { ptr := 0 }
  ShapeComponents : List UShapeComponent := []
  ManipulatorListeners : List USLManipulatorListener := []
  Guids : List FString := []
  ProjectDir : FString := ""
  deriving DecidableEq, Repr

/-- `UWorld::ContainsActor`. -/
def UWorld.ContainsActor (W : UWorld) (Actor : AActor) : Bool :=
  decide (Actor ∈ W.Actors)

/-- `ISLEvent`: a finished semantic event, identified by its address. -/
structure ISLEvent where
  ptr : Nat
  deriving DecidableEq, Repr

/-- The classes of event handlers that the logger creates when the optional modules
(`SL_WITH_MC_GRASP`, `SL_WITH_SLICING`) are not compiled in. -/
inductive ESLEventHandlerClass
  | FSLContactEventHandler
  | FSLGraspEventHandler
  | FSLManipulatorContactEventHandler
  deriving DecidableEq, Repr

/-- An entry of `EventHandlers`: the class of the handler and the address of the object
it has been initialised with. -/
structure ISLEventHandler where
  Class : ESLEventHandlerClass
  Parent : Nat
  deriving DecidableEq, Repr

/-- The calls that the logger and the viz manager make on other objects and on the
engine, as far as the model records them. -/
inductive EngineCall
  | SpawnIndividualManager
  | SpawnVizHighlightManager
  | SpawnVizMarkerManager
  | SpawnEpisodeReplayManager
  | IndividualManagerLoad (IM : ASLIndividualManager)
  | ContactShapeInit (Shape : UShapeComponent) (bSupportedBy : Bool)
  | ContactShapeStart (Shape : UShapeComponent)
  | ContactShapeFinish (Shape : UShapeComponent)
  | ManipulatorListenerInit (Listener : USLManipulatorListener) (bGrasp bContact : Bool)
  | ManipulatorListenerStart (Listener : USLManipulatorListener)
  | ManipulatorListenerFinish (Listener : USLManipulatorListener) (bForced : Bool)
  | PickAndPlaceListenerStart (Listener : USLPickAndPlaceListener)
  | ReachListenerStart (Listener : USLReachListener)
  | ContainerListenerStart (Listener : USLContainerListener)
  | EventHandlerStart (Handler : ISLEventHandler)
  | EventHandlerBind (Handler : ISLEventHandler)
  | EventHandlerFinish (Handler : ISLEventHandler) (EndTime : Time) (bForced : Bool)
  | AddToOwlDoc (Ev : ISLEvent)
  | AddTimepointIndividuals
  | AddObjectIndividuals
  | AddExperimentIndividual
  | WriteTimelines (Events : List ISLEvent) (DirPath EpisodeId : FString)
  | SaveStringToFile (DocId FullFilePath : FString)
  | ClearHighlight (MeshComponent : Nat)
  | ClearMarker (Marker : Nat)
  | CreatePrimitiveMarker
  deriving DecidableEq, Repr

/-- The call is a `Start` on an event handler, a contact shape or a listener. -/
def EngineCall.IsStart : EngineCall → Bool
  | .ContactShapeStart _ => true
  | .ManipulatorListenerStart _ => true
  | .PickAndPlaceListenerStart _ => true
  | .ReachListenerStart _ => true
  | .ContainerListenerStart _ => true
  | .EventHandlerStart _ => true
  | _ => false

/-- `FPaths::RemoveDuplicateSlashes`, on the characters of the path. -/
def RemoveDuplicateSlashes : List Char → List Char
  | [] => []
  | [c] => [c]
  | c :: d :: cs =>
    if c = '/' ∧ d = '/' then RemoveDuplicateSlashes (d :: cs)
    else c :: RemoveDuplicateSlashes (d :: cs)

/-! ## The viz manager -/

/-- `FSLVizIndividualHighlightData`, with the member the manager reads. -/
structure FSLVizIndividualHighlightData where
  MeshComponent : Nat
  deriving DecidableEq, Repr

/-- The state of an `ASLVizManager`. `HighlightedIndividuals` and `Markers` are declared
in the manager's header, which is not among the sources; the source calls `Find`, `Add`,
`Contains` and `Empty` on them with an id as key, so they are the engine's `TMap`, here a
list of pairs of key and value in the order of insertion. A marker is given by its
address. -/
structure ASLVizManager where
  bIsInit : Bool
  IndividualManager : Option ASLIndividualManager
  HighlightManager : Option ASLVizHighlightManager
  MarkerManager : Option ASLVizMarkerManager
  EpisodeReplayManager : Option ASLVizEpisodeReplayManager
  HighlightedIndividuals : List (FString × FSLVizIndividualHighlightData)
  Markers : List (FString × Nat)
  deriving DecidableEq, Repr

namespace ASLVizManager

/-- A member function's result: the manager afterwards, the calls made, and the
returned flag. -/
abbrev Result := ASLVizManager × List EngineCall × Bool

/-- `ASLVizManager::SetIndividualManager`. -/
def SetIndividualManager (W : UWorld) (V : ASLVizManager) : Result :=
  if (match V.IndividualManager with
      | some IM => IM.bIsValidLowLevel && !IM.bIsPendingKillOrUnreachable
      | none => false) then (V, [], true)
  else
    match W.IndividualManagers.find?
        (fun Iter => Iter.bIsValidLowLevel && !Iter.bIsPendingKillOrUnreachable) with
    | some Iter => ({ V with IndividualManager := some Iter }, [], true)
    | none =>
      ({ V with IndividualManager := some W.SpawnedIndividualManager },
        [EngineCall.SpawnIndividualManager], true)

/-- `ASLVizManager::SetVizHighlightManager`. -/
def SetVizHighlightManager (W : UWorld) (V : ASLVizManager) : Result :=
  if (match V.HighlightManager with
      | some HM => HM.bIsValidLowLevel && !HM.bIsPendingKillOrUnreachable
      | none => false) then (V, [], true)
  else
    match W.VizHighlightManagers.find?
        (fun Iter => Iter.bIsValidLowLevel && !Iter.bIsPendingKillOrUnreachable) with
    | some Iter => ({ V with HighlightManager := some Iter }, [], true)
    | none =>
      ({ V with HighlightManager := some W.SpawnedVizHighlightManager },
        [EngineCall.SpawnVizHighlightManager], true)

/-- `ASLVizManager::SetVizMarkerManager`. -/
def SetVizMarkerManager (W : UWorld) (V : ASLVizManager) : Result :=
  if (match V.MarkerManager with
      | some MM => MM.bIsValidLowLevel && !MM.bIsPendingKillOrUnreachable
      | none => false) then (V, [], true)
  else
    match W.VizMarkerManagers.find?
        (fun Iter => Iter.bIsValidLowLevel && !Iter.bIsPendingKillOrUnreachable) with
    | some Iter => ({ V with MarkerManager := some Iter }, [], true)
    | none =>
      ({ V with MarkerManager := some W.SpawnedVizMarkerManager },
        [EngineCall.SpawnVizMarkerManager], true)

/-- `ASLVizManager::SetEpisodeReplayManager`. -/
def SetEpisodeReplayManager (W : UWorld) (V : ASLVizManager) : Result :=
  if (match V.EpisodeReplayManager with
      | some RM => RM.bIsValidLowLevel && !RM.bIsPendingKillOrUnreachable
      | none => false) then (V, [], true)
  else
    match W.EpisodeReplayManagers.find?
        (fun Iter => Iter.bIsValidLowLevel && !Iter.bIsPendingKillOrUnreachable) with
    | some Iter => ({ V with EpisodeReplayManager := some Iter }, [], true)
    | none =>
      ({ V with EpisodeReplayManager := some W.SpawnedEpisodeReplayManager },
        [EngineCall.SpawnEpisodeReplayManager], true)

/-- `ASLVizManager::Init`. Every `Set...Manager` leaves its reference set, so
`IndividualManager->Load(false)` is called on a manager; the model returns the flag
`false` where the reference would be null. -/
def Init (W : UWorld) (V : ASLVizManager) : Result :=
  if V.bIsInit then (V, [], true)
  else
    let r1 := SetIndividualManager W V
    let Ret1 := if !r1.2.2 then false else true
    let Load :=
      match r1.1.IndividualManager with
      | some IM => ([EngineCall.IndividualManagerLoad IM], IM.bLoad)
      | none => ([], false)
    let Ret2 := if !Load.2 then false else Ret1
    let r3 := SetVizHighlightManager W r1.1
    let Ret3 := if !r3.2.2 then false else Ret2
    let r4 := SetVizMarkerManager W r3.1
    let Ret4 := if !r4.2.2 then false else Ret3
    let r5 := SetEpisodeReplayManager W r4.1
    let Ret5 := if !r5.2.2 then false else Ret4
    ({ r5.1 with bIsInit := Ret5 }, r1.2.1 ++ Load.1 ++ r3.2.1 ++ r4.2.1 ++ r5.2.1, Ret5)

/-- `ASLVizManager::RemoveAllIndividualHighlights`: the manager afterwards and the calls
made. -/
def RemoveAllIndividualHighlights (V : ASLVizManager) : ASLVizManager × List EngineCall :=
  if !V.bIsInit then (V, [])
  else
    ({ V with HighlightedIndividuals := [] },
      V.HighlightedIndividuals.map
        (fun HighlightDataPair => EngineCall.ClearHighlight HighlightDataPair.2.MeshComponent))

/-- `ASLVizManager::Reset`: the manager afterwards and the calls made. -/
def Reset (V : ASLVizManager) : ASLVizManager × List EngineCall :=
  let r := RemoveAllIndividualHighlights V
  ({ r.1 with
      IndividualManager := none
      HighlightManager := none
      MarkerManager := none
      EpisodeReplayManager := none
      bIsInit := false }, r.2)

/-- `ASLVizManager::CreatePrimitiveMarker`. `Marker` is what
`MarkerManager->CreatePrimitiveMarker` returns, `none` for the null pointer. -/
def CreatePrimitiveMarker (V : ASLVizManager) (MarkerId : FString) (Marker : Option Nat) :
    Result :=
  if !V.bIsInit then (V, [], false)
  else if MarkerId ∈ V.Markers.map Prod.fst then (V, [], false)
  else
    match Marker with
    | some M =>
      ({ V with Markers := V.Markers ++ [(MarkerId, M)] }, [EngineCall.CreatePrimitiveMarker],
        true)
    | none => (V, [EngineCall.CreatePrimitiveMarker], false)

/-- `ASLVizManager::RemoveAllMarkers`: the manager afterwards and the calls made. -/
def RemoveAllMarkers (V : ASLVizManager) : ASLVizManager × List EngineCall :=
  if !V.bIsInit then (V, [])
  else
    let out1 := V.Markers.map (fun Pair => EngineCall.ClearMarker Pair.2)
    let V1 := { V with Markers := [] }
    let out2 := V1.Markers.map (fun IdMarkerPair => EngineCall.ClearMarker IdMarkerPair.2)
    ({ V1 with Markers := [] }, out1 ++ out2)

/-- A viz manager as its constructor leaves it. -/
def Constructed : ASLVizManager :=
  { bIsInit := false, IndividualManager := none, HighlightManager := none,
    MarkerManager := none, EpisodeReplayManager := none, HighlightedIndividuals := [],
    Markers := [] }

/-- A world with no manager in it: every manager is spawned. -/
def EmptyWorld : UWorld :=
  { SpawnedIndividualManager := { ptr := 101 },
    SpawnedVizHighlightManager := { ptr := 102 },
    SpawnedVizMarkerManager := { ptr := 103 },
    SpawnedEpisodeReplayManager := { ptr := 104 } }

/-- The world after that: the four managers exist. -/
def ManagedWorld : UWorld :=
  { IndividualManagers := [{ ptr := 101 }],
    SpawnedIndividualManager := { ptr := 201 },
    VizHighlightManagers := [{ ptr := 102 }],
    SpawnedVizHighlightManager := { ptr := 202 },
    VizMarkerManagers := [{ ptr := 103 }],
    SpawnedVizMarkerManager := { ptr := 203 },
    EpisodeReplayManagers := [{ ptr := 104 }],
    SpawnedEpisodeReplayManager := { ptr := 204 } }

end ASLVizManager

/-! ## The symbolic logger -/

/-- `FSLSymbolicLoggerParams`, with the members the logger reads. -/
structure FSLSymbolicLoggerParams where
  bSelectedEventsOnly : Bool := false
  bContact : Bool := false
  bSupportedBy : Bool := false
  bGrasp : Bool := false
  bSlicing : Bool := false
  bPublishToROS : Bool := false
  bWriteTimelines : Bool := false
  deriving DecidableEq, Repr

/-- `FSLLoggerLocationParams`, with the members the logger reads. -/
structure FSLLoggerLocationParams where
  bUseCustomTaskId : Bool := false
  TaskId : FString := ""
  bUseCustomEpisodeId : Bool := false
  EpisodeId : FString := ""
  deriving DecidableEq, Repr

/-- `ESLOwlExperimentTemplate`. -/
inductive ESLOwlExperimentTemplate
  | NONE
  | Default
  | IAI
  deriving DecidableEq, Repr

/-- The document behind `ExperimentDoc`: the id it has been created with. What is added
to it is recorded as calls. -/
structure FSLOwlExperiment where
  Id : FString
  deriving DecidableEq, Repr

/-- The state of an `ASLSymbolicLogger`: the members its member functions read and
write. `bIsTemplate` is what `IsTemplate()` returns; `ExperimentDoc` is `none` when the
shared pointer is not valid; `EndTime` is the member `Time` that `FinishImpl` passes to the
handlers. The collections are in the order in which a range-for visits them. -/
structure ASLSymbolicLogger where
  bIsInit : Bool
  bIsStarted : Bool
  bIsFinished : Bool
  bUseIndependently : Bool
  bIsTemplate : Bool
  LoggerParameters : FSLSymbolicLoggerParams
  LocationParameters : FSLLoggerLocationParams
  IndividualManager : Option ASLIndividualManager
  ExperimentDoc : Option FSLOwlExperiment
  EventHandlers : List ISLEventHandler
  ContactShapes : List UShapeComponent
  GraspListeners : List USLManipulatorListener
  ReachListeners : List USLReachListener
  PickAndPlaceListeners : List USLPickAndPlaceListener
  ContainerListeners : List USLContainerListener
  FinishedEvents : List ISLEvent
  EndTime : Time
  deriving DecidableEq

namespace ASLSymbolicLogger

/-- A member function's result: the logger afterwards and the calls made, in order. -/
abbrev Result := ASLSymbolicLogger × List EngineCall

/-- `ASLSymbolicLogger::SetIndividualManager`: the logger afterwards, the calls made and
the returned flag. -/
def SetIndividualManager (W : UWorld) (L : ASLSymbolicLogger) :
    ASLSymbolicLogger × List EngineCall × Bool :=
  if (match L.IndividualManager with
      | some IM => IM.bIsValidLowLevel && !IM.bIsPendingKillOrUnreachable
      | none => false) then (L, [], true)
  else
    let L1 := W.IndividualManagers.foldl
      (fun acc Iter =>
        if Iter.bIsValidLowLevel && !Iter.bIsPendingKillOrUnreachable then
          { acc with IndividualManager := some Iter }
        else acc) L
    ({ L1 with IndividualManager := some W.SpawnedIndividualManager },
      [EngineCall.SpawnIndividualManager], true)

/-- `ASLSymbolicLogger::IsValidAndLoaded`, for an actor that is not null. -/
def IsValidAndLoaded (W : UWorld) (Actor : AActor) : Bool :=
  if !Actor.bIsValidLowLevel || Actor.bIsPendingKillOrUnreachable then false
  else if !W.ContainsActor Actor then false
  else
    match Actor.IndividualComponent with
    | some ActComp => if ActComp.bIsLoaded then true else false
    | none => false

/-- `ASLSymbolicLogger::CreateEventsDocTemplate`: the document and the identifiers that
are left. -/
def CreateEventsDocTemplate (Guids : List FString) (TemplateType : ESLOwlExperimentTemplate)
    (InDocId : FString) : FSLOwlExperiment × List FString :=
  let DocId := if InDocId.toList = [] then (Guids.headD "", Guids.tail) else (InDocId, Guids)
  if TemplateType = ESLOwlExperimentTemplate.Default then (⟨DocId.1⟩, DocId.2)
  else if TemplateType = ESLOwlExperimentTemplate.IAI then (⟨DocId.1⟩, DocId.2)
  else (⟨""⟩, DocId.2)

/-- The body of the loop of `InitContactMonitors`, for the shape component `Itr`. -/
def InitContactMonitorsStep (W : UWorld) (acc : Result) (Itr : UShapeComponent) : Result :=
  if Itr.bIsContactShape then
    if IsValidAndLoaded W Itr.Owner then
      let L1 := { acc.1 with ContactShapes := acc.1.ContactShapes ++ [Itr] }
      let L2 :=
        if Itr.bContactHandlerIsInit then
          { L1 with EventHandlers := L1.EventHandlers ++
              [⟨ESLEventHandlerClass.FSLContactEventHandler, Itr.ptr⟩] }
        else L1
      (L2, acc.2 ++ [EngineCall.ContactShapeInit Itr acc.1.LoggerParameters.bSupportedBy])
    else acc
  else acc

/-- `ASLSymbolicLogger::InitContactMonitors`. -/
def InitContactMonitors (W : UWorld) (L : ASLSymbolicLogger) : Result :=
  W.ShapeComponents.foldl (InitContactMonitorsStep W) (L, [])

/-- The body of the loop of `InitManipulatorContactMonitors`, for the listener `Itr`. -/
def InitManipulatorContactMonitorsStep (W : UWorld) (acc : Result)
    (Itr : USLManipulatorListener) : Result :=
  if IsValidAndLoaded W Itr.Owner then
    let out := acc.2 ++ [EngineCall.ManipulatorListenerInit Itr
      acc.1.LoggerParameters.bGrasp acc.1.LoggerParameters.bContact]
    if Itr.bInit then
      let L1 := { acc.1 with GraspListeners := acc.1.GraspListeners ++ [Itr] }
      let L2 :=
        if Itr.bGraspHandlerIsInit then
          { L1 with EventHandlers := L1.EventHandlers ++
              [⟨ESLEventHandlerClass.FSLGraspEventHandler, Itr.ptr⟩] }
        else L1
      let L3 :=
        if L2.LoggerParameters.bContact then
          if Itr.bManipulatorContactHandlerIsInit then
            { L2 with EventHandlers := L2.EventHandlers ++
                [⟨ESLEventHandlerClass.FSLManipulatorContactEventHandler, Itr.ptr⟩] }
          else L2
        else L2
      (L3, out)
    else (acc.1, out)
  else acc

/-- `ASLSymbolicLogger::InitManipulatorContactMonitors`. -/
def InitManipulatorContactMonitors (W : UWorld) (L : ASLSymbolicLogger) : Result :=
  W.ManipulatorListeners.foldl (InitManipulatorContactMonitorsStep W) (L, [])

/-- `ASLSymbolicLogger::InitManipulatorFixationMonitors`: `SL_WITH_MC_GRASP` is not
defined, the body is empty. -/
def InitManipulatorFixationMonitors (L : ASLSymbolicLogger) : Result := (L, [])

/-- `ASLSymbolicLogger::InitSlicingMonitors`: `SL_WITH_SLICING` is not defined, the body
is empty. -/
def InitSlicingMonitors (L : ASLSymbolicLogger) : Result := (L, [])

/-- `ASLSymbolicLogger::InitROSPublisher`: `SL_WITH_ROSBRIDGE` is not defined, the body
is empty. -/
def InitROSPublisher (L : ASLSymbolicLogger) : Result := (L, [])

/-- The part of `InitImpl` under `// Setup monitors`. -/
def SetupMonitors (W : UWorld) (L : ASLSymbolicLogger) : Result :=
  if !L.LoggerParameters.bSelectedEventsOnly then
    let r1 := InitContactMonitors W L
    let r2 := InitManipulatorContactMonitors W r1.1
    let r3 := InitManipulatorFixationMonitors r2.1
    let r4 := InitSlicingMonitors r3.1
    (r4.1, r1.2 ++ r2.2 ++ r3.2 ++ r4.2)
  else
    let r1 := if L.LoggerParameters.bContact then InitContactMonitors W L else (L, [])
    let r2 :=
      if r1.1.LoggerParameters.bGrasp || r1.1.LoggerParameters.bContact then
        let r21 := InitManipulatorContactMonitors W r1.1
        let r22 :=
          if r21.1.LoggerParameters.bGrasp then InitManipulatorFixationMonitors r21.1
          else (r21.1, [])
        (r22.1, r21.2 ++ r22.2)
      else (r1.1, [])
    let r3 := if r2.1.LoggerParameters.bSlicing then InitSlicingMonitors r2.1 else (r2.1, [])
    (r3.1, r1.2 ++ r2.2 ++ r3.2)

/-- `ASLSymbolicLogger::InitImpl`. After `SetIndividualManager` the reference is set, so
`IndividualManager->Load(false)` is called on a manager; the model returns where the
reference would be null. -/
def InitImpl (W : UWorld) (L : ASLSymbolicLogger) : Result :=
  if L.bIsInit then (L, [])
  else
    let g0 := W.Guids
    let L1 :=
      if !L.LocationParameters.bUseCustomTaskId then
        ({ L with LocationParameters := { L.LocationParameters with TaskId := g0.headD "" } },
          g0.tail)
      else (L, g0)
    let L2 :=
      if !L1.1.LocationParameters.bUseCustomEpisodeId then
        ({ L1.1 with
            LocationParameters := { L1.1.LocationParameters with EpisodeId := L1.2.headD "" } },
          L1.2.tail)
      else L1
    let r3 := SetIndividualManager W L2.1
    if !r3.2.2 then (r3.1, r3.2.1)
    else
      match r3.1.IndividualManager with
      | none => (r3.1, r3.2.1)
      | some IM =>
        if !IM.bLoad then (r3.1, r3.2.1 ++ [EngineCall.IndividualManagerLoad IM])
        else
          let Doc := CreateEventsDocTemplate L2.2 ESLOwlExperimentTemplate.Default
            r3.1.LocationParameters.EpisodeId
          let L4 := { r3.1 with ExperimentDoc := some Doc.1 }
          let r5 := SetupMonitors W L4
          let r6 :=
            if r5.1.LoggerParameters.bPublishToROS then InitROSPublisher r5.1 else (r5.1, [])
          ({ r6.1 with bIsInit := true },
            r3.2.1 ++ [EngineCall.IndividualManagerLoad IM] ++ r5.2 ++ r6.2)

/-- `ASLSymbolicLogger::StartImpl`. -/
def StartImpl (L : ASLSymbolicLogger) : Result :=
  if L.bIsStarted then (L, [])
  else if !L.bIsInit then (L, [])
  else
    ({ L with bIsStarted := true },
      L.EventHandlers.flatMap
          (fun EvHandler =>
            [EngineCall.EventHandlerStart EvHandler, EngineCall.EventHandlerBind EvHandler]) ++
        L.ContactShapes.map EngineCall.ContactShapeStart ++
        L.GraspListeners.map EngineCall.ManipulatorListenerStart ++
        L.PickAndPlaceListeners.map EngineCall.PickAndPlaceListenerStart ++
        L.ReachListeners.map EngineCall.ReachListenerStart ++
        L.ContainerListeners.map EngineCall.ContainerListenerStart)

/-- `ASLSymbolicLogger::WriteToFile`: the calls made. -/
def WriteToFile (W : UWorld) (L : ASLSymbolicLogger) : List EngineCall :=
  let DirPath := W.ProjectDir ++ "/SL/" ++ L.LocationParameters.TaskId ++ "/"
  let out1 :=
    if L.LoggerParameters.bWriteTimelines then
      [EngineCall.WriteTimelines L.FinishedEvents DirPath L.LocationParameters.EpisodeId]
    else []
  let out2 :=
    match L.ExperimentDoc with
    | some Doc =>
      let FullFilePath := DirPath ++ L.LocationParameters.EpisodeId ++ "_ED.owl"
      [EngineCall.SaveStringToFile Doc.Id
        (String.mk (RemoveDuplicateSlashes FullFilePath.toList))]
    | none => []
  out1 ++ out2

/-- `ASLSymbolicLogger::FinishImpl`; `SL_WITH_ROSBRIDGE` is not defined. -/
def FinishImpl (W : UWorld) (L : ASLSymbolicLogger) (bForced : Bool) : Result :=
  if L.bIsFinished then (L, [])
  else if !L.bIsInit && !L.bIsStarted then (L, [])
  else
    let out1 := L.EventHandlers.map
      (fun EvHandler => EngineCall.EventHandlerFinish EvHandler L.EndTime bForced)
    let L1 := { L with EventHandlers := [] }
    let out2 := L1.ContactShapes.map EngineCall.ContactShapeFinish
    let L2 := { L1 with ContactShapes := [] }
    let out3 := L2.GraspListeners.map
      (fun SLManipulatorListener =>
        EngineCall.ManipulatorListenerFinish SLManipulatorListener bForced)
    let L3 := { L2 with GraspListeners := [] }
    let out4 := L3.ReachListeners.map EngineCall.ReachListenerStart
    let L4 := { L3 with ReachListeners := [] }
    let out5 :=
      match L4.ExperimentDoc with
      | some _ =>
        L4.FinishedEvents.map EngineCall.AddToOwlDoc ++
          [EngineCall.AddTimepointIndividuals, EngineCall.AddObjectIndividuals,
            EngineCall.AddExperimentIndividual]
      | none => []
    let out6 := WriteToFile W L4
    ({ L4 with bIsStarted := false, bIsInit := false, bIsFinished := true },
      out1 ++ out2 ++ out3 ++ out4 ++ out5 ++ out6)

/-- `ASLSymbolicLogger::~ASLSymbolicLogger`. -/
def Destructor (W : UWorld) (L : ASLSymbolicLogger) : Result :=
  if !L.bIsTemplate && !L.bIsFinished && (L.bIsStarted || L.bIsInit) then FinishImpl W L true
  else (L, [])

/-- `ASLSymbolicLogger::Init`. -/
def Init (W : UWorld) (L : ASLSymbolicLogger) (InLoggerParameters : FSLSymbolicLoggerParams)
    (InLocationParameters : FSLLoggerLocationParams) : Result :=
  if L.bUseIndependently then (L, [])
  else
    InitImpl W { L with
      LoggerParameters := InLoggerParameters
      LocationParameters := InLocationParameters }

/-- `ASLSymbolicLogger::Start`. -/
def Start (L : ASLSymbolicLogger) : Result :=
  if L.bUseIndependently then (L, []) else StartImpl L

/-- `ASLSymbolicLogger::Finish`. The wrapper calls `FinishImpl()` without an argument;
`bForcedDefault` is the default argument, which is declared in the header that is not
among the sources. -/
def Finish (W : UWorld) (L : ASLSymbolicLogger) (_bForced : Bool) (bForcedDefault : Bool) :
    Result :=
  if L.bUseIndependently then (L, []) else FinishImpl W L bForcedDefault

/-- `ASLSymbolicLogger::SemanticEventFinishedCallback`; `SL_WITH_ROSBRIDGE` is not
defined. -/
def SemanticEventFinishedCallback (L : ASLSymbolicLogger) (Ev : ISLEvent) :
    ASLSymbolicLogger :=
  { L with FinishedEvents := L.FinishedEvents ++ [Ev] }

/-! ### The logger in its environment -/

/-- What is called on a logger: the three lifecycle functions, their public wrappers,
and the callback of the handlers. Each call comes with the world it reads. -/
inductive Op
  | InitImpl (W : UWorld)
  | StartImpl
  | FinishImpl (W : UWorld) (bForced : Bool)
  | Init (W : UWorld) (InLoggerParameters : FSLSymbolicLoggerParams)
      (InLocationParameters : FSLLoggerLocationParams)
  | Start
  | Finish (W : UWorld) (bForced : Bool) (bForcedDefault : Bool)
  | SemanticEventFinishedCallback (Ev : ISLEvent)

/-- The logger handles one call. -/
def Do (L : ASLSymbolicLogger) : Op → Result
  | .InitImpl W => InitImpl W L
  | .StartImpl => StartImpl L
  | .FinishImpl W bForced => FinishImpl W L bForced
  | .Init W InLoggerParameters InLocationParameters =>
    Init W L InLoggerParameters InLocationParameters
  | .Start => Start L
  | .Finish W bForced bForcedDefault => Finish W L bForced bForcedDefault
  | .SemanticEventFinishedCallback Ev => (SemanticEventFinishedCallback L Ev, [])

/-- The logger handles a sequence of calls; the calls it makes are collected in
order. -/
def DoAll (L : ASLSymbolicLogger) : List Op → Result
  | [] => (L, [])
  | o :: os =>
    let r := Do L o
    let rs := DoAll r.1 os
    (rs.1, r.2 ++ rs.2)

/-- The call is an `InitImpl` or an `Init`. -/
def Op.IsInit : Op → Bool
  | .InitImpl _ => true
  | .Init _ _ _ => true
  | _ => false

/-! ### A concrete scene -/

/-- A logger as its constructor leaves it, with default parameters. -/
def Constructed : ASLSymbolicLogger :=
  { bIsInit := false, bIsStarted := false, bIsFinished := false, bUseIndependently := false,
    bIsTemplate := false, LoggerParameters := {}, LocationParameters := {},
    IndividualManager := none, ExperimentDoc := none, EventHandlers := [],
    ContactShapes := [], GraspListeners := [], ReachListeners := [],
    PickAndPlaceListeners := [], ContainerListeners := [], FinishedEvents := [],
    EndTime := 0 }

/-- The robot: a skeletal actor with a loaded individual. -/
def Robot : AActor :=
  { ptr := 30, bIsStaticMeshActor := false,
    IndividualComponent := some { IndividualObject := some ⟨31⟩, bIsLoaded := true },
    bIsSkeletalMeshActor := true, Name := "Robot" }

/-- The manipulator listener of the robot's hand. -/
def HandListener : USLManipulatorListener := { ptr := 32, Owner := Robot }

/-- A contact shape of the robot. -/
def RobotShape : UShapeComponent := { ptr := 33, Owner := Robot }

/-- A world with the robot, its listener and its contact shape, and one individual
manager. -/
def Kitchen : UWorld :=
  { Actors := [Robot], IndividualManagers := [{ ptr := 40 }],
    SpawnedIndividualManager := { ptr := 41 }, ShapeComponents := [RobotShape],
    ManipulatorListeners := [HandListener], Guids := ["task", "episode"],
    ProjectDir := "/Game/" }

end ASLSymbolicLogger

/-! # Theorems -/

namespace USLManipulatorBoneContactMonitor

/-! ## Single-precision rounding -/

theorem RoundHalfEven_bounds (q : ℚ) :
    ⌊q⌋ ≤ RoundHalfEven q ∧ RoundHalfEven q ≤ ⌊q⌋ + 1 := by
  unfold RoundHalfEven
  split_ifs <;> omega

theorem RoundHalfEven_mono {q r : ℚ} (h : q ≤ r) : RoundHalfEven q ≤ RoundHalfEven r := by
  rcases lt_or_eq_of_le (Int.floor_mono h) with hlt | heq
  · have h1 := (RoundHalfEven_bounds q).2
    have h2 := (RoundHalfEven_bounds r).1
    omega
  · unfold RoundHalfEven
    rw [← heq]
    split_ifs <;> first | omega | (exfalso; linarith)

theorem RoundHalfEven_intCast (n : ℤ) : RoundHalfEven (n : ℚ) = n := by
  unfold RoundHalfEven
  simp

theorem FloatExponentFrom_spec (x : ℚ) :
    ∀ (n : ℕ) (e : ℤ),
      e ≤ FloatExponentFrom x n e ∧ FloatExponentFrom x n e ≤ e + n ∧
      (FloatExponentFrom x n e < e + n → x < (2 : ℚ) ^ (FloatExponentFrom x n e + 1)) ∧
      (e < FloatExponentFrom x n e → (2 : ℚ) ^ FloatExponentFrom x n e ≤ x)
  | 0, e => by
    simp [FloatExponentFrom]
  | n + 1, e => by
    obtain ⟨h1, h2, h3, h4⟩ := FloatExponentFrom_spec x n (e + 1)
    simp only [FloatExponentFrom]
    split_ifs with hc
    · refine ⟨le_refl _, by push_cast; omega, fun _ => hc, fun h => absurd h (lt_irrefl _)⟩
    · refine ⟨by omega, by push_cast; omega, fun h => h3 (by push_cast at h; omega),
        fun _ => ?_⟩
      rcases lt_or_eq_of_le h1 with hlt | heq
      · exact h4 hlt
      · rw [← heq]
        exact not_lt.mp hc

theorem FloatExponentFrom_mono {x y : ℚ} (h : x ≤ y) :
    ∀ (n : ℕ) (e : ℤ), FloatExponentFrom x n e ≤ FloatExponentFrom y n e
  | 0, e => le_refl _
  | n + 1, e => by
    simp only [FloatExponentFrom]
    split_ifs with hx hy hy
    · exact le_refl _
    · have := (FloatExponentFrom_spec y n (e + 1)).1
      omega
    · exact absurd (lt_of_le_of_lt h hy) hx
    · exact FloatExponentFrom_mono h n (e + 1)

theorem FloatExponent_spec (x : ℚ) :
    -126 ≤ FloatExponent x ∧ FloatExponent x ≤ 127 ∧
    (FloatExponent x < 127 → x < (2 : ℚ) ^ (FloatExponent x + 1)) ∧
    (-126 < FloatExponent x → (2 : ℚ) ^ FloatExponent x ≤ x) := by
  obtain ⟨h1, h2, h3, h4⟩ := FloatExponentFrom_spec x 253 (-126)
  unfold FloatExponent
  refine ⟨h1, by push_cast at h2; omega, fun h => h3 (by push_cast; omega), h4⟩

theorem FloatExponent_mono {x y : ℚ} (h : x ≤ y) : FloatExponent x ≤ FloatExponent y :=
  FloatExponentFrom_mono h 253 (-126)

theorem RoundToFloatPos_nonneg {x : ℚ} (hx : 0 < x) : 0 ≤ RoundToFloatPos x := by
  unfold RoundToFloatPos
  have hu : (0 : ℚ) < 2 ^ (FloatExponent x - 23) := by positivity
  have h0 : (0 : ℤ) ≤ RoundHalfEven (x / 2 ^ (FloatExponent x - 23)) := by
    have := RoundHalfEven_mono (le_of_lt (div_pos hx hu))
    rw [show (0 : ℚ) = ((0 : ℤ) : ℚ) by norm_num, RoundHalfEven_intCast] at this
    exact this
  have : (0 : ℚ) ≤ (RoundHalfEven (x / 2 ^ (FloatExponent x - 23)) : ℚ) := by exact_mod_cast h0
  positivity

theorem RoundToFloatPos_mono {x y : ℚ} (hx : 0 < x) (h : x ≤ y) :
    RoundToFloatPos x ≤ RoundToFloatPos y := by
  have hy : 0 < y := lt_of_lt_of_le hx h
  have he : FloatExponent x ≤ FloatExponent y := FloatExponent_mono h
  have h2 : (1 : ℚ) < 2 := by norm_num
  have h20 : (2 : ℚ) ≠ 0 := by norm_num
  rcases lt_or_eq_of_le he with hlt | heq
  · -- different binades: a power of two lies between the two results
    have hx1 : x < (2 : ℚ) ^ (FloatExponent x + 1) :=
      (FloatExponent_spec x).2.2.1 (by have := (FloatExponent_spec y).2.1; omega)
    have hy1 : (2 : ℚ) ^ FloatExponent y ≤ y :=
      (FloatExponent_spec y).2.2.2 (by have := (FloatExponent_spec x).1; omega)
    have hux : (0 : ℚ) < 2 ^ (FloatExponent x - 23) := by positivity
    have huy : (0 : ℚ) < 2 ^ (FloatExponent y - 23) := by positivity
    have hX : RoundToFloatPos x ≤ (2 : ℚ) ^ (FloatExponent x + 1) := by
      unfold RoundToFloatPos
      have hq : x / 2 ^ (FloatExponent x - 23) ≤ (((2 : ℤ) ^ 24 : ℤ) : ℚ) := by
        rw [div_le_iff₀ hux]
        have : (((2 : ℤ) ^ 24 : ℤ) : ℚ) * 2 ^ (FloatExponent x - 23) =
            (2 : ℚ) ^ (FloatExponent x + 1) := by
          rw [show FloatExponent x + 1 = 24 + (FloatExponent x - 23) by ring, zpow_add₀ h20]
          norm_num
        rw [this]
        exact hx1.le
      have hr := RoundHalfEven_mono hq
      rw [RoundHalfEven_intCast] at hr
      have hr2 : (RoundHalfEven (x / 2 ^ (FloatExponent x - 23)) : ℚ) ≤
          (((2 : ℤ) ^ 24 : ℤ) : ℚ) := by exact_mod_cast hr
      calc (RoundHalfEven (x / 2 ^ (FloatExponent x - 23)) : ℚ) * 2 ^ (FloatExponent x - 23)
          ≤ (((2 : ℤ) ^ 24 : ℤ) : ℚ) * 2 ^ (FloatExponent x - 23) :=
            mul_le_mul_of_nonneg_right hr2 hux.le
        _ = (2 : ℚ) ^ (FloatExponent x + 1) := by
          rw [show FloatExponent x + 1 = 24 + (FloatExponent x - 23) by ring, zpow_add₀ h20]
          norm_num
    have hY : (2 : ℚ) ^ FloatExponent y ≤ RoundToFloatPos y := by
      unfold RoundToFloatPos
      have hq : (((2 : ℤ) ^ 23 : ℤ) : ℚ) ≤ y / 2 ^ (FloatExponent y - 23) := by
        rw [le_div_iff₀ huy]
        have : (((2 : ℤ) ^ 23 : ℤ) : ℚ) * 2 ^ (FloatExponent y - 23) =
            (2 : ℚ) ^ FloatExponent y := by
          nth_rewrite 2 [show FloatExponent y = 23 + (FloatExponent y - 23) by ring]
          rw [zpow_add₀ h20]
          norm_num
        rw [this]
        exact hy1
      have hr := RoundHalfEven_mono hq
      rw [RoundHalfEven_intCast] at hr
      have hr2 : (((2 : ℤ) ^ 23 : ℤ) : ℚ) ≤
          (RoundHalfEven (y / 2 ^ (FloatExponent y - 23)) : ℚ) := by exact_mod_cast hr
      calc (2 : ℚ) ^ FloatExponent y
          = (((2 : ℤ) ^ 23 : ℤ) : ℚ) * 2 ^ (FloatExponent y - 23) := by
            nth_rewrite 1 [show FloatExponent y = 23 + (FloatExponent y - 23) by ring]
            rw [zpow_add₀ h20]
            norm_num
        _ ≤ _ := mul_le_mul_of_nonneg_right hr2 huy.le
    exact le_trans hX (le_trans (zpow_le_zpow_right₀ h2.le (by omega)) hY)
  · unfold RoundToFloatPos
    rw [← heq]
    have hu : (0 : ℚ) < 2 ^ (FloatExponent x - 23) := by positivity
    have hr := RoundHalfEven_mono (div_le_div_of_nonneg_right h hu.le)
    have hr2 : (RoundHalfEven (x / 2 ^ (FloatExponent x - 23)) : ℚ) ≤
        (RoundHalfEven (y / 2 ^ (FloatExponent x - 23)) : ℚ) := by exact_mod_cast hr
    exact mul_le_mul_of_nonneg_right hr2 hu.le

/-- Rounding to `float` keeps the order. -/
theorem RoundToFloat_mono {x y : ℚ} (h : x ≤ y) : RoundToFloat x ≤ RoundToFloat y := by
  unfold RoundToFloat
  by_cases hx : 0 < x
  · have hy : 0 < y := lt_of_lt_of_le hx h
    rw [if_pos hx, if_pos hy]
    exact RoundToFloatPos_mono hx h
  · rw [if_neg hx]
    by_cases hx2 : x < 0
    · rw [if_pos hx2]
      have hnx := RoundToFloatPos_nonneg (neg_pos.mpr hx2)
      by_cases hy : 0 < y
      · rw [if_pos hy]
        have := RoundToFloatPos_nonneg hy
        linarith
      · rw [if_neg hy]
        by_cases hy2 : y < 0
        · rw [if_pos hy2]
          have := RoundToFloatPos_mono (neg_pos.mpr hy2) (neg_le_neg h)
          linarith
        · rw [if_neg hy2]
          linarith
    · rw [if_neg hx2]
      have hx0 : x = 0 := le_antisymm (not_lt.mp hx) (not_lt.mp hx2)
      by_cases hy : 0 < y
      · rw [if_pos hy]
        exact RoundToFloatPos_nonneg hy
      · rw [if_neg hy]
        have hy0 : y = 0 := le_antisymm (not_lt.mp hy) (by linarith)
        rw [if_neg (by linarith)]

theorem RoundToFloat_zero : RoundToFloat 0 = 0 := by
  unfold RoundToFloat
  simp

theorem FloatSub_self (a : ℚ) : FloatSub a a = 0 := by
  unfold FloatSub
  rw [sub_self, RoundToFloat_zero]

theorem FloatSub_mono_left {a b : ℚ} (c : ℚ) (h : a ≤ b) : FloatSub a c ≤ FloatSub b c :=
  RoundToFloat_mono (by linarith)

/-- A `float` difference above a `float` bound comes from an exact difference above it. -/
theorem lt_of_lt_FloatSub {a b C : ℚ} (hC : RoundToFloat C = C) (h : C < FloatSub a b) :
    C < a - b := by
  by_contra hc
  have := RoundToFloat_mono (not_lt.mp hc)
  rw [hC] at this
  unfold FloatSub at h
  linarith

/-- A `float` difference below a `float` bound comes from an exact difference below it. -/
theorem lt_of_FloatSub_lt {a b C : ℚ} (hC : RoundToFloat C = C) (h : FloatSub a b < C) :
    a - b < C := by
  by_contra hc
  have := RoundToFloat_mono (not_lt.mp hc)
  rw [hC] at this
  unfold FloatSub at h
  linarith

/-- A `float` difference is not below a `float` bound that the exact difference reaches. -/
theorem le_FloatSub_of_le {a b C : ℚ} (hC : RoundToFloat C = C) (h : C ≤ a - b) :
    C ≤ FloatSub a b := by
  have := RoundToFloat_mono h
  rw [hC] at this
  exact this

/-! ## Basic facts about the callbacks -/

theorem SetColor_eq (m : USLManipulatorBoneContactMonitor) (Color : FColor) :
    m.SetColor Color = { m with ShapeColor := Color } := by
  unfold SetColor
  split
  · rfl
  · rename_i h
    have h2 : m.ShapeColor = Color := not_not.mp h
    cases m
    simp only at h2
    subst h2
    rfl

theorem AcceptedIndividual_eq_some {m : USLManipulatorBoneContactMonitor} {OtherActor : AActor}
    {A : USLBaseIndividual} (h : AcceptedIndividual m OtherActor = some A) :
    OtherActor ≠ m.Owner ∧ FSLIndividualUtils.GetIndividualObject OtherActor = some A ∧
      (OtherActor.bIsStaticMeshActor && !(m.IgnoreList.contains (some OtherActor))) = true := by
  unfold AcceptedIndividual at h
  split at h
  · simp at h
  · rename_i hne
    split at h
    · simp at h
    · rename_i I hI
      split at h
      · rename_i hok
        simp only [Option.some.injEq] at h
        subst h
        exact ⟨hne, hI, hok⟩
      · simp at h

theorem AcceptedIndividual_eq_none {m : USLManipulatorBoneContactMonitor} {OtherActor : AActor}
    (h : AcceptedIndividual m OtherActor = none) :
    OtherActor = m.Owner ∨ FSLIndividualUtils.GetIndividualObject OtherActor = none ∨
      (OtherActor.bIsStaticMeshActor && !(m.IgnoreList.contains (some OtherActor))) = false := by
  unfold AcceptedIndividual at h
  split at h
  · rename_i ho
    exact Or.inl ho
  · split at h
    · rename_i hI
      exact Or.inr (Or.inl hI)
    · split at h
      · simp at h
      · rename_i hok
        exact Or.inr (Or.inr (by simpa using hok))

theorem AcceptedIndividual_congr {m m' : USLManipulatorBoneContactMonitor}
    (hO : m'.Owner = m.Owner) (hI : m'.IgnoreList = m.IgnoreList) (OtherActor : AActor) :
    AcceptedIndividual m' OtherActor = AcceptedIndividual m OtherActor := by
  unfold AcceptedIndividual
  rw [hO, hI]

/-- A rejected signal leaves the monitor as it is, on all four callbacks. -/
theorem rejected_signal (K : Constants) (m : USLManipulatorBoneContactMonitor)
    (OtherActor : AActor) (now : Time) (h : AcceptedIndividual m OtherActor = none) :
    OnGraspOverlapBegin K m OtherActor now = (m, []) ∧
    OnGraspOverlapEnd K m OtherActor now = (m, []) ∧
    OnContactOverlapBegin K m OtherActor now = (m, []) ∧
    OnContactOverlapEnd K m OtherActor now = (m, []) := by
  rcases AcceptedIndividual_eq_none h with h | h | h
  · simp [OnGraspOverlapBegin, OnGraspOverlapEnd, OnContactOverlapBegin, OnContactOverlapEnd, h]
  · refine ⟨?_, ?_, ?_, ?_⟩
    · unfold OnGraspOverlapBegin; rw [h]; simp
    · unfold OnGraspOverlapEnd; rw [h]; simp
    · unfold OnContactOverlapBegin; rw [h]; simp
    · unfold OnContactOverlapEnd; rw [h]; simp
  · refine ⟨?_, ?_, ?_, ?_⟩
    · unfold OnGraspOverlapBegin; rw [h]; split <;> [rfl; (split <;> simp)]
    · unfold OnGraspOverlapEnd; rw [h]; split <;> [rfl; (split <;> simp)]
    · unfold OnContactOverlapBegin; rw [h]; split <;> [rfl; (split <;> simp)]
    · unfold OnContactOverlapEnd; rw [h]; split <;> [rfl; (split <;> simp)]

/-- An accepted grasp begin: the contact becomes active, and either a pending end inside
the concatenation window is dropped, or the begin is broadcast. -/
theorem OnGraspOverlapBegin_accepted (K : Constants) (m : USLManipulatorBoneContactMonitor)
    (OtherActor : AActor) (A : USLBaseIndividual) (now : Time)
    (h : AcceptedIndividual m OtherActor = some A) :
    OnGraspOverlapBegin K m OtherActor now =
      match RemoveFirstJitter K A now m.RecentlyEndedGraspOverlapEvents with
      | some Rest =>
        ({ m with
            ActiveContacts := m.ActiveContacts.Emplace A
            RecentlyEndedGraspOverlapEvents := Rest
            GraspDelayTimerHandle := if Rest.length = 0 then none else m.GraspDelayTimerHandle
            ShapeColor := if m.bVisualDebug then FColor.Green else m.ShapeColor }, [])
      | none =>
        ({ m with
            ActiveContacts := m.ActiveContacts.Emplace A
            ShapeColor := if m.bVisualDebug then FColor.Green else m.ShapeColor },
          [Broadcast.OnBeginGraspBoneOverlap A]) := by
  obtain ⟨hne, hI, hok⟩ := AcceptedIndividual_eq_some h
  unfold OnGraspOverlapBegin
  rw [if_neg hne, hI]
  simp only [hok, if_true, SkipRecentGraspOverlapEndEventBroadcast, SetColor_eq, ClearTimer]
  cases hq : RemoveFirstJitter K A now m.RecentlyEndedGraspOverlapEvents with
  | none => cases hv : m.bVisualDebug <;> simp [hv]
  | some Rest =>
    cases hv : m.bVisualDebug <;> by_cases hr : Rest.length = 0 <;> simp [hv, hr]

/-- An accepted grasp end: an active contact is removed and queued as a pending end,
and the sweep is scheduled unless one is pending; an inactive one changes nothing but
the debug colour. -/
theorem OnGraspOverlapEnd_accepted (K : Constants) (m : USLManipulatorBoneContactMonitor)
    (OtherActor : AActor) (A : USLBaseIndividual) (now : Time)
    (h : AcceptedIndividual m OtherActor = some A) :
    OnGraspOverlapEnd K m OtherActor now =
      if A ∈ m.ActiveContacts.Elements then
        ({ m with
            ActiveContacts := (m.ActiveContacts.Remove A).1
            RecentlyEndedGraspOverlapEvents := m.RecentlyEndedGraspOverlapEvents ++ [⟨A, now⟩]
            GraspDelayTimerHandle :=
              if m.GraspDelayTimerHandle.isSome then m.GraspDelayTimerHandle
              else SetTimer now (K.ConcatenateIfSmaller * (11 / 10))
            ShapeColor :=
              if m.bVisualDebug ∧ (m.ActiveContacts.Remove A).1.Num = 0 then FColor.Red
              else m.ShapeColor }, [])
      else
        ({ m with
            ShapeColor :=
              if m.bVisualDebug ∧ m.ActiveContacts.Num = 0 then FColor.Red
              else m.ShapeColor }, []) := by
  obtain ⟨hne, hI, hok⟩ := AcceptedIndividual_eq_some h
  unfold OnGraspOverlapEnd
  rw [if_neg hne, hI]
  simp only [hok, if_true, SetColor_eq, IsTimerActive]
  by_cases hA : A ∈ m.ActiveContacts.Elements
  · have hrem : (m.ActiveContacts.Remove A).2 = 1 := by simp [TSet.Remove, hA]
    cases hv : m.bVisualDebug <;> cases ht : m.GraspDelayTimerHandle <;>
      by_cases hn : (m.ActiveContacts.Remove A).1.Num = 0 <;> simp [hA, hrem, hv, ht, hn]
  · have hrem : (m.ActiveContacts.Remove A) = (m.ActiveContacts, 0) := by
      cases hm : m.ActiveContacts with
      | mk xs nd =>
        rw [hm] at hA
        simp only [TSet.Remove, hA, if_false, Prod.mk.injEq, and_true]
        congr 1
        exact List.erase_of_not_mem hA
    cases hv : m.bVisualDebug <;>
      by_cases hn : m.ActiveContacts.Num = 0 <;> simp [hA, hrem, hv, hn]

/-- An accepted contact begin: either a pending end inside the concatenation window is
dropped, or the begin is broadcast. -/
theorem OnContactOverlapBegin_accepted (K : Constants) (m : USLManipulatorBoneContactMonitor)
    (OtherActor : AActor) (A : USLBaseIndividual) (now : Time)
    (h : AcceptedIndividual m OtherActor = some A) :
    OnContactOverlapBegin K m OtherActor now =
      match RemoveFirstJitter K A now m.RecentlyEndedContactOverlapEvents with
      | some Rest =>
        ({ m with
            RecentlyEndedContactOverlapEvents := Rest
            ContactDelayTimerHandle :=
              if Rest.length = 0 then none else m.ContactDelayTimerHandle }, [])
      | none => (m, [Broadcast.OnBeginContactBoneOverlap A]) := by
  obtain ⟨hne, hI, hok⟩ := AcceptedIndividual_eq_some h
  unfold OnContactOverlapBegin
  rw [if_neg hne, hI]
  simp only [hok, if_true, SkipIfJitterContact, ClearTimer]
  cases hq : RemoveFirstJitter K A now m.RecentlyEndedContactOverlapEvents with
  | none => simp
  | some Rest => by_cases hr : Rest.length = 0 <;> simp [hr]

/-- An accepted contact end is queued as a pending end, and the sweep is scheduled unless
one is pending. -/
theorem OnContactOverlapEnd_accepted (K : Constants) (m : USLManipulatorBoneContactMonitor)
    (OtherActor : AActor) (A : USLBaseIndividual) (now : Time)
    (h : AcceptedIndividual m OtherActor = some A) :
    OnContactOverlapEnd K m OtherActor now =
      ({ m with
          RecentlyEndedContactOverlapEvents :=
            m.RecentlyEndedContactOverlapEvents ++ [⟨A, now⟩]
          ContactDelayTimerHandle :=
            if m.ContactDelayTimerHandle.isSome then m.ContactDelayTimerHandle
            else SetTimer now (K.ConcatenateIfSmaller + K.ConcatenateIfSmallerDelay) }, []) := by
  obtain ⟨hne, hI, hok⟩ := AcceptedIndividual_eq_some h
  unfold OnContactOverlapEnd
  rw [if_neg hne, hI]
  simp only [hok, if_true, IsTimerActive]
  cases ht : m.ContactDelayTimerHandle <;> simp [ht]

theorem TickTimers_of_none (K : Constants) (fuel : Nat) (t : Time) (r : Result)
    (h : NextExpired r.1 t = none) : TickTimers K fuel t r = r := by
  cases fuel with
  | zero => rfl
  | succ n => simp [TickTimers, h]

theorem RemoveFirstJitter_singleton (K : Constants) (A : USLBaseIndividual) (t1 t2 : Time) :
    RemoveFirstJitter K A t2 [⟨A, t1⟩] =
      if FloatSub t2 t1 < K.ConcatenateIfSmaller then some [] else none := by
  simp [RemoveFirstJitter]

/-- Between the window and the sweep: on a monitor with nothing in flight, with a `float`
`ConcatenateIfSmaller`, when the second begin comes at least `ConcatenateIfSmaller` after
the end but not later than the sweep is due, the second begin is broadcast and the end of
the first contact is still pending. -/
theorem second_begin_before_sweep (K : Constants)
    (m : USLManipulatorBoneContactMonitor)
    (OtherActor : AActor) (A : USLBaseIndividual) (t0 t1 gap : Time) (fuel : Nat)
    (hfresh : m.Fresh) (hacc : AcceptedIndividual m OtherActor = some A)
    (hC : 0 < K.ConcatenateIfSmaller) (hD : 0 < K.ConcatenateIfSmallerDelay)
    (hCf : RoundToFloat K.ConcatenateIfSmaller = K.ConcatenateIfSmaller) :
    (K.ConcatenateIfSmaller ≤ gap → gap ≤ K.ConcatenateIfSmaller * (11 / 10) →
      (RunTimed K fuel m [.GraspOverlapBegin OtherActor t0, .GraspOverlapEnd OtherActor t1,
        .GraspOverlapBegin OtherActor (t1 + gap)]).2 =
        [Broadcast.OnBeginGraspBoneOverlap A, Broadcast.OnBeginGraspBoneOverlap A] ∧
      (RunTimed K fuel m [.GraspOverlapBegin OtherActor t0, .GraspOverlapEnd OtherActor t1,
        .GraspOverlapBegin OtherActor (t1 + gap)]).1.RecentlyEndedGraspOverlapEvents =
        [⟨A, t1⟩]) ∧
    (K.ConcatenateIfSmaller ≤ gap → gap ≤ K.ConcatenateIfSmaller + K.ConcatenateIfSmallerDelay →
      (RunTimed K fuel m [.ContactOverlapBegin OtherActor t0,
        .ContactOverlapEnd OtherActor t1, .ContactOverlapBegin OtherActor (t1 + gap)]).2 =
        [Broadcast.OnBeginContactBoneOverlap A, Broadcast.OnBeginContactBoneOverlap A] ∧
      (RunTimed K fuel m [.ContactOverlapBegin OtherActor t0,
        .ContactOverlapEnd OtherActor t1,
        .ContactOverlapBegin OtherActor (t1 + gap)]).1.RecentlyEndedContactOverlapEvents =
        [⟨A, t1⟩]) := by
  obtain ⟨hAC, hGQ, hCQ, hGT, hCT⟩ := hfresh
  have hC1 : 0 < K.ConcatenateIfSmaller * (11 / 10) := by positivity
  have hC2 : 0 < K.ConcatenateIfSmaller + K.ConcatenateIfSmallerDelay := by linarith
  refine ⟨?_, ?_⟩
  · intro hlo hhi
    have hng : ¬ (FloatSub (t1 + gap) t1 < K.ConcatenateIfSmaller) :=
      not_lt.mpr (le_FloatSub_of_le hCf (by linarith))
    simp only [RunTimed, Event.time, Step]
    rw [TickTimers_of_none _ _ _ _ (by simp [NextExpired, hGT, hCT])]
    rw [OnGraspOverlapBegin_accepted K m OtherActor A t0 hacc]
    simp only [hGQ, RemoveFirstJitter]
    rw [TickTimers_of_none _ _ _ _ (by simp [NextExpired, hGT, hCT])]
    rw [OnGraspOverlapEnd_accepted K _ OtherActor A t1
      (by rw [AcceptedIndividual_congr rfl rfl]; exact hacc)]
    simp only [hAC, hGQ, hGT, TSet.Emplace, TSet.Empty, TSet.Remove, SetTimer, hC1]
    simp only [List.not_mem_nil, dite_false, List.nil_append, List.mem_singleton, if_true,
      Option.isSome_none, Bool.false_eq_true, if_false]
    rw [TickTimers_of_none _ _ _ _ (by simp [NextExpired, hCT, hhi])]
    rw [OnGraspOverlapBegin_accepted K _ OtherActor A (t1 + gap)
      (by rw [AcceptedIndividual_congr rfl rfl]; exact hacc)]
    simp [RemoveFirstJitter_singleton, hng]
  · intro hlo hhi
    have hng : ¬ (FloatSub (t1 + gap) t1 < K.ConcatenateIfSmaller) :=
      not_lt.mpr (le_FloatSub_of_le hCf (by linarith))
    simp only [RunTimed, Event.time, Step]
    rw [TickTimers_of_none _ _ _ _ (by simp [NextExpired, hGT, hCT])]
    rw [OnContactOverlapBegin_accepted K m OtherActor A t0 hacc]
    simp only [hCQ, RemoveFirstJitter]
    rw [TickTimers_of_none _ _ _ _ (by simp [NextExpired, hGT, hCT])]
    rw [OnContactOverlapEnd_accepted K _ OtherActor A t1 hacc]
    simp only [hCQ, hCT, SetTimer, hC2, if_true, Option.isSome_none, Bool.false_eq_true,
      if_false, List.nil_append]
    rw [TickTimers_of_none _ _ _ _ (by simp [NextExpired, hGT, hhi])]
    rw [OnContactOverlapBegin_accepted K _ OtherActor A (t1 + gap)
      (by rw [AcceptedIndividual_congr rfl rfl]; exact hacc)]
    simp [RemoveFirstJitter_singleton, hng]

/-! ## Counting begins, ends and pending ends -/

theorem TSet_mem_Emplace {α : Type} [DecidableEq α] (s : TSet α) (x y : α) :
    y ∈ (s.Emplace x).Elements ↔ y = x ∨ y ∈ s.Elements := by
  unfold TSet.Emplace
  split
  · rename_i h
    constructor
    · intro hy; exact Or.inr hy
    · rintro (rfl | hy)
      · exact h
      · exact hy
  · simp [or_comm]

theorem TSet_mem_Remove {α : Type} [DecidableEq α] (s : TSet α) (x y : α) :
    y ∈ (s.Remove x).1.Elements ↔ y ≠ x ∧ y ∈ s.Elements := by
  simp only [TSet.Remove]
  exact s.nodup.mem_erase_iff

theorem PendingOf_append (X : USLBaseIndividual)
    (Q R : List FSLManipulatorContactMonitorEndEvent) :
    PendingOf X (Q ++ R) = PendingOf X Q + PendingOf X R := by
  simp [PendingOf, List.countP_append]

theorem PendingOf_RemoveFirstJitter (K : Constants) (X Y : USLBaseIndividual) (now : Time) :
    ∀ (Q Rest : List FSLManipulatorContactMonitorEndEvent),
      RemoveFirstJitter K Y now Q = some Rest →
      PendingOf X Rest + (if Y = X then 1 else 0) = PendingOf X Q
  | [], Rest, h => by simp [RemoveFirstJitter] at h
  | Ev :: Q, Rest, h => by
    unfold RemoveFirstJitter at h
    split at h
    · rename_i hc
      simp only [Option.some.injEq] at h
      subst h
      obtain ⟨hO, _⟩ := hc
      simp only [PendingOf, List.countP_cons, hO, decide_eq_true_eq]
    · cases hq : RemoveFirstJitter K Y now Q with
      | none => simp [hq] at h
      | some R =>
        simp only [hq, Option.map_some', Option.some.injEq] at h
        subst h
        have ih := PendingOf_RemoveFirstJitter K X Y now Q R hq
        simp only [PendingOf, List.countP_cons] at ih ⊢
        omega

theorem PendingOf_sweep (X : USLBaseIndividual) (p : FSLManipulatorContactMonitorEndEvent → Bool)
    (f : USLBaseIndividual → Broadcast) (hf : ∀ a b, f a = f b ↔ a = b) :
    ∀ Q : List FSLManipulatorContactMonitorEndEvent,
      ((Q.filter p).map (fun Ev => f Ev.Other)).count (f X) +
        PendingOf X (Q.filter (fun Ev => !p Ev)) = PendingOf X Q
  | [] => by simp [PendingOf]
  | Ev :: Q => by
    have ih := PendingOf_sweep X p f hf Q
    simp only [PendingOf] at ih ⊢
    cases hp : p Ev <;> by_cases hX : Ev.Other = X <;>
      simp [List.filter_cons, hp, List.countP_cons, List.count_cons, hX, hf] <;> omega

theorem count_map_of_ne {β : Type} (h : β → Broadcast) (y : Broadcast)
    (hne : ∀ a, h a ≠ y) (L : List β) : (L.map h).count y = 0 := by
  rw [List.count_eq_zero]
  intro hmem
  obtain ⟨a, _, ha⟩ := List.mem_map.mp hmem
  exact hne a ha

theorem Step_Owner_IgnoreList (K : Constants) (m : USLManipulatorBoneContactMonitor)
    (e : Event) :
    (Step K m e).1.Owner = m.Owner ∧ (Step K m e).1.IgnoreList = m.IgnoreList := by
  cases e with
  | GraspOverlapBegin a now =>
    simp only [Step]
    cases h : AcceptedIndividual m a with
    | none => rw [(rejected_signal K m a now h).1]; exact ⟨rfl, rfl⟩
    | some A =>
      rw [OnGraspOverlapBegin_accepted K m a A now h]
      split <;> exact ⟨rfl, rfl⟩
  | GraspOverlapEnd a now =>
    simp only [Step]
    cases h : AcceptedIndividual m a with
    | none => rw [(rejected_signal K m a now h).2.1]; exact ⟨rfl, rfl⟩
    | some A =>
      rw [OnGraspOverlapEnd_accepted K m a A now h]
      split <;> exact ⟨rfl, rfl⟩
  | ContactOverlapBegin a now =>
    simp only [Step]
    cases h : AcceptedIndividual m a with
    | none => rw [(rejected_signal K m a now h).2.2.1]; exact ⟨rfl, rfl⟩
    | some A =>
      rw [OnContactOverlapBegin_accepted K m a A now h]
      split <;> exact ⟨rfl, rfl⟩
  | ContactOverlapEnd a now =>
    simp only [Step]
    cases h : AcceptedIndividual m a with
    | none => rw [(rejected_signal K m a now h).2.2.2]; exact ⟨rfl, rfl⟩
    | some A =>
      rw [OnContactOverlapEnd_accepted K m a A now h]
      exact ⟨rfl, rfl⟩
  | GraspDelayTimer now =>
    simp only [Step, FireGraspDelayTimer, DelayedGraspOverlapEndEventCallback]
    split <;> exact ⟨rfl, rfl⟩
  | ContactDelayTimer now =>
    simp only [Step, FireContactDelayTimer, DelayContactEndCallback]
    split <;> exact ⟨rfl, rfl⟩

theorem GraspSignalOf_congr {m m' : USLManipulatorBoneContactMonitor}
    (hO : m'.Owner = m.Owner) (hI : m'.IgnoreList = m.IgnoreList) (X : USLBaseIndividual) :
    GraspSignalOf m' X = GraspSignalOf m X := by
  funext e
  cases e <;> simp [GraspSignalOf, AcceptedIndividual_congr hO hI]

theorem ContactSignalOf_congr {m m' : USLManipulatorBoneContactMonitor}
    (hO : m'.Owner = m.Owner) (hI : m'.IgnoreList = m.IgnoreList) (X : USLBaseIndividual) :
    ContactSignalOf m' X = ContactSignalOf m X := by
  funext e
  cases e <;> simp [ContactSignalOf, AcceptedIndividual_congr hO hI]

/-- One event keeps the grasp balance of `X`: begins broadcast plus pending ends plus
the open contact before equal ends broadcast plus pending ends plus the open contact
after, and `ActiveContacts` follows the signals. -/
theorem Step_grasp_balance (K : Constants) (m : USLManipulatorBoneContactMonitor)
    (e : Event) (X : USLBaseIndividual) (b : Bool)
    (hb : X ∈ m.ActiveContacts.Elements ↔ b = true)
    (halt : ∀ s, GraspSignalOf m X e = some s → s = !b) :
    (Step K m e).2.count (Broadcast.OnBeginGraspBoneOverlap X) +
        PendingOf X m.RecentlyEndedGraspOverlapEvents + b.toNat =
      (Step K m e).2.count (Broadcast.OnEndGraspBoneOverlap X) +
        PendingOf X (Step K m e).1.RecentlyEndedGraspOverlapEvents +
        ((GraspSignalOf m X e).getD b).toNat ∧
    (X ∈ (Step K m e).1.ActiveContacts.Elements ↔ (GraspSignalOf m X e).getD b = true) := by
  cases e with
  | GraspOverlapBegin a now =>
    simp only [Step]
    cases h : AcceptedIndividual m a with
    | none =>
      rw [(rejected_signal K m a now h).1]
      simp [GraspSignalOf, h, hb]
    | some A =>
      rw [OnGraspOverlapBegin_accepted K m a A now h]
      by_cases hAX : A = X
      · subst hAX
        have hs := halt true (by simp [GraspSignalOf, h])
        have hbf : b = false := by
          cases b with
          | false => rfl
          | true => simp at hs
        subst hbf
        cases hq : RemoveFirstJitter K A now m.RecentlyEndedGraspOverlapEvents with
        | none =>
          simp [GraspSignalOf, h, TSet_mem_Emplace]
          omega
        | some Rest =>
          have := PendingOf_RemoveFirstJitter K A A now _ _ hq
          simp [GraspSignalOf, h, TSet_mem_Emplace]
          simp at this
          omega
      · have hXA : X ≠ A := fun hc => hAX hc.symm
        cases hq : RemoveFirstJitter K A now m.RecentlyEndedGraspOverlapEvents with
        | none => simp [GraspSignalOf, h, hAX, hXA, TSet_mem_Emplace, hb]
        | some Rest =>
          have := PendingOf_RemoveFirstJitter K X A now _ _ hq
          simp [GraspSignalOf, h, hAX, hXA, TSet_mem_Emplace, hb]
          simp [hAX] at this
          omega
  | GraspOverlapEnd a now =>
    simp only [Step]
    cases h : AcceptedIndividual m a with
    | none =>
      rw [(rejected_signal K m a now h).2.1]
      simp [GraspSignalOf, h, hb]
    | some A =>
      rw [OnGraspOverlapEnd_accepted K m a A now h]
      by_cases hAX : A = X
      · subst hAX
        have hs := halt false (by simp [GraspSignalOf, h])
        have hbt : b = true := by
          cases b with
          | true => rfl
          | false => simp at hs
        subst hbt
        have hA : A ∈ m.ActiveContacts.Elements := hb.mpr rfl
        simp [GraspSignalOf, h, hA, TSet_mem_Remove, PendingOf_append, PendingOf]
      · have hXA : X ≠ A := fun hc => hAX hc.symm
        by_cases hA : A ∈ m.ActiveContacts.Elements
        · simp [GraspSignalOf, h, hA, hAX, hXA, TSet_mem_Remove, PendingOf_append, PendingOf, hb]
        · simp [GraspSignalOf, h, hA, hAX, hb]
  | ContactOverlapBegin a now =>
    simp only [Step]
    cases h : AcceptedIndividual m a with
    | none =>
      rw [(rejected_signal K m a now h).2.2.1]
      simp [GraspSignalOf, hb]
    | some A =>
      rw [OnContactOverlapBegin_accepted K m a A now h]
      split <;> simp [GraspSignalOf, hb]
  | ContactOverlapEnd a now =>
    simp only [Step]
    cases h : AcceptedIndividual m a with
    | none =>
      rw [(rejected_signal K m a now h).2.2.2]
      simp [GraspSignalOf, hb]
    | some A =>
      rw [OnContactOverlapEnd_accepted K m a A now h]
      simp [GraspSignalOf, hb]
  | GraspDelayTimer now =>
    have hsw := PendingOf_sweep X
      (fun Ev => decide (FloatSub now Ev.Timestamp > K.ConcatenateIfSmaller))
      Broadcast.OnEndGraspBoneOverlap (by simp) m.RecentlyEndedGraspOverlapEvents
    have hno := fun L => count_map_of_ne
      (fun Ev : FSLManipulatorContactMonitorEndEvent => Broadcast.OnEndGraspBoneOverlap Ev.Other)
      (Broadcast.OnBeginGraspBoneOverlap X) (by simp) L
    simp only [Step, FireGraspDelayTimer, DelayedGraspOverlapEndEventCallback]
    split
    · simp only [GraspSignalOf, Option.getD_none, hb, and_true]
      rw [hno, ← hsw]
      omega
    · simp only [GraspSignalOf, Option.getD_none, hb, and_true]
      rw [hno, ← hsw]
      omega
  | ContactDelayTimer now =>
    have hno := fun L => count_map_of_ne
      (fun Ev : FSLManipulatorContactMonitorEndEvent => Broadcast.OnEndContactBoneOverlap Ev.Other)
      (Broadcast.OnBeginGraspBoneOverlap X) (by simp) L
    have hno2 := fun L => count_map_of_ne
      (fun Ev : FSLManipulatorContactMonitorEndEvent => Broadcast.OnEndContactBoneOverlap Ev.Other)
      (Broadcast.OnEndGraspBoneOverlap X) (by simp) L
    simp only [Step, FireContactDelayTimer, DelayContactEndCallback]
    split
    · simp only [GraspSignalOf, Option.getD_none, hb, and_true]
      rw [hno, hno2]
    · simp only [GraspSignalOf, Option.getD_none, hb, and_true]
      rw [hno, hno2]

/-- One event keeps the contact balance of `X`: begins broadcast plus pending ends plus
the open contact before equal ends broadcast plus pending ends plus the open contact
after. -/
theorem Step_contact_balance (K : Constants) (m : USLManipulatorBoneContactMonitor)
    (e : Event) (X : USLBaseIndividual) (b : Bool)
    (halt : ∀ s, ContactSignalOf m X e = some s → s = !b) :
    (Step K m e).2.count (Broadcast.OnBeginContactBoneOverlap X) +
        PendingOf X m.RecentlyEndedContactOverlapEvents + b.toNat =
      (Step K m e).2.count (Broadcast.OnEndContactBoneOverlap X) +
        PendingOf X (Step K m e).1.RecentlyEndedContactOverlapEvents +
        ((ContactSignalOf m X e).getD b).toNat := by
  cases e with
  | ContactOverlapBegin a now =>
    simp only [Step]
    cases h : AcceptedIndividual m a with
    | none =>
      rw [(rejected_signal K m a now h).2.2.1]
      simp [ContactSignalOf, h]
    | some A =>
      rw [OnContactOverlapBegin_accepted K m a A now h]
      by_cases hAX : A = X
      · subst hAX
        have hs := halt true (by simp [ContactSignalOf, h])
        have hbf : b = false := by
          cases b with
          | false => rfl
          | true => simp at hs
        subst hbf
        cases hq : RemoveFirstJitter K A now m.RecentlyEndedContactOverlapEvents with
        | none =>
          simp [ContactSignalOf, h]
          omega
        | some Rest =>
          have := PendingOf_RemoveFirstJitter K A A now _ _ hq
          simp [ContactSignalOf, h]
          simp at this
          omega
      · have hXA : X ≠ A := fun hc => hAX hc.symm
        cases hq : RemoveFirstJitter K A now m.RecentlyEndedContactOverlapEvents with
        | none => simp [ContactSignalOf, h, hAX, hXA]
        | some Rest =>
          have := PendingOf_RemoveFirstJitter K X A now _ _ hq
          simp [ContactSignalOf, h, hAX]
          simp [hAX] at this
          omega
  | ContactOverlapEnd a now =>
    simp only [Step]
    cases h : AcceptedIndividual m a with
    | none =>
      rw [(rejected_signal K m a now h).2.2.2]
      simp [ContactSignalOf, h]
    | some A =>
      rw [OnContactOverlapEnd_accepted K m a A now h]
      by_cases hAX : A = X
      · subst hAX
        have hs := halt false (by simp [ContactSignalOf, h])
        have hbt : b = true := by
          cases b with
          | true => rfl
          | false => simp at hs
        subst hbt
        simp [ContactSignalOf, h, PendingOf_append, PendingOf]
      · simp [ContactSignalOf, h, hAX, PendingOf_append, PendingOf]
  | GraspOverlapBegin a now =>
    simp only [Step]
    cases h : AcceptedIndividual m a with
    | none =>
      rw [(rejected_signal K m a now h).1]
      simp [ContactSignalOf]
    | some A =>
      rw [OnGraspOverlapBegin_accepted K m a A now h]
      split <;> simp [ContactSignalOf]
  | GraspOverlapEnd a now =>
    simp only [Step]
    cases h : AcceptedIndividual m a with
    | none =>
      rw [(rejected_signal K m a now h).2.1]
      simp [ContactSignalOf]
    | some A =>
      rw [OnGraspOverlapEnd_accepted K m a A now h]
      split <;> simp [ContactSignalOf]
  | ContactDelayTimer now =>
    have hsw := PendingOf_sweep X
      (fun Ev => decide (FloatSub now Ev.Timestamp > K.ConcatenateIfSmaller))
      Broadcast.OnEndContactBoneOverlap (by simp) m.RecentlyEndedContactOverlapEvents
    have hno := fun L => count_map_of_ne
      (fun Ev : FSLManipulatorContactMonitorEndEvent => Broadcast.OnEndContactBoneOverlap Ev.Other)
      (Broadcast.OnBeginContactBoneOverlap X) (by simp) L
    simp only [Step, FireContactDelayTimer, DelayContactEndCallback]
    split
    · simp only [ContactSignalOf, Option.getD_none]
      rw [hno, ← hsw]
      omega
    · simp only [ContactSignalOf, Option.getD_none]
      rw [hno, ← hsw]
      omega
  | GraspDelayTimer now =>
    have hno := fun L => count_map_of_ne
      (fun Ev : FSLManipulatorContactMonitorEndEvent => Broadcast.OnEndGraspBoneOverlap Ev.Other)
      (Broadcast.OnBeginContactBoneOverlap X) (by simp) L
    have hno2 := fun L => count_map_of_ne
      (fun Ev : FSLManipulatorContactMonitorEndEvent => Broadcast.OnEndGraspBoneOverlap Ev.Other)
      (Broadcast.OnEndContactBoneOverlap X) (by simp) L
    simp only [Step, FireGraspDelayTimer, DelayedGraspOverlapEndEventCallback]
    split
    · simp only [ContactSignalOf, Option.getD_none]
      rw [hno, hno2]
    · simp only [ContactSignalOf, Option.getD_none]
      rw [hno, hno2]

theorem Run_grasp_balance (K : Constants) (X : USLBaseIndividual) :
    ∀ (es : List Event) (m : USLManipulatorBoneContactMonitor) (b : Bool),
      (X ∈ m.ActiveContacts.Elements ↔ b = true) →
      Alternates (!b) (GraspSignalsOf m X es) = true →
      (Run K m es).2.count (Broadcast.OnBeginGraspBoneOverlap X) +
          PendingOf X m.RecentlyEndedGraspOverlapEvents + b.toNat =
        (Run K m es).2.count (Broadcast.OnEndGraspBoneOverlap X) +
          PendingOf X (Run K m es).1.RecentlyEndedGraspOverlapEvents +
          (OpenAfter b (GraspSignalsOf m X es)).toNat
  | [], m, b, _, _ => by simp [Run, GraspSignalsOf, OpenAfter]
  | e :: es, m, b, hb, halt => by
    obtain ⟨hO, hI⟩ := Step_Owner_IgnoreList K m e
    have hcongr : GraspSignalsOf (Step K m e).1 X es = GraspSignalsOf m X es := by
      simp only [GraspSignalsOf, GraspSignalOf_congr hO hI]
    cases hs : GraspSignalOf m X e with
    | none =>
      have hsig : GraspSignalsOf m X (e :: es) = GraspSignalsOf m X es := by
        simp [GraspSignalsOf, List.filterMap_cons, hs]
      rw [hsig] at halt ⊢
      obtain ⟨h1, h2⟩ := Step_grasp_balance K m e X b hb (by simp [hs])
      rw [hs] at h1 h2
      simp only [Option.getD_none] at h1 h2
      have ih := Run_grasp_balance K X es (Step K m e).1 b h2 (by rw [hcongr]; exact halt)
      rw [hcongr] at ih
      simp only [Run, List.count_append]
      omega
    | some s =>
      have hsig : GraspSignalsOf m X (e :: es) = s :: GraspSignalsOf m X es := by
        simp [GraspSignalsOf, List.filterMap_cons, hs]
      rw [hsig] at halt ⊢
      simp only [Alternates, Bool.and_eq_true, beq_iff_eq] at halt
      obtain ⟨hsb, halt2⟩ := halt
      obtain ⟨h1, h2⟩ := Step_grasp_balance K m e X b hb
        (by intro s2 hs2; rw [hs] at hs2; simp only [Option.some.injEq] at hs2; rw [← hs2, hsb])
      rw [hs] at h1 h2
      simp only [Option.getD_some] at h1 h2
      have ih := Run_grasp_balance K X es (Step K m e).1 s h2
        (by rw [hcongr, hsb]; exact halt2)
      rw [hcongr] at ih
      simp only [Run, List.count_append, OpenAfter]
      omega

theorem Run_contact_balance (K : Constants) (X : USLBaseIndividual) :
    ∀ (es : List Event) (m : USLManipulatorBoneContactMonitor) (b : Bool),
      Alternates (!b) (ContactSignalsOf m X es) = true →
      (Run K m es).2.count (Broadcast.OnBeginContactBoneOverlap X) +
          PendingOf X m.RecentlyEndedContactOverlapEvents + b.toNat =
        (Run K m es).2.count (Broadcast.OnEndContactBoneOverlap X) +
          PendingOf X (Run K m es).1.RecentlyEndedContactOverlapEvents +
          (OpenAfter b (ContactSignalsOf m X es)).toNat
  | [], m, b, _ => by simp [Run, ContactSignalsOf, OpenAfter]
  | e :: es, m, b, halt => by
    obtain ⟨hO, hI⟩ := Step_Owner_IgnoreList K m e
    have hcongr : ContactSignalsOf (Step K m e).1 X es = ContactSignalsOf m X es := by
      simp only [ContactSignalsOf, ContactSignalOf_congr hO hI]
    cases hs : ContactSignalOf m X e with
    | none =>
      have hsig : ContactSignalsOf m X (e :: es) = ContactSignalsOf m X es := by
        simp [ContactSignalsOf, List.filterMap_cons, hs]
      rw [hsig] at halt ⊢
      have h1 := Step_contact_balance K m e X b (by simp [hs])
      rw [hs] at h1
      simp only [Option.getD_none] at h1
      have ih := Run_contact_balance K X es (Step K m e).1 b (by rw [hcongr]; exact halt)
      rw [hcongr] at ih
      simp only [Run, List.count_append]
      omega
    | some s =>
      have hsig : ContactSignalsOf m X (e :: es) = s :: ContactSignalsOf m X es := by
        simp [ContactSignalsOf, List.filterMap_cons, hs]
      rw [hsig] at halt ⊢
      simp only [Alternates, Bool.and_eq_true, beq_iff_eq] at halt
      obtain ⟨hsb, halt2⟩ := halt
      have h1 := Step_contact_balance K m e X b
        (by intro s2 hs2; rw [hs] at hs2; simp only [Option.some.injEq] at hs2; rw [← hs2, hsb])
      rw [hs] at h1
      simp only [Option.getD_some] at h1
      have ih := Run_contact_balance K X es (Step K m e).1 s
        (by rw [hcongr, hsb]; exact halt2)
      rw [hcongr] at ih
      simp only [Run, List.count_append, OpenAfter]
      omega

/-! ## Finish -/

theorem Finish_of_live (m : USLManipulatorBoneContactMonitor) (bForced : Bool)
    (hfin : m.bIsFinished = false) (hlive : m.bIsInit = true ∨ m.bIsStarted = true) :
    Finish m bForced =
      ({ m with
          RecentlyEndedGraspOverlapEvents := []
          RecentlyEndedContactOverlapEvents := []
          bGenerateOverlapEvents := false
          bIsStarted := false, bIsInit := false, bIsFinished := true },
        m.RecentlyEndedGraspOverlapEvents.map
            (fun Ev => Broadcast.OnEndGraspBoneOverlap Ev.Other) ++
          m.RecentlyEndedContactOverlapEvents.map
            (fun Ev => Broadcast.OnEndContactBoneOverlap Ev.Other)) := by
  unfold Finish
  rcases hlive with h | h <;> simp [hfin, h]

theorem Finish_of_not_live (m : USLManipulatorBoneContactMonitor) (bForced : Bool)
    (h : m.bIsFinished = true ∨ (m.bIsInit = false ∧ m.bIsStarted = false)) :
    Finish m bForced = (m, []) := by
  unfold Finish
  rcases h with h | ⟨h1, h2⟩
  · simp [h]
  · simp [h1, h2]

theorem Step_flags (K : Constants) (m : USLManipulatorBoneContactMonitor) (e : Event) :
    (Step K m e).1.bIsInit = m.bIsInit ∧ (Step K m e).1.bIsStarted = m.bIsStarted ∧
      (Step K m e).1.bIsFinished = m.bIsFinished := by
  cases e with
  | GraspOverlapBegin a now =>
    simp only [Step]
    cases h : AcceptedIndividual m a with
    | none => rw [(rejected_signal K m a now h).1]; exact ⟨rfl, rfl, rfl⟩
    | some A =>
      rw [OnGraspOverlapBegin_accepted K m a A now h]
      split <;> exact ⟨rfl, rfl, rfl⟩
  | GraspOverlapEnd a now =>
    simp only [Step]
    cases h : AcceptedIndividual m a with
    | none => rw [(rejected_signal K m a now h).2.1]; exact ⟨rfl, rfl, rfl⟩
    | some A =>
      rw [OnGraspOverlapEnd_accepted K m a A now h]
      split <;> exact ⟨rfl, rfl, rfl⟩
  | ContactOverlapBegin a now =>
    simp only [Step]
    cases h : AcceptedIndividual m a with
    | none => rw [(rejected_signal K m a now h).2.2.1]; exact ⟨rfl, rfl, rfl⟩
    | some A =>
      rw [OnContactOverlapBegin_accepted K m a A now h]
      split <;> exact ⟨rfl, rfl, rfl⟩
  | ContactOverlapEnd a now =>
    simp only [Step]
    cases h : AcceptedIndividual m a with
    | none => rw [(rejected_signal K m a now h).2.2.2]; exact ⟨rfl, rfl, rfl⟩
    | some A =>
      rw [OnContactOverlapEnd_accepted K m a A now h]
      exact ⟨rfl, rfl, rfl⟩
  | GraspDelayTimer now =>
    simp only [Step, FireGraspDelayTimer, DelayedGraspOverlapEndEventCallback]
    split <;> exact ⟨rfl, rfl, rfl⟩
  | ContactDelayTimer now =>
    simp only [Step, FireContactDelayTimer, DelayContactEndCallback]
    split <;> exact ⟨rfl, rfl, rfl⟩

theorem Run_flags (K : Constants) :
    ∀ (es : List Event) (m : USLManipulatorBoneContactMonitor),
      (Run K m es).1.bIsInit = m.bIsInit ∧ (Run K m es).1.bIsStarted = m.bIsStarted ∧
        (Run K m es).1.bIsFinished = m.bIsFinished
  | [], _ => ⟨rfl, rfl, rfl⟩
  | e :: es, m => by
    obtain ⟨h1, h2, h3⟩ := Run_flags K es (Step K m e).1
    obtain ⟨g1, g2, g3⟩ := Step_flags K m e
    simp only [Run]
    exact ⟨h1.trans g1, h2.trans g2, h3.trans g3⟩

theorem count_flush (X : USLBaseIndividual) (f : USLBaseIndividual → Broadcast)
    (hf : ∀ a b, f a = f b ↔ a = b) (Q : List FSLManipulatorContactMonitorEndEvent) :
    (Q.map (fun Ev => f Ev.Other)).count (f X) = PendingOf X Q := by
  have h := PendingOf_sweep X (fun _ => true) f hf Q
  simpa [PendingOf] using h

/-! ## An active contact has no pending end inside the concatenation window -/

theorem JitterCount_mono (K : Constants) (X : USLBaseIndividual) (t t' : Time) (h : t ≤ t')
    (Q : List FSLManipulatorContactMonitorEndEvent) :
    JitterCount K X t' Q ≤ JitterCount K X t Q := by
  unfold JitterCount
  apply List.countP_mono_left
  intro Ev _ hEv
  simp only [decide_eq_true_eq] at hEv ⊢
  exact ⟨hEv.1, lt_of_le_of_lt (FloatSub_mono_left Ev.Timestamp h) hEv.2⟩

theorem JitterFree_mono (K : Constants) (m : USLManipulatorBoneContactMonitor) (t t' : Time)
    (h : t ≤ t') (hJ : JitterFree K m t) : JitterFree K m t' := by
  intro X
  have := hJ X
  have := JitterCount_mono K X t t' h m.RecentlyEndedGraspOverlapEvents
  omega

theorem JitterCount_RemoveFirstJitter (K : Constants) (X Y : USLBaseIndividual) (now : Time) :
    ∀ (Q Rest : List FSLManipulatorContactMonitorEndEvent),
      RemoveFirstJitter K Y now Q = some Rest →
      JitterCount K X now Rest + (if Y = X then 1 else 0) = JitterCount K X now Q
  | [], Rest, h => by simp [RemoveFirstJitter] at h
  | Ev :: Q, Rest, h => by
    unfold RemoveFirstJitter at h
    split at h
    · rename_i hc
      simp only [Option.some.injEq] at h
      subst h
      obtain ⟨hO, hT⟩ := hc
      by_cases hYX : Y = X
      · simp [JitterCount, List.countP_cons, hO, hT, hYX]
      · have : ¬ Ev.Other = X := fun hc => hYX (hO ▸ hc)
        simp [JitterCount, List.countP_cons, this, hYX]
    · cases hq : RemoveFirstJitter K Y now Q with
      | none => simp [hq] at h
      | some R =>
        simp only [hq, Option.map_some', Option.some.injEq] at h
        subst h
        have ih := JitterCount_RemoveFirstJitter K X Y now Q R hq
        simp only [JitterCount, List.countP_cons] at ih ⊢
        omega

theorem JitterCount_of_RemoveFirstJitter_none (K : Constants) (Y : USLBaseIndividual)
    (now : Time) :
    ∀ (Q : List FSLManipulatorContactMonitorEndEvent),
      RemoveFirstJitter K Y now Q = none → JitterCount K Y now Q = 0
  | [], _ => by simp [JitterCount]
  | Ev :: Q, h => by
    unfold RemoveFirstJitter at h
    split at h
    · simp at h
    · rename_i hc
      have hq : RemoveFirstJitter K Y now Q = none := by
        cases hq : RemoveFirstJitter K Y now Q with
        | none => rfl
        | some R => simp [hq] at h
      have ih := JitterCount_of_RemoveFirstJitter_none K Y now Q hq
      simp only [JitterCount, List.countP_cons] at ih ⊢
      rw [ih]
      simp [hc]

theorem RemoveFirstJitter_none_of_JitterCount (K : Constants) (Y : USLBaseIndividual)
    (now : Time) :
    ∀ (Q : List FSLManipulatorContactMonitorEndEvent),
      JitterCount K Y now Q = 0 → RemoveFirstJitter K Y now Q = none
  | [], _ => rfl
  | Ev :: Q, h => by
    simp only [JitterCount, List.countP_cons] at h
    have h1 : List.countP (fun Ev => decide (Ev.Other = Y ∧
        FloatSub now Ev.Timestamp < K.ConcatenateIfSmaller)) Q = 0 := by omega
    have h2 : ¬ (Ev.Other = Y ∧ FloatSub now Ev.Timestamp < K.ConcatenateIfSmaller) := by
      intro hc
      simp [hc] at h
    unfold RemoveFirstJitter
    rw [if_neg h2, RemoveFirstJitter_none_of_JitterCount K Y now Q h1]
    rfl

theorem JitterFree_OnGraspOverlapBegin (K : Constants) (m : USLManipulatorBoneContactMonitor)
    (OtherActor : AActor) (now : Time) (hJ : JitterFree K m now) :
    JitterFree K (OnGraspOverlapBegin K m OtherActor now).1 now := by
  cases h : AcceptedIndividual m OtherActor with
  | none => rw [(rejected_signal K m OtherActor now h).1]; exact hJ
  | some Y =>
    rw [OnGraspOverlapBegin_accepted K m OtherActor Y now h]
    intro X
    have hX := hJ X
    cases hq : RemoveFirstJitter K Y now m.RecentlyEndedGraspOverlapEvents with
    | none =>
      have h0 := JitterCount_of_RemoveFirstJitter_none K Y now _ hq
      simp only [TSet_mem_Emplace]
      by_cases hXY : X = Y
      · subst hXY
        simp only [true_or, if_true, h0]
        omega
      · simp only [hXY, false_or]
        exact hX
    | some Rest =>
      have h1 := JitterCount_RemoveFirstJitter K X Y now _ _ hq
      simp only [TSet_mem_Emplace]
      by_cases hXY : X = Y
      · subst hXY
        simp only [true_or, if_true] at h1 ⊢
        split at hX <;> omega
      · have hYX : ¬ Y = X := fun hc => hXY hc.symm
        simp only [hXY, false_or, hYX, if_false, Nat.add_zero] at h1 ⊢
        rw [h1]
        exact hX

theorem JitterFree_Step (K : Constants) (m : USLManipulatorBoneContactMonitor)
    (e : Event) (hJ : JitterFree K m e.time) : JitterFree K (Step K m e).1 e.time := by
  cases e with
  | GraspOverlapBegin a now => exact JitterFree_OnGraspOverlapBegin K m a now hJ
  | GraspOverlapEnd a now =>
    simp only [Step, Event.time] at hJ ⊢
    cases h : AcceptedIndividual m a with
    | none => rw [(rejected_signal K m a now h).2.1]; exact hJ
    | some Y =>
      rw [OnGraspOverlapEnd_accepted K m a Y now h]
      intro X
      have hX := hJ X
      by_cases hY : Y ∈ m.ActiveContacts.Elements
      · simp only [hY, if_true, TSet_mem_Remove]
        by_cases hXY : X = Y
        · subst hXY
          simp only [hY, if_true] at hX
          simp only [ne_eq, not_true_eq_false, false_and, if_false, JitterCount,
            List.countP_append, List.countP_cons, List.countP_nil] at hX ⊢
          split <;> omega
        · have hYX : ¬ Y = X := fun hc => hXY hc.symm
          simp only [ne_eq, hXY, not_false_eq_true, true_and, JitterCount,
            List.countP_append, List.countP_cons, List.countP_nil, hYX, false_and,
            decide_False] at hX ⊢
          simpa using hX
      · simp only [hY, if_false]
        exact hX
  | ContactOverlapBegin a now =>
    simp only [Step, Event.time] at hJ ⊢
    cases h : AcceptedIndividual m a with
    | none => rw [(rejected_signal K m a now h).2.2.1]; exact hJ
    | some Y =>
      rw [OnContactOverlapBegin_accepted K m a Y now h]
      split <;> exact hJ
  | ContactOverlapEnd a now =>
    simp only [Step, Event.time] at hJ ⊢
    cases h : AcceptedIndividual m a with
    | none => rw [(rejected_signal K m a now h).2.2.2]; exact hJ
    | some Y =>
      rw [OnContactOverlapEnd_accepted K m a Y now h]
      exact hJ
  | GraspDelayTimer now =>
    simp only [Step, Event.time, FireGraspDelayTimer, DelayedGraspOverlapEndEventCallback]
      at hJ ⊢
    have hle : ∀ X, JitterCount K X now (m.RecentlyEndedGraspOverlapEvents.filter
        (fun Ev => !decide (FloatSub now Ev.Timestamp > K.ConcatenateIfSmaller))) ≤
        JitterCount K X now m.RecentlyEndedGraspOverlapEvents := by
      intro X
      unfold JitterCount
      exact List.Sublist.countP_le _ (List.filter_sublist _)
    split
    · intro X
      have := hJ X
      have := hle X
      simp only
      omega
    · intro X
      have := hJ X
      have := hle X
      simp only
      omega
  | ContactDelayTimer now =>
    simp only [Step, Event.time, FireContactDelayTimer, DelayContactEndCallback] at hJ ⊢
    split <;> exact hJ

theorem JitterFree_TriggerInitialGraspOverlaps (K : Constants) (now : Time) :
    ∀ (ov : List AActor) (m : USLManipulatorBoneContactMonitor) (acc : List Broadcast),
      JitterFree K m now →
      JitterFree K (ov.foldl (fun acc CompOwner =>
        ((OnGraspOverlapBegin K acc.1 CompOwner now).1,
          acc.2 ++ (OnGraspOverlapBegin K acc.1 CompOwner now).2)) (m, acc)).1 now
  | [], _, _, hJ => hJ
  | a :: ov, m, acc, hJ => by
    simp only [List.foldl_cons]
    exact JitterFree_TriggerInitialGraspOverlaps K now ov _ _
      (JitterFree_OnGraspOverlapBegin K m a now hJ)

theorem UnbindGraspOverlapCallbacks_eq (m : USLManipulatorBoneContactMonitor) :
    m.UnbindGraspOverlapCallbacks = { m with bGraspCallbacksBound := false } := by
  obtain ⟨Owner, IgnoreList, bIsInit, bIsStarted, bIsFinished, bIsNotSkeletal, bPaused, bDG,
    bDC, bVD, bHidden, bGen, Color, bGB, bCB, AC, GT, CT, GQ, CQ, BN⟩ := m
  cases bGB <;> simp [UnbindGraspOverlapCallbacks]

theorem BindGraspOverlapCallbacks_eq (m : USLManipulatorBoneContactMonitor) :
    m.BindGraspOverlapCallbacks = { m with bGraspCallbacksBound := true } := by
  obtain ⟨Owner, IgnoreList, bIsInit, bIsStarted, bIsFinished, bIsNotSkeletal, bPaused, bDG,
    bDC, bVD, bHidden, bGen, Color, bGB, bCB, AC, GT, CT, GQ, CQ, BN⟩ := m
  cases bGB <;> simp [BindGraspOverlapCallbacks]

theorem SetGraspCheckPaused_pause (K : Constants) (m : USLManipulatorBoneContactMonitor)
    (ov : List AActor) (now : Time) (hnp : m.bIsGraspCheckPaused = false) :
    SetGraspCheckPaused K m true ov now =
      ({ m with
          bIsGraspCheckPaused := true
          ShapeColor := if m.bVisualDebug then FColor.Yellow else m.ShapeColor
          ActiveContacts := TSet.Empty
          bGraspCallbacksBound := false },
        m.ActiveContacts.Elements.map Broadcast.OnEndGraspBoneOverlap) := by
  unfold SetGraspCheckPaused
  simp only [hnp, SetColor_eq, UnbindGraspOverlapCallbacks_eq]
  cases hv : m.bVisualDebug <;> simp [hv]

theorem SetGraspCheckPaused_resume (K : Constants) (m : USLManipulatorBoneContactMonitor)
    (ov : List AActor) (now : Time) (hp : m.bIsGraspCheckPaused = true) :
    SetGraspCheckPaused K m false ov now =
      ({ (TriggerInitialGraspOverlaps K { m with
            bIsGraspCheckPaused := false
            ShapeColor := if m.bVisualDebug then FColor.Red else m.ShapeColor } ov now).1 with
          bGraspCallbacksBound := true },
        (TriggerInitialGraspOverlaps K { m with
            bIsGraspCheckPaused := false
            ShapeColor := if m.bVisualDebug then FColor.Red else m.ShapeColor } ov now).2) := by
  unfold SetGraspCheckPaused
  simp only [hp, SetColor_eq, BindGraspOverlapCallbacks_eq]
  cases hv : m.bVisualDebug <;> simp [hv]

theorem SetGraspCheckPaused_same (K : Constants) (m : USLManipulatorBoneContactMonitor)
    (ov : List AActor) (now : Time) :
    SetGraspCheckPaused K m m.bIsGraspCheckPaused ov now = (m, []) := by
  unfold SetGraspCheckPaused
  simp

theorem JitterFree_SetGraspCheckPaused (K : Constants) (m : USLManipulatorBoneContactMonitor)
    (bNewValue : Bool) (ov : List AActor) (now : Time) (hJ : JitterFree K m now) :
    JitterFree K (SetGraspCheckPaused K m bNewValue ov now).1 now := by
  by_cases hsame : bNewValue = m.bIsGraspCheckPaused
  · rw [hsame, SetGraspCheckPaused_same]
    exact hJ
  · cases bNewValue with
    | true =>
      have hnp : m.bIsGraspCheckPaused = false := by
        cases h : m.bIsGraspCheckPaused with
        | false => rfl
        | true => exact absurd h.symm hsame
      rw [SetGraspCheckPaused_pause K m ov now hnp]
      intro X
      have := hJ X
      simp only [TSet.Empty, List.not_mem_nil, if_false]
      omega
    | false =>
      have hp : m.bIsGraspCheckPaused = true := by
        cases h : m.bIsGraspCheckPaused with
        | true => rfl
        | false => exact absurd h.symm hsame
      rw [SetGraspCheckPaused_resume K m ov now hp]
      have := JitterFree_TriggerInitialGraspOverlaps K now ov
        { m with
            bIsGraspCheckPaused := false
            ShapeColor := if m.bVisualDebug then FColor.Red else m.ShapeColor } [] hJ
      exact this

theorem JitterFree_Finish (K : Constants) (m : USLManipulatorBoneContactMonitor)
    (bForced : Bool) (t : Time) (hJ : JitterFree K m t) :
    JitterFree K (Finish m bForced).1 t := by
  unfold Finish
  split
  · intro X
    have := hJ X
    simp only [JitterCount, List.countP_nil] at this ⊢
    omega
  · exact hJ

/-- In every state the monitor reaches, an individual has at most one pending grasp end
inside the concatenation window, and none when it is an active contact. -/
theorem JitterFree_of_Reachable {K : Constants} {m : USLManipulatorBoneContactMonitor}
    {t : Time} (h : Reachable K m t) : JitterFree K m t := by
  induction h with
  | fresh m t hf =>
    obtain ⟨hAC, hGQ, _, _, _⟩ := hf
    intro X
    simp [hAC, hGQ, JitterCount, TSet.Empty]
  | event m t e _ hle ih => exact JitterFree_Step K m e (JitterFree_mono K m t _ hle ih)
  | paused m t b ov now _ hle ih =>
    exact JitterFree_SetGraspCheckPaused K m b ov now (JitterFree_mono K m t _ hle ih)
  | finished m t b _ ih => exact JitterFree_Finish K m b t ih

/-- What one manually triggered grasp begin does for individual `A`, when no pending
end of `A` is inside the concatenation window. -/
theorem OnGraspOverlapBegin_without_jitter (K : Constants)
    (m : USLManipulatorBoneContactMonitor) (a : AActor) (now : Time) (A : USLBaseIndividual)
    (h0 : JitterCount K A now m.RecentlyEndedGraspOverlapEvents = 0) :
    JitterCount K A now (OnGraspOverlapBegin K m a now).1.RecentlyEndedGraspOverlapEvents = 0 ∧
    (OnGraspOverlapBegin K m a now).2.count (Broadcast.OnBeginGraspBoneOverlap A) =
      (if AcceptedIndividual m a = some A then 1 else 0) ∧
    (A ∈ (OnGraspOverlapBegin K m a now).1.ActiveContacts.Elements ↔
      A ∈ m.ActiveContacts.Elements ∨ AcceptedIndividual m a = some A) ∧
    (OnGraspOverlapBegin K m a now).1.Owner = m.Owner ∧
    (OnGraspOverlapBegin K m a now).1.IgnoreList = m.IgnoreList := by
  cases h : AcceptedIndividual m a with
  | none =>
    rw [(rejected_signal K m a now h).1]
    simp [h0]
  | some Y =>
    rw [OnGraspOverlapBegin_accepted K m a Y now h]
    by_cases hYA : Y = A
    · subst hYA
      rw [RemoveFirstJitter_none_of_JitterCount K Y now _ h0]
      simp [h0, TSet_mem_Emplace]
    · have hAY : ¬ A = Y := fun hc => hYA hc.symm
      cases hq : RemoveFirstJitter K Y now m.RecentlyEndedGraspOverlapEvents with
      | none => simp [h0, TSet_mem_Emplace, hYA, hAY]
      | some Rest =>
        have h1 := JitterCount_RemoveFirstJitter K A Y now _ _ hq
        simp only [hYA, if_false, Nat.add_zero] at h1
        simp [h1, h0, TSet_mem_Emplace, hYA, hAY]

theorem TriggerInitialGraspOverlaps_without_jitter (K : Constants) (now : Time)
    (A : USLBaseIndividual) (m0 : USLManipulatorBoneContactMonitor) :
    ∀ (ov : List AActor) (m : USLManipulatorBoneContactMonitor) (acc : List Broadcast),
      m.Owner = m0.Owner → m.IgnoreList = m0.IgnoreList →
      JitterCount K A now m.RecentlyEndedGraspOverlapEvents = 0 →
      (ov.foldl (fun acc CompOwner =>
        ((OnGraspOverlapBegin K acc.1 CompOwner now).1,
          acc.2 ++ (OnGraspOverlapBegin K acc.1 CompOwner now).2)) (m, acc)).2.count
          (Broadcast.OnBeginGraspBoneOverlap A) =
        acc.count (Broadcast.OnBeginGraspBoneOverlap A) +
          (ov.filterMap (AcceptedIndividual m0)).count A ∧
      (A ∈ (ov.foldl (fun acc CompOwner =>
        ((OnGraspOverlapBegin K acc.1 CompOwner now).1,
          acc.2 ++ (OnGraspOverlapBegin K acc.1 CompOwner now).2))
          (m, acc)).1.ActiveContacts.Elements ↔
        A ∈ m.ActiveContacts.Elements ∨ 0 < (ov.filterMap (AcceptedIndividual m0)).count A)
  | [], m, acc, _, _, _ => by simp
  | a :: ov, m, acc, hO, hI, h0 => by
    obtain ⟨g0, g1, g2, g3, g4⟩ := OnGraspOverlapBegin_without_jitter K m a now A h0
    have hacc : AcceptedIndividual m a = AcceptedIndividual m0 a :=
      AcceptedIndividual_congr hO hI a
    obtain ⟨i1, i2⟩ := TriggerInitialGraspOverlaps_without_jitter K now A m0 ov
      (OnGraspOverlapBegin K m a now).1 (acc ++ (OnGraspOverlapBegin K m a now).2)
      (g3.trans hO) (g4.trans hI) g0
    simp only [List.foldl_cons]
    rw [i1, i2, g2, List.count_append, g1, hacc]
    cases hm : AcceptedIndividual m0 a with
    | none => simp [List.filterMap_cons, hm]
    | some Y =>
      by_cases hYA : Y = A
      · subst hYA
        simp [List.filterMap_cons, hm]
        omega
      · simp [List.filterMap_cons, hm, hYA, List.count_cons]

theorem AcceptedIndividual_of_ignored (m : USLManipulatorBoneContactMonitor)
    (OtherActor : AActor) (h : some OtherActor ∈ m.IgnoreList) :
    AcceptedIndividual m OtherActor = none := by
  unfold AcceptedIndividual
  split
  · rfl
  · split
    · rfl
    · have hc : m.IgnoreList.contains (some OtherActor) = true := by simpa using h
      simp [hc, h]

/-- After any events and `Finish` on a fresh initialized monitor: both pending-end arrays
are empty, and for an individual whose accepted signals on a channel alternate, the begins
broadcast on that channel are the ends broadcast plus one if the last signal was a
begin. -/
theorem RunThenFinish_balance (K : Constants) (m : USLManipulatorBoneContactMonitor)
    (es : List Event) (X : USLBaseIndividual) (bForced : Bool)
    (hfresh : m.Fresh) (hinit : m.bIsInit = true) (hfin : m.bIsFinished = false) :
    (Alternates true (GraspSignalsOf m X es) = true →
      (RunThenFinish K m es bForced).2.count (Broadcast.OnBeginGraspBoneOverlap X) =
        (RunThenFinish K m es bForced).2.count (Broadcast.OnEndGraspBoneOverlap X) +
          (OpenAfter false (GraspSignalsOf m X es)).toNat) ∧
    (Alternates true (ContactSignalsOf m X es) = true →
      (RunThenFinish K m es bForced).2.count (Broadcast.OnBeginContactBoneOverlap X) =
        (RunThenFinish K m es bForced).2.count (Broadcast.OnEndContactBoneOverlap X) +
          (OpenAfter false (ContactSignalsOf m X es)).toNat) ∧
    (RunThenFinish K m es bForced).1.RecentlyEndedGraspOverlapEvents = [] ∧
    (RunThenFinish K m es bForced).1.RecentlyEndedContactOverlapEvents = [] := by
  obtain ⟨hAC, hGQ, hCQ, _, _⟩ := hfresh
  obtain ⟨f1, _, f3⟩ := Run_flags K es m
  have hF := Finish_of_live (Run K m es).1 bForced (f3.trans hfin) (Or.inl (f1.trans hinit))
  have hnoGB := fun L => count_map_of_ne
    (fun Ev : FSLManipulatorContactMonitorEndEvent => Broadcast.OnEndGraspBoneOverlap Ev.Other)
    (Broadcast.OnBeginGraspBoneOverlap X) (by simp) L
  have hnoCB := fun L => count_map_of_ne
    (fun Ev : FSLManipulatorContactMonitorEndEvent => Broadcast.OnEndContactBoneOverlap Ev.Other)
    (Broadcast.OnBeginGraspBoneOverlap X) (by simp) L
  have hnoCE := fun L => count_map_of_ne
    (fun Ev : FSLManipulatorContactMonitorEndEvent => Broadcast.OnEndContactBoneOverlap Ev.Other)
    (Broadcast.OnEndGraspBoneOverlap X) (by simp) L
  have hnoGB2 := fun L => count_map_of_ne
    (fun Ev : FSLManipulatorContactMonitorEndEvent => Broadcast.OnEndGraspBoneOverlap Ev.Other)
    (Broadcast.OnBeginContactBoneOverlap X) (by simp) L
  have hnoCB2 := fun L => count_map_of_ne
    (fun Ev : FSLManipulatorContactMonitorEndEvent => Broadcast.OnEndContactBoneOverlap Ev.Other)
    (Broadcast.OnBeginContactBoneOverlap X) (by simp) L
  have hnoGE2 := fun L => count_map_of_ne
    (fun Ev : FSLManipulatorContactMonitorEndEvent => Broadcast.OnEndGraspBoneOverlap Ev.Other)
    (Broadcast.OnEndContactBoneOverlap X) (by simp) L
  have hflG := count_flush X Broadcast.OnEndGraspBoneOverlap (by simp)
    (Run K m es).1.RecentlyEndedGraspOverlapEvents
  have hflC := count_flush X Broadcast.OnEndContactBoneOverlap (by simp)
    (Run K m es).1.RecentlyEndedContactOverlapEvents
  refine ⟨?_, ?_, ?_, ?_⟩
  · intro halt
    have hbal := Run_grasp_balance K X es m false (by simp [hAC, TSet.Empty]) halt
    simp only [RunThenFinish, hF, List.count_append, hnoGB, hnoCB, hnoCE, hflG]
    simp only [hGQ, PendingOf, List.countP_nil, Bool.toNat_false] at hbal
    simp only [PendingOf]
    omega
  · intro halt
    have hbal := Run_contact_balance K X es m false halt
    simp only [RunThenFinish, hF, List.count_append, hnoGB2, hnoCB2, hnoGE2, hflC]
    simp only [hCQ, PendingOf, List.countP_nil, Bool.toNat_false] at hbal
    simp only [PendingOf]
    omega
  · simp only [RunThenFinish, hF]
  · simp only [RunThenFinish, hF]

/-! ## Init and Start -/

theorem BindContactOverlapCallbacks_eq (m : USLManipulatorBoneContactMonitor) :
    m.BindContactOverlapCallbacks = { m with bContactCallbacksBound := true } := by
  obtain ⟨Owner, IgnoreList, bIsInit, bIsStarted, bIsFinished, bIsNotSkeletal, bPaused, bDG,
    bDC, bVD, bHidden, bGen, Color, bGB, bCB, AC, GT, CT, GQ, CQ, BN⟩ := m
  cases bCB <;> simp [BindContactOverlapCallbacks]

theorem AttachToBone_congr {m m' : USLManipulatorBoneContactMonitor}
    (hO : m'.Owner = m.Owner) (hB : m'.BoneName = m.BoneName) (bAttachToComponent : Bool) :
    AttachToBone m' bAttachToComponent = AttachToBone m bAttachToComponent := by
  unfold AttachToBone
  rw [hO, hB]

theorem Init_of_no_flag (m : USLManipulatorBoneContactMonitor) (bAttachToComponent : Bool) :
    Init m false false bAttachToComponent = m := by
  simp [Init]

theorem Init_of_init (m : USLManipulatorBoneContactMonitor)
    (bGrasp bContact bAttachToComponent : Bool) (h : m.bIsInit = true) :
    Init m bGrasp bContact bAttachToComponent = m := by
  unfold Init
  split
  · rfl
  · simp [h]

/-- What `Init` leaves when the monitor is skeletal and the attachment to the bone
fails. -/
theorem Init_of_failed_attach (m : USLManipulatorBoneContactMonitor)
    (bGrasp bContact bAttachToComponent : Bool)
    (hflag : (bGrasp || bContact) = true) (hinit : m.bIsInit = false)
    (hskel : m.bIsNotSkeletal = false) (hatt : AttachToBone m bAttachToComponent = false) :
    Init m bGrasp bContact bAttachToComponent =
      { m with
          bDetectGrasps := bGrasp
          bDetectContacts := bContact
          IgnoreList := m.IgnoreList.filter (fun IA => decide (IA ≠ none))
          bGenerateOverlapEvents := false
          bGraspCallbacksBound := m.bGraspCallbacksBound || bGrasp
          bContactCallbacksBound := m.bContactCallbacksBound || bContact } := by
  have hatt2 : ∀ m' : USLManipulatorBoneContactMonitor, m'.Owner = m.Owner →
      m'.BoneName = m.BoneName → AttachToBone m' bAttachToComponent = false := by
    intro m' hO hB
    rw [AttachToBone_congr hO hB]
    exact hatt
  unfold Init
  simp only [BindGraspOverlapCallbacks_eq, BindContactOverlapCallbacks_eq]
  cases bGrasp <;> cases bContact <;>
    simp [hinit, hskel, hatt2] at hflag ⊢

/-- What `Init` leaves when it succeeds. -/
theorem Init_of_success (m : USLManipulatorBoneContactMonitor)
    (bGrasp bContact bAttachToComponent : Bool)
    (hflag : (bGrasp || bContact) = true) (hinit : m.bIsInit = false)
    (hok : m.bIsNotSkeletal = true ∨ AttachToBone m bAttachToComponent = true) :
    Init m bGrasp bContact bAttachToComponent =
      { m with
          bDetectGrasps := bGrasp
          bDetectContacts := bContact
          IgnoreList := m.IgnoreList.filter (fun IA => decide (IA ≠ none))
          bGenerateOverlapEvents := false
          bGraspCallbacksBound := m.bGraspCallbacksBound || bGrasp
          bContactCallbacksBound := m.bContactCallbacksBound || bContact
          bHiddenInGame := if m.bVisualDebug then false else m.bHiddenInGame
          ShapeColor :=
            if m.bVisualDebug then
              (if m.bIsGraspCheckPaused then FColor.Yellow else FColor.Red)
            else m.ShapeColor
          bIsInit := true } := by
  obtain ⟨Owner, IgnoreList, bIsInit, bIsStarted, bIsFinished, bIsNotSkeletal, bPaused, bDG,
    bDC, bVD, bHidden, bGen, Color, bGB, bCB, AC, GT, CT, GQ, CQ, BN⟩ := m
  simp only at hinit hok
  subst hinit
  simp only [Init, BindGraspOverlapCallbacks_eq, BindContactOverlapCallbacks_eq, SetColor_eq,
    AttachToBone] at hok ⊢
  cases bGrasp <;> cases bContact
  · simp at hflag
  all_goals
    cases bIsNotSkeletal <;> cases bVD <;> cases bPaused <;> simp_all

theorem Start_of_ready (m : USLManipulatorBoneContactMonitor)
    (hinit : m.bIsInit = true) (hst : m.bIsStarted = false) :
    Start m =
      { m with
          ShapeColor :=
            if m.bVisualDebug then
              (if m.bIsGraspCheckPaused then FColor.Yellow else FColor.Red)
            else m.ShapeColor
          bGenerateOverlapEvents := true
          bIsStarted := true } := by
  unfold Start
  simp only [SetColor_eq]
  cases hv : m.bVisualDebug <;> cases hp : m.bIsGraspCheckPaused <;>
    simp [hinit, hst, hv, hp]

theorem Start_of_not_ready (m : USLManipulatorBoneContactMonitor)
    (h : m.bIsInit = false ∨ m.bIsStarted = true) : Start m = m := by
  unfold Start
  rcases h with h | h <;> simp [h]

/-! ## What each callback leaves alone -/

theorem OnGraspOverlapBegin_frame (K : Constants) (m : USLManipulatorBoneContactMonitor)
    (a : AActor) (now : Time) :
    (OnGraspOverlapBegin K m a now).1.RecentlyEndedContactOverlapEvents =
      m.RecentlyEndedContactOverlapEvents ∧
    (OnGraspOverlapBegin K m a now).1.ContactDelayTimerHandle = m.ContactDelayTimerHandle ∧
    (OnGraspOverlapBegin K m a now).1.bIsGraspCheckPaused = m.bIsGraspCheckPaused ∧
    (∀ b ∈ (OnGraspOverlapBegin K m a now).2, IsGraspBroadcast b = true) ∧
    (∀ X, Broadcast.OnEndGraspBoneOverlap X ∉ (OnGraspOverlapBegin K m a now).2) := by
  cases h : AcceptedIndividual m a with
  | none => rw [(rejected_signal K m a now h).1]; simp
  | some A =>
    rw [OnGraspOverlapBegin_accepted K m a A now h]
    split <;> simp [IsGraspBroadcast]

theorem OnGraspOverlapEnd_frame (K : Constants) (m : USLManipulatorBoneContactMonitor)
    (a : AActor) (now : Time) :
    (OnGraspOverlapEnd K m a now).1.RecentlyEndedContactOverlapEvents =
      m.RecentlyEndedContactOverlapEvents ∧
    (OnGraspOverlapEnd K m a now).1.ContactDelayTimerHandle = m.ContactDelayTimerHandle ∧
    (OnGraspOverlapEnd K m a now).1.bIsGraspCheckPaused = m.bIsGraspCheckPaused ∧
    (OnGraspOverlapEnd K m a now).2 = [] := by
  cases h : AcceptedIndividual m a with
  | none => rw [(rejected_signal K m a now h).2.1]; simp
  | some A =>
    rw [OnGraspOverlapEnd_accepted K m a A now h]
    split <;> simp

theorem OnContactOverlapBegin_frame (K : Constants) (m : USLManipulatorBoneContactMonitor)
    (a : AActor) (now : Time) :
    (OnContactOverlapBegin K m a now).1.ActiveContacts = m.ActiveContacts ∧
    (OnContactOverlapBegin K m a now).1.RecentlyEndedGraspOverlapEvents =
      m.RecentlyEndedGraspOverlapEvents ∧
    (OnContactOverlapBegin K m a now).1.GraspDelayTimerHandle = m.GraspDelayTimerHandle ∧
    (OnContactOverlapBegin K m a now).1.bIsGraspCheckPaused = m.bIsGraspCheckPaused ∧
    (∀ b ∈ (OnContactOverlapBegin K m a now).2, IsContactBroadcast b = true) := by
  cases h : AcceptedIndividual m a with
  | none => rw [(rejected_signal K m a now h).2.2.1]; simp
  | some A =>
    rw [OnContactOverlapBegin_accepted K m a A now h]
    split <;> simp [IsContactBroadcast]

theorem OnContactOverlapEnd_frame (K : Constants) (m : USLManipulatorBoneContactMonitor)
    (a : AActor) (now : Time) :
    (OnContactOverlapEnd K m a now).1.ActiveContacts = m.ActiveContacts ∧
    (OnContactOverlapEnd K m a now).1.RecentlyEndedGraspOverlapEvents =
      m.RecentlyEndedGraspOverlapEvents ∧
    (OnContactOverlapEnd K m a now).1.GraspDelayTimerHandle = m.GraspDelayTimerHandle ∧
    (OnContactOverlapEnd K m a now).1.bIsGraspCheckPaused = m.bIsGraspCheckPaused ∧
    (OnContactOverlapEnd K m a now).2 = [] := by
  cases h : AcceptedIndividual m a with
  | none => rw [(rejected_signal K m a now h).2.2.2]; simp
  | some A =>
    rw [OnContactOverlapEnd_accepted K m a A now h]
    simp

/-- The closed form of the grasp sweep. -/
theorem DelayedGraspOverlapEndEventCallback_eq (K : Constants)
    (m : USLManipulatorBoneContactMonitor) (CurrTime : Time) :
    DelayedGraspOverlapEndEventCallback K m CurrTime =
      ({ m with
          RecentlyEndedGraspOverlapEvents := m.RecentlyEndedGraspOverlapEvents.filter
            (fun Ev => !decide (FloatSub CurrTime Ev.Timestamp > K.ConcatenateIfSmaller))
          GraspDelayTimerHandle :=
            if m.RecentlyEndedGraspOverlapEvents.filter
                (fun Ev => !decide (FloatSub CurrTime Ev.Timestamp > K.ConcatenateIfSmaller)) = [] then
              m.GraspDelayTimerHandle
            else SetTimer CurrTime (K.ConcatenateIfSmaller + K.ConcatenateIfSmallerDelay) },
        (m.RecentlyEndedGraspOverlapEvents.filter
          (fun Ev => decide (FloatSub CurrTime Ev.Timestamp > K.ConcatenateIfSmaller))).map
          (fun Ev => Broadcast.OnEndGraspBoneOverlap Ev.Other)) := by
  unfold DelayedGraspOverlapEndEventCallback
  by_cases hq : m.RecentlyEndedGraspOverlapEvents.filter
      (fun Ev => !decide (FloatSub CurrTime Ev.Timestamp > K.ConcatenateIfSmaller)) = []
  · simp only [hq, List.length_nil, gt_iff_lt, lt_self_iff_false, if_false, if_true]
  · have hpos : (m.RecentlyEndedGraspOverlapEvents.filter
        (fun Ev => !decide (FloatSub CurrTime Ev.Timestamp > K.ConcatenateIfSmaller))).length > 0 :=
      List.length_pos.mpr hq
    simp only [hpos, if_true, hq, if_false]

/-- The closed form of the contact sweep. -/
theorem DelayContactEndCallback_eq (K : Constants)
    (m : USLManipulatorBoneContactMonitor) (CurrTime : Time) :
    DelayContactEndCallback K m CurrTime =
      ({ m with
          RecentlyEndedContactOverlapEvents := m.RecentlyEndedContactOverlapEvents.filter
            (fun Ev => !decide (FloatSub CurrTime Ev.Timestamp > K.ConcatenateIfSmaller))
          ContactDelayTimerHandle :=
            if m.RecentlyEndedContactOverlapEvents.filter
                (fun Ev => !decide (FloatSub CurrTime Ev.Timestamp > K.ConcatenateIfSmaller)) = [] then
              m.ContactDelayTimerHandle
            else SetTimer CurrTime (K.ConcatenateIfSmaller + K.ConcatenateIfSmallerDelay) },
        (m.RecentlyEndedContactOverlapEvents.filter
          (fun Ev => decide (FloatSub CurrTime Ev.Timestamp > K.ConcatenateIfSmaller))).map
          (fun Ev => Broadcast.OnEndContactBoneOverlap Ev.Other)) := by
  unfold DelayContactEndCallback
  by_cases hq : m.RecentlyEndedContactOverlapEvents.filter
      (fun Ev => !decide (FloatSub CurrTime Ev.Timestamp > K.ConcatenateIfSmaller)) = []
  · simp only [hq, List.length_nil, gt_iff_lt, lt_self_iff_false, if_false, if_true]
  · have hpos : (m.RecentlyEndedContactOverlapEvents.filter
        (fun Ev => !decide (FloatSub CurrTime Ev.Timestamp > K.ConcatenateIfSmaller))).length > 0 :=
      List.length_pos.mpr hq
    simp only [hpos, if_true, hq, if_false]

/-- The manual trigger of a resume is the sequence of the grasp begin signals of the
overlapping components. -/
theorem TriggerInitialGraspOverlaps_eq_Run (K : Constants) (now : Time) :
    ∀ (ov : List AActor) (m : USLManipulatorBoneContactMonitor) (acc : List Broadcast),
      ov.foldl (fun acc CompOwner =>
        ((OnGraspOverlapBegin K acc.1 CompOwner now).1,
          acc.2 ++ (OnGraspOverlapBegin K acc.1 CompOwner now).2)) (m, acc) =
        ((Run K m (ov.map (fun a => Event.GraspOverlapBegin a now))).1,
          acc ++ (Run K m (ov.map (fun a => Event.GraspOverlapBegin a now))).2)
  | [], m, acc => by simp [Run]
  | a :: ov, m, acc => by
    simp only [List.foldl_cons, List.map_cons, Run, Step]
    rw [TriggerInitialGraspOverlaps_eq_Run K now ov]
    simp

theorem Run_grasp_begins_frame (K : Constants) (now : Time) :
    ∀ (ov : List AActor) (m : USLManipulatorBoneContactMonitor),
      (Run K m (ov.map (fun a => Event.GraspOverlapBegin a now))).1.RecentlyEndedContactOverlapEvents
        = m.RecentlyEndedContactOverlapEvents ∧
      (Run K m (ov.map (fun a => Event.GraspOverlapBegin a now))).1.ContactDelayTimerHandle =
        m.ContactDelayTimerHandle ∧
      (Run K m (ov.map (fun a => Event.GraspOverlapBegin a now))).1.bIsGraspCheckPaused =
        m.bIsGraspCheckPaused ∧
      (∀ b ∈ (Run K m (ov.map (fun a => Event.GraspOverlapBegin a now))).2, IsGraspBroadcast b = true)
  | [], m => by simp [Run]
  | a :: ov, m => by
    obtain ⟨h1, h2, h3, h4, _⟩ := OnGraspOverlapBegin_frame K m a now
    obtain ⟨i1, i2, i3, i4⟩ := Run_grasp_begins_frame K now ov (OnGraspOverlapBegin K m a now).1
    simp only [List.map_cons, Run, Step]
    refine ⟨i1.trans h1, i2.trans h2, i3.trans h3, ?_⟩
    intro b hb
    rcases List.mem_append.mp hb with hb | hb
    · exact h4 b hb
    · exact i4 b hb

theorem SetGraspCheckPaused_frame (K : Constants) (m : USLManipulatorBoneContactMonitor)
    (bNewValue : Bool) (ov : List AActor) (now : Time) :
    (SetGraspCheckPaused K m bNewValue ov now).1.RecentlyEndedContactOverlapEvents =
      m.RecentlyEndedContactOverlapEvents ∧
    (SetGraspCheckPaused K m bNewValue ov now).1.ContactDelayTimerHandle =
      m.ContactDelayTimerHandle ∧
    (∀ b ∈ (SetGraspCheckPaused K m bNewValue ov now).2, IsGraspBroadcast b = true) := by
  by_cases hsame : bNewValue = m.bIsGraspCheckPaused
  · rw [hsame, SetGraspCheckPaused_same]
    simp
  · cases bNewValue with
    | true =>
      have hnp : m.bIsGraspCheckPaused = false := by
        cases h : m.bIsGraspCheckPaused with
        | false => rfl
        | true => exact absurd h.symm hsame
      rw [SetGraspCheckPaused_pause K m ov now hnp]
      simp [IsGraspBroadcast]
    | false =>
      have hp : m.bIsGraspCheckPaused = true := by
        cases h : m.bIsGraspCheckPaused with
        | true => rfl
        | false => exact absurd h.symm hsame
      rw [SetGraspCheckPaused_resume K m ov now hp]
      simp only [TriggerInitialGraspOverlaps, TriggerInitialGraspOverlaps_eq_Run,
        List.nil_append]
      obtain ⟨i1, i2, _, i4⟩ := Run_grasp_begins_frame K now ov
        { m with
            bIsGraspCheckPaused := false
            ShapeColor := if m.bVisualDebug then FColor.Red else m.ShapeColor }
      exact ⟨i1, i2, i4⟩

/-! ## Calls on the monitor: what they leave as it is -/

theorem contains_filter_some (l : List (Option AActor)) (a : AActor) :
    (l.filter (fun IA => decide (IA ≠ none))).contains (some a) = l.contains (some a) := by
  rw [Bool.eq_iff_iff]
  simp [List.mem_filter]

/-- `Init` touches neither the lifecycle flags other than `bIsInit`, nor the contacts,
the pending ends and the timers, and keeps the actors that are ignored. -/
theorem Init_frame (m : USLManipulatorBoneContactMonitor)
    (bGrasp bContact bAttachToComponent : Bool) :
    (Init m bGrasp bContact bAttachToComponent).Owner = m.Owner ∧
    (∀ a, (Init m bGrasp bContact bAttachToComponent).IgnoreList.contains (some a) =
      m.IgnoreList.contains (some a)) ∧
    (Init m bGrasp bContact bAttachToComponent).bIsStarted = m.bIsStarted ∧
    (Init m bGrasp bContact bAttachToComponent).bIsFinished = m.bIsFinished ∧
    (Init m bGrasp bContact bAttachToComponent).bIsGraspCheckPaused = m.bIsGraspCheckPaused ∧
    (Init m bGrasp bContact bAttachToComponent).ActiveContacts = m.ActiveContacts ∧
    (Init m bGrasp bContact bAttachToComponent).RecentlyEndedGraspOverlapEvents =
      m.RecentlyEndedGraspOverlapEvents ∧
    (Init m bGrasp bContact bAttachToComponent).RecentlyEndedContactOverlapEvents =
      m.RecentlyEndedContactOverlapEvents ∧
    (Init m bGrasp bContact bAttachToComponent).GraspDelayTimerHandle =
      m.GraspDelayTimerHandle ∧
    (Init m bGrasp bContact bAttachToComponent).ContactDelayTimerHandle =
      m.ContactDelayTimerHandle := by
  by_cases hflag : (bGrasp || bContact) = true
  · cases hinit : m.bIsInit with
    | true =>
      rw [Init_of_init m bGrasp bContact bAttachToComponent hinit]
      exact ⟨rfl, fun _ => rfl, rfl, rfl, rfl, rfl, rfl, rfl, rfl, rfl⟩
    | false =>
      by_cases hok : m.bIsNotSkeletal = true ∨ AttachToBone m bAttachToComponent = true
      · rw [Init_of_success m bGrasp bContact bAttachToComponent hflag hinit hok]
        exact ⟨rfl, fun a => contains_filter_some m.IgnoreList a, rfl, rfl, rfl, rfl, rfl, rfl,
          rfl, rfl⟩
      · have hskel : m.bIsNotSkeletal = false := by
          cases h : m.bIsNotSkeletal with
          | false => rfl
          | true => exact absurd (Or.inl h) hok
        have hatt : AttachToBone m bAttachToComponent = false := by
          cases h : AttachToBone m bAttachToComponent with
          | false => rfl
          | true => exact absurd (Or.inr h) hok
        rw [Init_of_failed_attach m bGrasp bContact bAttachToComponent hflag hinit hskel hatt]
        exact ⟨rfl, fun a => contains_filter_some m.IgnoreList a, rfl, rfl, rfl, rfl, rfl, rfl,
          rfl, rfl⟩
  · have hg : bGrasp = false := by
      cases bGrasp with
      | false => rfl
      | true => simp at hflag
    have hc : bContact = false := by
      cases bContact with
      | false => rfl
      | true => simp at hflag
    subst hg hc
    rw [Init_of_no_flag]
    exact ⟨rfl, fun _ => rfl, rfl, rfl, rfl, rfl, rfl, rfl, rfl, rfl⟩

/-- `Start` touches neither the ignored actors, nor `bIsInit`, `bIsFinished`, the paused
flag, the contacts, the pending ends and the timers. -/
theorem Start_frame (m : USLManipulatorBoneContactMonitor) :
    (Start m).Owner = m.Owner ∧ (Start m).IgnoreList = m.IgnoreList ∧
    (Start m).bIsInit = m.bIsInit ∧ (Start m).bIsFinished = m.bIsFinished ∧
    (Start m).bIsGraspCheckPaused = m.bIsGraspCheckPaused ∧
    (Start m).ActiveContacts = m.ActiveContacts ∧
    (Start m).RecentlyEndedGraspOverlapEvents = m.RecentlyEndedGraspOverlapEvents ∧
    (Start m).RecentlyEndedContactOverlapEvents = m.RecentlyEndedContactOverlapEvents ∧
    (Start m).GraspDelayTimerHandle = m.GraspDelayTimerHandle ∧
    (Start m).ContactDelayTimerHandle = m.ContactDelayTimerHandle ∧
    ((Start m).bIsStarted = true → m.bIsStarted = true ∨ m.bIsInit = true) := by
  by_cases h : m.bIsInit = true ∧ m.bIsStarted = false
  · rw [Start_of_ready m h.1 h.2]
    exact ⟨rfl, rfl, rfl, rfl, rfl, rfl, rfl, rfl, rfl, rfl, fun _ => Or.inr h.1⟩
  · have h2 : m.bIsInit = false ∨ m.bIsStarted = true := by
      cases hi : m.bIsInit <;> cases hs : m.bIsStarted <;> simp_all
    rw [Start_of_not_ready m h2]
    exact ⟨rfl, rfl, rfl, rfl, rfl, rfl, rfl, rfl, rfl, rfl, fun hs => Or.inl hs⟩

/-- `Finish` touches neither the ignored actors, nor the paused flag, the contacts and
the timers; a finished monitor stays finished. -/
theorem Finish_frame (m : USLManipulatorBoneContactMonitor) (bForced : Bool) :
    (Finish m bForced).1.Owner = m.Owner ∧ (Finish m bForced).1.IgnoreList = m.IgnoreList ∧
    (Finish m bForced).1.bIsGraspCheckPaused = m.bIsGraspCheckPaused ∧
    (Finish m bForced).1.ActiveContacts = m.ActiveContacts ∧
    (Finish m bForced).1.GraspDelayTimerHandle = m.GraspDelayTimerHandle ∧
    (Finish m bForced).1.ContactDelayTimerHandle = m.ContactDelayTimerHandle ∧
    (m.bIsFinished = true → (Finish m bForced).1.bIsFinished = true) ∧
    ((Finish m bForced).1.bIsInit = true → m.bIsInit = true) ∧
    ((Finish m bForced).1.bIsStarted = true → m.bIsStarted = true) := by
  by_cases h : m.bIsFinished = false ∧ (m.bIsInit = true ∨ m.bIsStarted = true)
  · rw [Finish_of_live m bForced h.1 h.2]
    refine ⟨rfl, rfl, rfl, rfl, rfl, rfl, fun _ => rfl, ?_, ?_⟩ <;> intro hc <;> simp at hc
  · have h2 : m.bIsFinished = true ∨ (m.bIsInit = false ∧ m.bIsStarted = false) := by
      cases hf : m.bIsFinished <;> cases hi : m.bIsInit <;> cases hs : m.bIsStarted <;>
        simp_all
    rw [Finish_of_not_live m bForced h2]
    exact ⟨rfl, rfl, rfl, rfl, rfl, rfl, fun hf => hf, fun hi => hi, fun hs => hs⟩

theorem Run_Owner_IgnoreList (K : Constants) :
    ∀ (es : List Event) (m : USLManipulatorBoneContactMonitor),
      (Run K m es).1.Owner = m.Owner ∧ (Run K m es).1.IgnoreList = m.IgnoreList
  | [], _ => ⟨rfl, rfl⟩
  | e :: es, m => by
    obtain ⟨h1, h2⟩ := Run_Owner_IgnoreList K es (Step K m e).1
    obtain ⟨g1, g2⟩ := Step_Owner_IgnoreList K m e
    exact ⟨h1.trans g1, h2.trans g2⟩

/-- `SetGraspCheckPaused` touches neither the ignored actors nor the lifecycle flags, and
leaves the paused flag at the value given. -/
theorem SetGraspCheckPaused_flags (K : Constants) (m : USLManipulatorBoneContactMonitor)
    (bNewValue : Bool) (ov : List AActor) (now : Time) :
    (SetGraspCheckPaused K m bNewValue ov now).1.Owner = m.Owner ∧
    (SetGraspCheckPaused K m bNewValue ov now).1.IgnoreList = m.IgnoreList ∧
    (SetGraspCheckPaused K m bNewValue ov now).1.bIsInit = m.bIsInit ∧
    (SetGraspCheckPaused K m bNewValue ov now).1.bIsStarted = m.bIsStarted ∧
    (SetGraspCheckPaused K m bNewValue ov now).1.bIsFinished = m.bIsFinished ∧
    (SetGraspCheckPaused K m bNewValue ov now).1.bIsGraspCheckPaused = bNewValue := by
  by_cases hsame : bNewValue = m.bIsGraspCheckPaused
  · rw [hsame, SetGraspCheckPaused_same]
    exact ⟨rfl, rfl, rfl, rfl, rfl, rfl⟩
  · cases bNewValue with
    | true =>
      have hnp : m.bIsGraspCheckPaused = false := by
        cases h : m.bIsGraspCheckPaused with
        | false => rfl
        | true => exact absurd h.symm hsame
      rw [SetGraspCheckPaused_pause K m ov now hnp]
      exact ⟨rfl, rfl, rfl, rfl, rfl, rfl⟩
    | false =>
      have hp : m.bIsGraspCheckPaused = true := by
        cases h : m.bIsGraspCheckPaused with
        | true => rfl
        | false => exact absurd h.symm hsame
      rw [SetGraspCheckPaused_resume K m ov now hp]
      simp only [TriggerInitialGraspOverlaps, TriggerInitialGraspOverlaps_eq_Run]
      obtain ⟨o1, o2⟩ := Run_Owner_IgnoreList K (ov.map (fun a => Event.GraspOverlapBegin a now))
        { m with
            bIsGraspCheckPaused := false
            ShapeColor := if m.bVisualDebug then FColor.Red else m.ShapeColor }
      obtain ⟨f1, f2, f3⟩ := Run_flags K (ov.map (fun a => Event.GraspOverlapBegin a now))
        { m with
            bIsGraspCheckPaused := false
            ShapeColor := if m.bVisualDebug then FColor.Red else m.ShapeColor }
      obtain ⟨_, _, i3, _⟩ := Run_grasp_begins_frame K now ov
        { m with
            bIsGraspCheckPaused := false
            ShapeColor := if m.bVisualDebug then FColor.Red else m.ShapeColor }
      exact ⟨o1, o2, f1, f2, f3, i3⟩

theorem ApplyAll_cons (K : Constants) (m : USLManipulatorBoneContactMonitor) (c : Call)
    (cs : List Call) :
    ApplyAll K m (c :: cs) =
      ((ApplyAll K (Apply K m c).1 cs).1, (Apply K m c).2 ++ (ApplyAll K (Apply K m c).1 cs).2) :=
  rfl

/-- A finished monitor stays finished under every call. -/
theorem Apply_bIsFinished (K : Constants) (m : USLManipulatorBoneContactMonitor) (c : Call)
    (h : m.bIsFinished = true) : (Apply K m c).1.bIsFinished = true := by
  cases c with
  | Init bGrasp bContact bAttachToComponent =>
    exact (Init_frame m bGrasp bContact bAttachToComponent).2.2.2.1.trans h
  | Start => exact (Start_frame m).2.2.2.1.trans h
  | SetGraspCheckPaused bNewValue ov now =>
    exact (SetGraspCheckPaused_flags K m bNewValue ov now).2.2.2.2.1.trans h
  | Finish bForced => exact (Finish_frame m bForced).2.2.2.2.2.2.1 h
  | Engine e => exact (Step_flags K m e).2.2.trans h

theorem ApplyAll_bIsFinished (K : Constants) :
    ∀ (cs : List Call) (m : USLManipulatorBoneContactMonitor),
      m.bIsFinished = true → (ApplyAll K m cs).1.bIsFinished = true
  | [], _, h => h
  | c :: cs, m, h => ApplyAll_bIsFinished K cs (Apply K m c).1 (Apply_bIsFinished K m c h)

/-- Without a call of `Init`, a monitor that is neither initialized nor started stays
so. -/
theorem Apply_not_live (K : Constants) (m : USLManipulatorBoneContactMonitor) (c : Call)
    (hc : c.IsInit = false) (hi : m.bIsInit = false) (hs : m.bIsStarted = false) :
    (Apply K m c).1.bIsInit = false ∧ (Apply K m c).1.bIsStarted = false := by
  cases c with
  | Init bGrasp bContact bAttachToComponent => simp [Call.IsInit] at hc
  | Start =>
    simp only [Apply]
    rw [Start_of_not_ready m (Or.inl hi)]
    exact ⟨hi, hs⟩
  | SetGraspCheckPaused bNewValue ov now =>
    obtain ⟨_, _, f1, f2, _⟩ := SetGraspCheckPaused_flags K m bNewValue ov now
    exact ⟨f1.trans hi, f2.trans hs⟩
  | Finish bForced =>
    simp only [Apply]
    rw [Finish_of_not_live m bForced (Or.inr ⟨hi, hs⟩)]
    exact ⟨hi, hs⟩
  | Engine e =>
    obtain ⟨f1, f2, _⟩ := Step_flags K m e
    exact ⟨f1.trans hi, f2.trans hs⟩

theorem ApplyAll_not_live (K : Constants) :
    ∀ (cs : List Call) (m : USLManipulatorBoneContactMonitor),
      (∀ c ∈ cs, c.IsInit = false) → m.bIsInit = false → m.bIsStarted = false →
      (ApplyAll K m cs).1.bIsInit = false ∧ (ApplyAll K m cs).1.bIsStarted = false
  | [], _, _, hi, hs => ⟨hi, hs⟩
  | c :: cs, m, hc, hi, hs => by
    obtain ⟨h1, h2⟩ := Apply_not_live K m c (hc c (List.mem_cons_self c cs)) hi hs
    exact ApplyAll_not_live K cs (Apply K m c).1
      (fun d hd => hc d (List.mem_cons_of_mem c hd)) h1 h2

/-- On a finished monitor `Init`, `Start` and `Finish` broadcast nothing. -/
theorem ApplyAll_silent (K : Constants) :
    ∀ (cs : List Call) (m : USLManipulatorBoneContactMonitor),
      m.bIsFinished = true →
      (∀ c ∈ cs, c.IsLifecycle = true ∧ c.IsSetGraspCheckPaused = false) →
      (ApplyAll K m cs).2 = []
  | [], _, _, _ => rfl
  | c :: cs, m, h, hc => by
    have ih := ApplyAll_silent K cs (Apply K m c).1 (Apply_bIsFinished K m c h)
      (fun d hd => hc d (List.mem_cons_of_mem c hd))
    rw [ApplyAll_cons]
    simp only [ih, List.append_nil]
    obtain ⟨h1, h2⟩ := hc c (List.mem_cons_self c cs)
    cases c with
    | Init bGrasp bContact bAttachToComponent => rfl
    | Start => rfl
    | SetGraspCheckPaused bNewValue ov now => simp [Call.IsSetGraspCheckPaused] at h2
    | Finish bForced =>
      simp only [Apply]
      rw [Finish_of_not_live m bForced (Or.inl h)]
    | Engine e => simp [Call.IsLifecycle] at h1

/-! ## `ActiveContacts` along the calls -/

theorem JitterCount_filter_le (K : Constants) (X : USLBaseIndividual) (t : Time)
    (p : FSLManipulatorContactMonitorEndEvent → Bool)
    (Q : List FSLManipulatorContactMonitorEndEvent) :
    JitterCount K X t (Q.filter p) ≤ JitterCount K X t Q := by
  unfold JitterCount
  exact (List.filter_sublist Q).countP_le _

theorem JitterCount_append_singleton (K : Constants) (X A : USLBaseIndividual) (t : Time)
    (Q : List FSLManipulatorContactMonitorEndEvent) :
    JitterCount K X t (Q ++ [⟨A, t⟩]) ≤ JitterCount K X t Q + (if A = X then 1 else 0) := by
  unfold JitterCount
  rw [List.countP_append]
  by_cases hAX : A = X
  · simp only [hAX, if_true]
    have := List.countP_le_length (fun Ev : FSLManipulatorContactMonitorEndEvent =>
      decide (Ev.Other = X ∧ FloatSub t Ev.Timestamp < K.ConcatenateIfSmaller))
      (l := [(⟨X, t⟩ : FSLManipulatorContactMonitorEndEvent)])
    simp only [List.length_singleton] at this
    omega
  · simp [hAX]

/-- One event, at a time not before `t`: when the accepted contact signals of `X`
alternate, `X` has at most one pending contact end inside the window, and none while its
contact is on. -/
theorem Step_contact_jitter (K : Constants) (m : USLManipulatorBoneContactMonitor)
    (e : Event) (X : USLBaseIndividual) (b : Bool) (t : Time) (ht : t ≤ e.time)
    (hinv : JitterCount K X t m.RecentlyEndedContactOverlapEvents + b.toNat ≤ 1)
    (halt : ∀ s, ContactSignalOf m X e = some s → s = !b) :
    JitterCount K X e.time (Step K m e).1.RecentlyEndedContactOverlapEvents +
      ((ContactSignalOf m X e).getD b).toNat ≤ 1 := by
  have hmono := JitterCount_mono K X t e.time ht m.RecentlyEndedContactOverlapEvents
  cases e with
  | ContactOverlapBegin a now =>
    simp only [Step, Event.time] at hmono ⊢
    cases h : AcceptedIndividual m a with
    | none =>
      rw [(rejected_signal K m a now h).2.2.1]
      simp only [ContactSignalOf, h]
      simp only [reduceCtorEq, if_false, Option.getD_none]
      omega
    | some A =>
      rw [OnContactOverlapBegin_accepted K m a A now h]
      by_cases hAX : A = X
      · subst hAX
        have hs := halt true (by simp [ContactSignalOf, h])
        have hbf : b = false := by
          cases b with
          | false => rfl
          | true => simp at hs
        subst hbf
        cases hq : RemoveFirstJitter K A now m.RecentlyEndedContactOverlapEvents with
        | none =>
          have h0 := JitterCount_of_RemoveFirstJitter_none K A now _ hq
          simp [ContactSignalOf, h, h0]
        | some Rest =>
          have h1 := JitterCount_RemoveFirstJitter K A A now _ _ hq
          simp only [if_true] at h1
          simp only [ContactSignalOf, h, if_true, Option.getD_some, Bool.toNat_true]
          simp only [Bool.toNat_false, Nat.add_zero] at hinv
          omega
      · have hne : ¬ (some A = some X) := by simpa using hAX
        cases hq : RemoveFirstJitter K A now m.RecentlyEndedContactOverlapEvents with
        | none =>
          simp only [ContactSignalOf, h, hne, if_false, Option.getD_none]
          omega
        | some Rest =>
          have h1 := JitterCount_RemoveFirstJitter K X A now _ _ hq
          simp only [hAX, if_false, Nat.add_zero] at h1
          simp only [ContactSignalOf, h, hne, if_false, Option.getD_none]
          omega
  | ContactOverlapEnd a now =>
    simp only [Step, Event.time] at hmono ⊢
    cases h : AcceptedIndividual m a with
    | none =>
      rw [(rejected_signal K m a now h).2.2.2]
      simp only [ContactSignalOf, h]
      simp only [reduceCtorEq, if_false, Option.getD_none]
      omega
    | some A =>
      rw [OnContactOverlapEnd_accepted K m a A now h]
      have happ := JitterCount_append_singleton K X A now m.RecentlyEndedContactOverlapEvents
      by_cases hAX : A = X
      · subst hAX
        have hs := halt false (by simp [ContactSignalOf, h])
        have hbt : b = true := by
          cases b with
          | true => rfl
          | false => simp at hs
        subst hbt
        simp only [if_true] at happ
        simp only [ContactSignalOf, h, if_true, Option.getD_some, Bool.toNat_false]
        simp only [Bool.toNat_true] at hinv
        omega
      · have hne : ¬ (some A = some X) := by simpa using hAX
        simp only [hAX, if_false] at happ
        simp only [ContactSignalOf, h, hne, if_false, Option.getD_none]
        omega
  | GraspOverlapBegin a now =>
    simp only [Step, Event.time, ContactSignalOf, Option.getD_none] at hmono ⊢
    rw [(OnGraspOverlapBegin_frame K m a now).1]
    omega
  | GraspOverlapEnd a now =>
    simp only [Step, Event.time, ContactSignalOf, Option.getD_none] at hmono ⊢
    rw [(OnGraspOverlapEnd_frame K m a now).1]
    omega
  | ContactDelayTimer now =>
    simp only [Step, Event.time, ContactSignalOf, Option.getD_none, FireContactDelayTimer,
      DelayContactEndCallback_eq] at hmono ⊢
    have := JitterCount_filter_le K X now
      (fun Ev => !decide (FloatSub now Ev.Timestamp > K.ConcatenateIfSmaller))
      m.RecentlyEndedContactOverlapEvents
    omega
  | GraspDelayTimer now =>
    simp only [Step, Event.time, ContactSignalOf, Option.getD_none, FireGraspDelayTimer,
      DelayedGraspOverlapEndEventCallback_eq] at hmono ⊢
    omega

theorem Run_contact_jitter (K : Constants) (X : USLBaseIndividual) :
    ∀ (es : List Event) (m : USLManipulatorBoneContactMonitor) (b : Bool) (t : Time),
      Chronological t es = true →
      JitterCount K X t m.RecentlyEndedContactOverlapEvents + b.toNat ≤ 1 →
      Alternates (!b) (ContactSignalsOf m X es) = true →
      JitterCount K X (TimeAfter t es) (Run K m es).1.RecentlyEndedContactOverlapEvents +
        (OpenAfter b (ContactSignalsOf m X es)).toNat ≤ 1
  | [], m, b, t, _, hinv, _ => by simpa [Run, ContactSignalsOf, OpenAfter, TimeAfter] using hinv
  | e :: es, m, b, t, hch, hinv, halt => by
    simp only [Chronological, Bool.and_eq_true, decide_eq_true_eq] at hch
    obtain ⟨ht, hch2⟩ := hch
    obtain ⟨hO, hI⟩ := Step_Owner_IgnoreList K m e
    have hcongr : ContactSignalsOf (Step K m e).1 X es = ContactSignalsOf m X es := by
      simp only [ContactSignalsOf, ContactSignalOf_congr hO hI]
    cases hs : ContactSignalOf m X e with
    | none =>
      have hsig : ContactSignalsOf m X (e :: es) = ContactSignalsOf m X es := by
        simp [ContactSignalsOf, List.filterMap_cons, hs]
      rw [hsig] at halt ⊢
      have h1 := Step_contact_jitter K m e X b t ht hinv (by simp [hs])
      rw [hs] at h1
      simp only [Option.getD_none] at h1
      have ih := Run_contact_jitter K X es (Step K m e).1 b e.time hch2 h1
        (by rw [hcongr]; exact halt)
      rw [hcongr] at ih
      simpa only [Run, TimeAfter] using ih
    | some s =>
      have hsig : ContactSignalsOf m X (e :: es) = s :: ContactSignalsOf m X es := by
        simp [ContactSignalsOf, List.filterMap_cons, hs]
      rw [hsig] at halt ⊢
      simp only [Alternates, Bool.and_eq_true, beq_iff_eq] at halt
      obtain ⟨hsb, halt2⟩ := halt
      have h1 := Step_contact_jitter K m e X b t ht hinv
        (by intro s2 hs2; rw [hs] at hs2; simp only [Option.some.injEq] at hs2; rw [← hs2, hsb])
      rw [hs] at h1
      simp only [Option.getD_some] at h1
      have ih := Run_contact_jitter K X es (Step K m e).1 s e.time hch2 h1
        (by rw [hcongr, hsb]; exact halt2)
      rw [hcongr] at ih
      simpa only [Run, TimeAfter, OpenAfter] using ih

/-! ## Pending ends and sweep timers -/

theorem RemoveFirstJitter_ne_nil (K : Constants) (A : USLBaseIndividual) (now : Time)
    (Q Rest : List FSLManipulatorContactMonitorEndEvent)
    (h : RemoveFirstJitter K A now Q = some Rest) : Q ≠ [] := by
  intro hQ
  subst hQ
  simp [RemoveFirstJitter] at h

theorem IsTimerActive_SetTimer (now rate : Time) (h : 0 < rate) :
    IsTimerActive (SetTimer now rate) = true := by
  simp [IsTimerActive, SetTimer, h]

/-- One event keeps a sweep timer pending for the pending ends, when both delays are
positive. -/
theorem Step_PendingHaveTimer (K : Constants) (m : USLManipulatorBoneContactMonitor)
    (e : Event) (hg : 0 < K.ConcatenateIfSmaller * (11 / 10))
    (hs : 0 < K.ConcatenateIfSmaller + K.ConcatenateIfSmallerDelay)
    (h : PendingHaveTimer m) : PendingHaveTimer (Step K m e).1 := by
  obtain ⟨h1, h2⟩ := h
  cases e with
  | GraspOverlapBegin a now =>
    obtain ⟨f1, f2, _⟩ := OnGraspOverlapBegin_frame K m a now
    refine ⟨?_, by simp only [Step]; rw [f1, f2]; exact h2⟩
    simp only [Step]
    cases hA : AcceptedIndividual m a with
    | none => rw [(rejected_signal K m a now hA).1]; exact h1
    | some A =>
      rw [OnGraspOverlapBegin_accepted K m a A now hA]
      cases hq : RemoveFirstJitter K A now m.RecentlyEndedGraspOverlapEvents with
      | none => exact h1
      | some Rest =>
        intro hR
        have hR2 : Rest.length ≠ 0 := fun hc => hR (List.length_eq_zero.mp hc)
        simp only [hR2, if_false]
        exact h1 (RemoveFirstJitter_ne_nil K A now _ Rest hq)
  | GraspOverlapEnd a now =>
    obtain ⟨f1, f2, _⟩ := OnGraspOverlapEnd_frame K m a now
    refine ⟨?_, by simp only [Step]; rw [f1, f2]; exact h2⟩
    simp only [Step]
    cases hA : AcceptedIndividual m a with
    | none => rw [(rejected_signal K m a now hA).2.1]; exact h1
    | some A =>
      rw [OnGraspOverlapEnd_accepted K m a A now hA]
      split
      · intro _
        cases ht : m.GraspDelayTimerHandle with
        | none => simpa using IsTimerActive_SetTimer now _ hg
        | some x => simp [IsTimerActive]
      · exact h1
  | ContactOverlapBegin a now =>
    obtain ⟨_, f2, f3, _⟩ := OnContactOverlapBegin_frame K m a now
    refine ⟨by simp only [Step]; rw [f2, f3]; exact h1, ?_⟩
    simp only [Step]
    cases hA : AcceptedIndividual m a with
    | none => rw [(rejected_signal K m a now hA).2.2.1]; exact h2
    | some A =>
      rw [OnContactOverlapBegin_accepted K m a A now hA]
      cases hq : RemoveFirstJitter K A now m.RecentlyEndedContactOverlapEvents with
      | none => exact h2
      | some Rest =>
        intro hR
        have hR2 : Rest.length ≠ 0 := fun hc => hR (List.length_eq_zero.mp hc)
        simp only [hR2, if_false]
        exact h2 (RemoveFirstJitter_ne_nil K A now _ Rest hq)
  | ContactOverlapEnd a now =>
    obtain ⟨_, f2, f3, _⟩ := OnContactOverlapEnd_frame K m a now
    refine ⟨by simp only [Step]; rw [f2, f3]; exact h1, ?_⟩
    simp only [Step]
    cases hA : AcceptedIndividual m a with
    | none => rw [(rejected_signal K m a now hA).2.2.2]; exact h2
    | some A =>
      rw [OnContactOverlapEnd_accepted K m a A now hA]
      intro _
      cases ht : m.ContactDelayTimerHandle with
      | none => simpa using IsTimerActive_SetTimer now _ hs
      | some x => simp [IsTimerActive]
  | GraspDelayTimer now =>
    simp only [Step, FireGraspDelayTimer, DelayedGraspOverlapEndEventCallback_eq]
    refine ⟨?_, h2⟩
    intro hR
    simp only [hR, if_false]
    exact IsTimerActive_SetTimer now _ hs
  | ContactDelayTimer now =>
    simp only [Step, FireContactDelayTimer, DelayContactEndCallback_eq]
    refine ⟨h1, ?_⟩
    intro hR
    simp only [hR, if_false]
    exact IsTimerActive_SetTimer now _ hs

/-- One event keeps a pending end for every pending sweep timer. -/
theorem Step_TimersHavePending (K : Constants) (m : USLManipulatorBoneContactMonitor)
    (e : Event) (h : TimersHavePending m) : TimersHavePending (Step K m e).1 := by
  obtain ⟨h1, h2⟩ := h
  cases e with
  | GraspOverlapBegin a now =>
    obtain ⟨f1, f2, _⟩ := OnGraspOverlapBegin_frame K m a now
    refine ⟨?_, by simp only [Step]; rw [f1, f2]; exact h2⟩
    simp only [Step]
    cases hA : AcceptedIndividual m a with
    | none => rw [(rejected_signal K m a now hA).1]; exact h1
    | some A =>
      rw [OnGraspOverlapBegin_accepted K m a A now hA]
      cases hq : RemoveFirstJitter K A now m.RecentlyEndedGraspOverlapEvents with
      | none => exact h1
      | some Rest =>
        intro ht hR
        simp only at ht hR
        subst hR
        simp [IsTimerActive] at ht
  | GraspOverlapEnd a now =>
    obtain ⟨f1, f2, _⟩ := OnGraspOverlapEnd_frame K m a now
    refine ⟨?_, by simp only [Step]; rw [f1, f2]; exact h2⟩
    simp only [Step]
    cases hA : AcceptedIndividual m a with
    | none => rw [(rejected_signal K m a now hA).2.1]; exact h1
    | some A =>
      rw [OnGraspOverlapEnd_accepted K m a A now hA]
      split
      · intro _
        simp
      · exact h1
  | ContactOverlapBegin a now =>
    obtain ⟨_, f2, f3, _⟩ := OnContactOverlapBegin_frame K m a now
    refine ⟨by simp only [Step]; rw [f2, f3]; exact h1, ?_⟩
    simp only [Step]
    cases hA : AcceptedIndividual m a with
    | none => rw [(rejected_signal K m a now hA).2.2.1]; exact h2
    | some A =>
      rw [OnContactOverlapBegin_accepted K m a A now hA]
      cases hq : RemoveFirstJitter K A now m.RecentlyEndedContactOverlapEvents with
      | none => exact h2
      | some Rest =>
        intro ht hR
        simp only at ht hR
        subst hR
        simp [IsTimerActive] at ht
  | ContactOverlapEnd a now =>
    obtain ⟨_, f2, f3, _⟩ := OnContactOverlapEnd_frame K m a now
    refine ⟨by simp only [Step]; rw [f2, f3]; exact h1, ?_⟩
    simp only [Step]
    cases hA : AcceptedIndividual m a with
    | none => rw [(rejected_signal K m a now hA).2.2.2]; exact h2
    | some A =>
      rw [OnContactOverlapEnd_accepted K m a A now hA]
      intro _
      simp
  | GraspDelayTimer now =>
    simp only [Step, FireGraspDelayTimer, DelayedGraspOverlapEndEventCallback_eq]
    refine ⟨?_, h2⟩
    intro ht hR
    simp only at ht hR
    rw [if_pos hR] at ht
    simp [IsTimerActive] at ht
  | ContactDelayTimer now =>
    simp only [Step, FireContactDelayTimer, DelayContactEndCallback_eq]
    refine ⟨h1, ?_⟩
    intro ht hR
    simp only at ht hR
    rw [if_pos hR] at ht
    simp [IsTimerActive] at ht

theorem Run_PendingHaveTimer (K : Constants) (hg : 0 < K.ConcatenateIfSmaller * (11 / 10))
    (hs : 0 < K.ConcatenateIfSmaller + K.ConcatenateIfSmallerDelay) :
    ∀ (es : List Event) (m : USLManipulatorBoneContactMonitor),
      PendingHaveTimer m → PendingHaveTimer (Run K m es).1
  | [], _, h => h
  | e :: es, m, h =>
    Run_PendingHaveTimer K hg hs es (Step K m e).1 (Step_PendingHaveTimer K m e hg hs h)

theorem Run_TimersHavePending (K : Constants) :
    ∀ (es : List Event) (m : USLManipulatorBoneContactMonitor),
      TimersHavePending m → TimersHavePending (Run K m es).1
  | [], _, h => h
  | e :: es, m, h => Run_TimersHavePending K es (Step K m e).1 (Step_TimersHavePending K m e h)

theorem PendingHaveTimer_congr {m m1 : USLManipulatorBoneContactMonitor}
    (h1 : m1.RecentlyEndedGraspOverlapEvents = m.RecentlyEndedGraspOverlapEvents)
    (h2 : m1.RecentlyEndedContactOverlapEvents = m.RecentlyEndedContactOverlapEvents)
    (h3 : m1.GraspDelayTimerHandle = m.GraspDelayTimerHandle)
    (h4 : m1.ContactDelayTimerHandle = m.ContactDelayTimerHandle)
    (h : PendingHaveTimer m) : PendingHaveTimer m1 := by
  unfold PendingHaveTimer at h ⊢
  rw [h1, h2, h3, h4]
  exact h

theorem TimersHavePending_congr {m m1 : USLManipulatorBoneContactMonitor}
    (h1 : m1.RecentlyEndedGraspOverlapEvents = m.RecentlyEndedGraspOverlapEvents)
    (h2 : m1.RecentlyEndedContactOverlapEvents = m.RecentlyEndedContactOverlapEvents)
    (h3 : m1.GraspDelayTimerHandle = m.GraspDelayTimerHandle)
    (h4 : m1.ContactDelayTimerHandle = m.ContactDelayTimerHandle)
    (h : TimersHavePending m) : TimersHavePending m1 := by
  unfold TimersHavePending at h ⊢
  rw [h1, h2, h3, h4]
  exact h

/-- `SetGraspCheckPaused` keeps both relations between pending ends and timers. -/
theorem SetGraspCheckPaused_timers (K : Constants) (m : USLManipulatorBoneContactMonitor)
    (bNewValue : Bool) (ov : List AActor) (now : Time)
    (hg : 0 < K.ConcatenateIfSmaller * (11 / 10))
    (hs : 0 < K.ConcatenateIfSmaller + K.ConcatenateIfSmallerDelay) :
    (PendingHaveTimer m → PendingHaveTimer (SetGraspCheckPaused K m bNewValue ov now).1) ∧
    (TimersHavePending m → TimersHavePending (SetGraspCheckPaused K m bNewValue ov now).1) := by
  by_cases hsame : bNewValue = m.bIsGraspCheckPaused
  · rw [hsame, SetGraspCheckPaused_same]
    exact ⟨id, id⟩
  · cases bNewValue with
    | true =>
      have hnp : m.bIsGraspCheckPaused = false := by
        cases h : m.bIsGraspCheckPaused with
        | false => rfl
        | true => exact absurd h.symm hsame
      rw [SetGraspCheckPaused_pause K m ov now hnp]
      exact ⟨PendingHaveTimer_congr rfl rfl rfl rfl, TimersHavePending_congr rfl rfl rfl rfl⟩
    | false =>
      have hp : m.bIsGraspCheckPaused = true := by
        cases h : m.bIsGraspCheckPaused with
        | true => rfl
        | false => exact absurd h.symm hsame
      rw [SetGraspCheckPaused_resume K m ov now hp]
      simp only [TriggerInitialGraspOverlaps, TriggerInitialGraspOverlaps_eq_Run]
      constructor
      · intro h
        exact PendingHaveTimer_congr rfl rfl rfl rfl
          (Run_PendingHaveTimer K hg hs _ _ (PendingHaveTimer_congr rfl rfl rfl rfl h))
      · intro h
        exact TimersHavePending_congr rfl rfl rfl rfl
          (Run_TimersHavePending K _ _ (TimersHavePending_congr rfl rfl rfl rfl h))

/-- Every call keeps a sweep timer pending for the pending ends. -/
theorem Apply_PendingHaveTimer (K : Constants) (m : USLManipulatorBoneContactMonitor)
    (c : Call) (hg : 0 < K.ConcatenateIfSmaller * (11 / 10))
    (hs : 0 < K.ConcatenateIfSmaller + K.ConcatenateIfSmallerDelay)
    (h : PendingHaveTimer m) : PendingHaveTimer (Apply K m c).1 := by
  cases c with
  | Init bGrasp bContact bAttachToComponent =>
    obtain ⟨_, _, _, _, _, _, f7, f8, f9, f10⟩ := Init_frame m bGrasp bContact bAttachToComponent
    exact PendingHaveTimer_congr f7 f8 f9 f10 h
  | Start =>
    obtain ⟨_, _, _, _, _, _, f7, f8, f9, f10, _⟩ := Start_frame m
    exact PendingHaveTimer_congr f7 f8 f9 f10 h
  | SetGraspCheckPaused bNewValue ov now =>
    exact (SetGraspCheckPaused_timers K m bNewValue ov now hg hs).1 h
  | Finish bForced =>
    simp only [Apply]
    by_cases hl : m.bIsFinished = false ∧ (m.bIsInit = true ∨ m.bIsStarted = true)
    · rw [Finish_of_live m bForced hl.1 hl.2]
      exact ⟨fun hc => absurd rfl hc, fun hc => absurd rfl hc⟩
    · have h2 : m.bIsFinished = true ∨ (m.bIsInit = false ∧ m.bIsStarted = false) := by
        cases hf : m.bIsFinished <;> cases hi : m.bIsInit <;> cases hs : m.bIsStarted <;>
          simp_all
      rw [Finish_of_not_live m bForced h2]
      exact h
  | Engine e => exact Step_PendingHaveTimer K m e hg hs h

/-- Every call other than `Finish` keeps a pending end for every pending sweep timer. -/
theorem Apply_TimersHavePending (K : Constants) (m : USLManipulatorBoneContactMonitor)
    (c : Call) (hc : c.IsFinish = false)
    (hg : 0 < K.ConcatenateIfSmaller * (11 / 10))
    (hs : 0 < K.ConcatenateIfSmaller + K.ConcatenateIfSmallerDelay)
    (h : TimersHavePending m) : TimersHavePending (Apply K m c).1 := by
  cases c with
  | Init bGrasp bContact bAttachToComponent =>
    obtain ⟨_, _, _, _, _, _, f7, f8, f9, f10⟩ := Init_frame m bGrasp bContact bAttachToComponent
    exact TimersHavePending_congr f7 f8 f9 f10 h
  | Start =>
    obtain ⟨_, _, _, _, _, _, f7, f8, f9, f10, _⟩ := Start_frame m
    exact TimersHavePending_congr f7 f8 f9 f10 h
  | SetGraspCheckPaused bNewValue ov now =>
    exact (SetGraspCheckPaused_timers K m bNewValue ov now hg hs).2 h
  | Finish bForced => simp [Call.IsFinish] at hc
  | Engine e => exact Step_TimersHavePending K m e h

theorem ApplyAll_PendingHaveTimer (K : Constants)
    (hg : 0 < K.ConcatenateIfSmaller * (11 / 10))
    (hs : 0 < K.ConcatenateIfSmaller + K.ConcatenateIfSmallerDelay) :
    ∀ (cs : List Call) (m : USLManipulatorBoneContactMonitor),
      PendingHaveTimer m → PendingHaveTimer (ApplyAll K m cs).1
  | [], _, h => h
  | c :: cs, m, h =>
    ApplyAll_PendingHaveTimer K hg hs cs (Apply K m c).1 (Apply_PendingHaveTimer K m c hg hs h)

theorem ApplyAll_TimersHavePending (K : Constants)
    (hg : 0 < K.ConcatenateIfSmaller * (11 / 10))
    (hs : 0 < K.ConcatenateIfSmaller + K.ConcatenateIfSmallerDelay) :
    ∀ (cs : List Call) (m : USLManipulatorBoneContactMonitor),
      (∀ c ∈ cs, c.IsFinish = false) → TimersHavePending m →
      TimersHavePending (ApplyAll K m cs).1
  | [], _, _, h => h
  | c :: cs, m, hc, h =>
    ApplyAll_TimersHavePending K hg hs cs (Apply K m c).1
      (fun d hd => hc d (List.mem_cons_of_mem c hd))
      (Apply_TimersHavePending K m c (hc c (List.mem_cons_self c cs)) hg hs h)

/-! ## Pending ends are not from the future -/

/-- C1, as stated, fails: with a window of 0.25 s the cup is released at the `float`
nearest to 0.1 and touched again at the `float` nearest to 0.35. The gap is
`0.25 - 2 ^ (-27)`, less than the window, and its `float` difference is 0.25, which is not
less: on both channels the second begin is broadcast and the end of the first contact
stays pending with its timer. -/
theorem jitter_gap_that_rounds_to_the_window :
    RoundToFloat (1 / 10) = 13421773 / 134217728 ∧
    RoundToFloat (7 / 20) = 11744051 / 33554432 ∧
    RoundToFloat QuarterSecond.ConcatenateIfSmaller = QuarterSecond.ConcatenateIfSmaller ∧
    (0 : Time) ≤ 13421773 / 134217728 ∧
    (13421773 / 134217728 : Time) ≤ 11744051 / 33554432 ∧
    (11744051 / 33554432 : Time) - 13421773 / 134217728 <
      QuarterSecond.ConcatenateIfSmaller ∧
    FloatSub (11744051 / 33554432) (13421773 / 134217728) =
      QuarterSecond.ConcatenateIfSmaller ∧
    (RunTimed QuarterSecond 5 StartedMonitor
        [.GraspOverlapBegin Cup 0, .GraspOverlapEnd Cup (13421773 / 134217728),
         .GraspOverlapBegin Cup (11744051 / 33554432)]).2
      = [Broadcast.OnBeginGraspBoneOverlap CupIndividual,
         Broadcast.OnBeginGraspBoneOverlap CupIndividual] ∧
    (RunTimed QuarterSecond 5 StartedMonitor
        [.GraspOverlapBegin Cup 0, .GraspOverlapEnd Cup (13421773 / 134217728),
         .GraspOverlapBegin Cup (11744051 / 33554432)]).1.RecentlyEndedGraspOverlapEvents
      = [⟨CupIndividual, 13421773 / 134217728⟩] ∧
    IsTimerActive (RunTimed QuarterSecond 5 StartedMonitor
        [.GraspOverlapBegin Cup 0, .GraspOverlapEnd Cup (13421773 / 134217728),
         .GraspOverlapBegin Cup (11744051 / 33554432)]).1.GraspDelayTimerHandle = true ∧
    (RunTimed QuarterSecond 5 StartedMonitor
        [.ContactOverlapBegin Cup 0, .ContactOverlapEnd Cup (13421773 / 134217728),
         .ContactOverlapBegin Cup (11744051 / 33554432)]).2
      = [Broadcast.OnBeginContactBoneOverlap CupIndividual,
         Broadcast.OnBeginContactBoneOverlap CupIndividual] ∧
    (RunTimed QuarterSecond 5 StartedMonitor
        [.ContactOverlapBegin Cup 0, .ContactOverlapEnd Cup (13421773 / 134217728),
         .ContactOverlapBegin Cup (11744051 / 33554432)]).1.RecentlyEndedContactOverlapEvents
      = [⟨CupIndividual, 13421773 / 134217728⟩] := by
  decide!

/-- C1, amended: on a monitor with nothing in flight, for an accepted actor of individual
`A` and times `t0 ≤ t1 ≤ t2` whose `float` difference `t2 - t1`, the one the code
computes, is less than `ConcatenateIfSmaller` (a `float`), the signals begin at `t0`, end
at `t1`, begin at `t2`, with the delay timers firing at their expiry times in between,
broadcast exactly one begin for `A` and no end; afterwards the pending-end array is empty
and the delay timer is cleared, and on the grasp channel `A` is in `ActiveContacts`. This
holds on the grasp channel and on the contact channel (whose timer delay
`ConcatenateIfSmaller + ConcatenateIfSmallerDelay` is not below the window). -/
theorem jitter_concatenation (K : Constants) (m : USLManipulatorBoneContactMonitor)
    (OtherActor : AActor) (A : USLBaseIndividual) (t0 t1 t2 : Time) (fuel : Nat)
    (hfresh : m.Fresh) (hacc : AcceptedIndividual m OtherActor = some A)
    (_h01 : t0 ≤ t1) (h12 : t1 ≤ t2)
    (hCf : RoundToFloat K.ConcatenateIfSmaller = K.ConcatenateIfSmaller)
    (hgap : FloatSub t2 t1 < K.ConcatenateIfSmaller)
    (hdelay : 0 ≤ K.ConcatenateIfSmallerDelay) :
    ((RunTimed K fuel m [.GraspOverlapBegin OtherActor t0, .GraspOverlapEnd OtherActor t1,
        .GraspOverlapBegin OtherActor t2]).2 = [Broadcast.OnBeginGraspBoneOverlap A] ∧
      (RunTimed K fuel m [.GraspOverlapBegin OtherActor t0, .GraspOverlapEnd OtherActor t1,
        .GraspOverlapBegin OtherActor t2]).1.RecentlyEndedGraspOverlapEvents = [] ∧
      (RunTimed K fuel m [.GraspOverlapBegin OtherActor t0, .GraspOverlapEnd OtherActor t1,
        .GraspOverlapBegin OtherActor t2]).1.GraspDelayTimerHandle = none ∧
      A ∈ (RunTimed K fuel m [.GraspOverlapBegin OtherActor t0, .GraspOverlapEnd OtherActor t1,
        .GraspOverlapBegin OtherActor t2]).1.ActiveContacts.Elements) ∧
    ((RunTimed K fuel m [.ContactOverlapBegin OtherActor t0, .ContactOverlapEnd OtherActor t1,
        .ContactOverlapBegin OtherActor t2]).2 = [Broadcast.OnBeginContactBoneOverlap A] ∧
      (RunTimed K fuel m [.ContactOverlapBegin OtherActor t0, .ContactOverlapEnd OtherActor t1,
        .ContactOverlapBegin OtherActor t2]).1.RecentlyEndedContactOverlapEvents = [] ∧
      (RunTimed K fuel m [.ContactOverlapBegin OtherActor t0, .ContactOverlapEnd OtherActor t1,
        .ContactOverlapBegin OtherActor t2]).1.ContactDelayTimerHandle = none) := by
  obtain ⟨hAC, hGQ, hCQ, hGT, hCT⟩ := hfresh
  have hexact : t2 - t1 < K.ConcatenateIfSmaller := lt_of_FloatSub_lt hCf hgap
  have hC : 0 < K.ConcatenateIfSmaller := by linarith
  have hC1 : 0 < K.ConcatenateIfSmaller * (11 / 10) := by positivity
  have hC2 : 0 < K.ConcatenateIfSmaller + K.ConcatenateIfSmallerDelay := by linarith
  have hg1 : ¬ (t1 + K.ConcatenateIfSmaller * (11 / 10) < t2) := by
    have : K.ConcatenateIfSmaller ≤ K.ConcatenateIfSmaller * (11 / 10) := by linarith
    linarith
  have hg2 : ¬ (t1 + (K.ConcatenateIfSmaller + K.ConcatenateIfSmallerDelay) < t2) := by
    linarith
  constructor
  · -- grasp channel
    simp only [RunTimed, Event.time, Step]
    rw [TickTimers_of_none _ _ _ _ (by simp [NextExpired, hGT, hCT])]
    rw [OnGraspOverlapBegin_accepted K m OtherActor A t0 hacc]
    simp only [hGQ, RemoveFirstJitter]
    rw [TickTimers_of_none _ _ _ _ (by simp [NextExpired, hGT, hCT])]
    rw [OnGraspOverlapEnd_accepted K _ OtherActor A t1
      (by rw [AcceptedIndividual_congr rfl rfl]; exact hacc)]
    simp only [hAC, hGQ, hGT, TSet.Emplace, TSet.Empty, TSet.Remove, SetTimer, hC1]
    simp only [List.not_mem_nil, dite_false, List.nil_append, List.mem_singleton, if_true,
      Option.isSome_none, Bool.false_eq_true, if_false]
    rw [TickTimers_of_none _ _ _ _ (by simp [NextExpired, hCT, hg1])]
    rw [OnGraspOverlapBegin_accepted K _ OtherActor A t2
      (by rw [AcceptedIndividual_congr rfl rfl]; exact hacc)]
    simp [RemoveFirstJitter_singleton, hgap, TSet.Emplace]
  · -- contact channel
    simp only [RunTimed, Event.time, Step]
    rw [TickTimers_of_none _ _ _ _ (by simp [NextExpired, hGT, hCT])]
    rw [OnContactOverlapBegin_accepted K m OtherActor A t0 hacc]
    simp only [hCQ, RemoveFirstJitter]
    rw [TickTimers_of_none _ _ _ _ (by simp [NextExpired, hGT, hCT])]
    rw [OnContactOverlapEnd_accepted K _ OtherActor A t1 hacc]
    simp only [hCQ, hCT, SetTimer, hC2, if_true, Option.isSome_none, Bool.false_eq_true,
      if_false, List.nil_append]
    rw [TickTimers_of_none _ _ _ _ (by simp [NextExpired, hGT, hg2])]
    rw [OnContactOverlapBegin_accepted K _ OtherActor A t2
      (by rw [AcceptedIndividual_congr rfl rfl]; exact hacc)]
    simp [RemoveFirstJitter_singleton, hgap]

/-- The cup is released at 1 s and touched again at 1.2 s, with a window of 0.25 s. -/
theorem jitter_concatenation_witness :
    (0 : Time) ≤ 1 ∧ FloatSub (6 / 5) 1 < QuarterSecond.ConcatenateIfSmaller ∧
    (RunTimed QuarterSecond 5 StartedMonitor [.GraspOverlapBegin Cup 0, .GraspOverlapEnd Cup 1,
        .GraspOverlapBegin Cup (6 / 5)]).2 = [Broadcast.OnBeginGraspBoneOverlap CupIndividual] :=
  ⟨by decide!, by decide!,
    (jitter_concatenation QuarterSecond StartedMonitor Cup CupIndividual 0 1 (6 / 5) 5
      (by decide!) (by decide!) (by decide!) (by decide!) (by decide!) (by decide!)
      (by decide!)).1.1⟩

/-- C3, as stated, fails. The cup begins to overlap a fresh initialized monitor and the
monitor is finished: one grasp begin of the cup has been broadcast and no grasp end. And
two components of the cup begin to overlap and end to overlap before the monitor is
finished: two grasp begins of the cup have been broadcast and one grasp end. -/
theorem begin_without_end_after_Finish :
    StartedMonitor.bIsInit = true ∧
    (RunThenFinish QuarterSecond StartedMonitor [.GraspOverlapBegin Cup 0] true).2 =
      [Broadcast.OnBeginGraspBoneOverlap CupIndividual] ∧
    (RunThenFinish QuarterSecond StartedMonitor [.GraspOverlapBegin Cup 0] true).2.count
      (Broadcast.OnBeginGraspBoneOverlap CupIndividual) = 1 ∧
    (RunThenFinish QuarterSecond StartedMonitor [.GraspOverlapBegin Cup 0] true).2.count
      (Broadcast.OnEndGraspBoneOverlap CupIndividual) = 0 ∧
    (RunThenFinish QuarterSecond StartedMonitor
      [.GraspOverlapBegin Cup 0, .GraspOverlapBegin Cup 0, .GraspOverlapEnd Cup 1,
       .GraspOverlapEnd Cup 1] true).2 =
      [Broadcast.OnBeginGraspBoneOverlap CupIndividual,
       Broadcast.OnBeginGraspBoneOverlap CupIndividual,
       Broadcast.OnEndGraspBoneOverlap CupIndividual] := by
  decide!

/-- C3, amended: after any sequence of overlap signals and timer firings on a fresh
initialized monitor followed by `Finish`, both pending-end arrays are empty, and for every
individual `X` and each channel on which the accepted signals of `X` alternate begin, end,
begin, ... and the last one is an end, the ends broadcast for `X` on that channel are as
many as the begins broadcast for `X`. -/
theorem Finish_balances_begin_and_end (K : Constants) (m : USLManipulatorBoneContactMonitor)
    (es : List Event) (X : USLBaseIndividual) (bForced : Bool)
    (hfresh : m.Fresh) (hinit : m.bIsInit = true) (hfin : m.bIsFinished = false) :
    (Alternates true (GraspSignalsOf m X es) = true →
      OpenAfter false (GraspSignalsOf m X es) = false →
      (RunThenFinish K m es bForced).2.count (Broadcast.OnEndGraspBoneOverlap X) =
        (RunThenFinish K m es bForced).2.count (Broadcast.OnBeginGraspBoneOverlap X)) ∧
    (Alternates true (ContactSignalsOf m X es) = true →
      OpenAfter false (ContactSignalsOf m X es) = false →
      (RunThenFinish K m es bForced).2.count (Broadcast.OnEndContactBoneOverlap X) =
        (RunThenFinish K m es bForced).2.count (Broadcast.OnBeginContactBoneOverlap X)) ∧
    (RunThenFinish K m es bForced).1.RecentlyEndedGraspOverlapEvents = [] ∧
    (RunThenFinish K m es bForced).1.RecentlyEndedContactOverlapEvents = [] := by
  obtain ⟨hg, hc, hq1, hq2⟩ := RunThenFinish_balance K m es X bForced hfresh hinit hfin
  refine ⟨?_, ?_, hq1, hq2⟩
  · intro halt hclosed
    have := hg halt
    rw [hclosed] at this
    simpa using this.symm
  · intro halt hclosed
    have := hc halt
    rw [hclosed] at this
    simpa using this.symm

/-- The cup is grasped, released, grasped again inside the window and released, and the
monitor is finished. -/
theorem Finish_balances_begin_and_end_witness :
    (RunThenFinish QuarterSecond StartedMonitor
        [.GraspOverlapBegin Cup 0, .GraspOverlapEnd Cup 1, .GraspOverlapBegin Cup (6 / 5),
         .GraspOverlapEnd Cup 3] true).2.count
        (Broadcast.OnEndGraspBoneOverlap CupIndividual) =
      (RunThenFinish QuarterSecond StartedMonitor
        [.GraspOverlapBegin Cup 0, .GraspOverlapEnd Cup 1, .GraspOverlapBegin Cup (6 / 5),
         .GraspOverlapEnd Cup 3] true).2.count
        (Broadcast.OnBeginGraspBoneOverlap CupIndividual) :=
  (Finish_balances_begin_and_end QuarterSecond StartedMonitor
    [.GraspOverlapBegin Cup 0, .GraspOverlapEnd Cup 1, .GraspOverlapBegin Cup (6 / 5),
     .GraspOverlapEnd Cup 3]
    CupIndividual true (by decide!) (by decide!) (by decide!)).1 (by decide!) (by decide!)

/-- C4: `Finish` on a monitor that is initialized or started and not yet finished
broadcasts one end for each entry of the grasp pending-end array and then one for each
entry of the contact pending-end array, each on its own delegate and in array order,
leaves both arrays empty and sets `bIsStarted = false`, `bIsInit = false`,
`bIsFinished = true`. -/
theorem Finish_flushes_pending_ends (m : USLManipulatorBoneContactMonitor) (bForced : Bool)
    (hfin : m.bIsFinished = false) (hlive : m.bIsInit = true ∨ m.bIsStarted = true) :
    (Finish m bForced).2 =
      m.RecentlyEndedGraspOverlapEvents.map
          (fun Ev => Broadcast.OnEndGraspBoneOverlap Ev.Other) ++
        m.RecentlyEndedContactOverlapEvents.map
          (fun Ev => Broadcast.OnEndContactBoneOverlap Ev.Other) ∧
    (Finish m bForced).1.RecentlyEndedGraspOverlapEvents = [] ∧
    (Finish m bForced).1.RecentlyEndedContactOverlapEvents = [] ∧
    (Finish m bForced).1.bIsStarted = false ∧
    (Finish m bForced).1.bIsInit = false ∧
    (Finish m bForced).1.bIsFinished = true := by
  rw [Finish_of_live m bForced hfin hlive]
  exact ⟨rfl, rfl, rfl, rfl, rfl, rfl⟩

/-- A started monitor with a pending grasp end and two pending contact ends. -/
theorem Finish_flushes_pending_ends_witness :
    (Finish { StartedMonitor with
        RecentlyEndedGraspOverlapEvents := [⟨CupIndividual, 1⟩]
        RecentlyEndedContactOverlapEvents := [⟨CupIndividual, 1⟩, ⟨⟨8⟩, 2⟩] } false).2 =
      [Broadcast.OnEndGraspBoneOverlap CupIndividual,
       Broadcast.OnEndContactBoneOverlap CupIndividual,
       Broadcast.OnEndContactBoneOverlap ⟨8⟩] :=
  (Finish_flushes_pending_ends { StartedMonitor with
        RecentlyEndedGraspOverlapEvents := [⟨CupIndividual, 1⟩]
        RecentlyEndedContactOverlapEvents := [⟨CupIndividual, 1⟩, ⟨⟨8⟩, 2⟩] } false
    rfl (Or.inl rfl)).1

/-- C5: on a monitor that is not paused, `SetGraspCheckPaused(true)` broadcasts one
grasp end for each individual in `ActiveContacts` and nothing else, leaves
`ActiveContacts` empty, sets the paused flag, leaves the grasp callbacks unbound and does
not touch the pending-end arrays. -/
theorem SetGraspCheckPaused_true_force_closes (K : Constants)
    (m : USLManipulatorBoneContactMonitor) (CurrOverlappingComponents : List AActor)
    (now : Time) (hnp : m.bIsGraspCheckPaused = false) :
    (SetGraspCheckPaused K m true CurrOverlappingComponents now).2 =
      m.ActiveContacts.Elements.map Broadcast.OnEndGraspBoneOverlap ∧
    (∀ X, (SetGraspCheckPaused K m true CurrOverlappingComponents now).2.count
      (Broadcast.OnEndGraspBoneOverlap X) = if X ∈ m.ActiveContacts.Elements then 1 else 0) ∧
    (SetGraspCheckPaused K m true CurrOverlappingComponents now).1.ActiveContacts =
      TSet.Empty ∧
    (SetGraspCheckPaused K m true CurrOverlappingComponents now).1.bIsGraspCheckPaused = true ∧
    (SetGraspCheckPaused K m true CurrOverlappingComponents now).1.bGraspCallbacksBound =
      false ∧
    (SetGraspCheckPaused K m true CurrOverlappingComponents now).1.RecentlyEndedGraspOverlapEvents
      = m.RecentlyEndedGraspOverlapEvents ∧
    (SetGraspCheckPaused K m true
      CurrOverlappingComponents now).1.RecentlyEndedContactOverlapEvents
      = m.RecentlyEndedContactOverlapEvents := by
  have hcount : ∀ X, (m.ActiveContacts.Elements.map Broadcast.OnEndGraspBoneOverlap).count
      (Broadcast.OnEndGraspBoneOverlap X) = if X ∈ m.ActiveContacts.Elements then 1 else 0 := by
    intro X
    rw [List.count_map_of_injective _ _ (by intro a b h; simpa using h)]
    exact List.count_eq_of_nodup m.ActiveContacts.nodup
  unfold SetGraspCheckPaused
  simp only [hnp, SetColor_eq, UnbindGraspOverlapCallbacks]
  cases hv : m.bVisualDebug <;> cases hg : m.bGraspCallbacksBound <;>
    simp [hv, hg, hcount]

/-- The grasp check is paused while the cup is the one active contact. -/
theorem SetGraspCheckPaused_true_force_closes_witness :
    (SetGraspCheckPaused QuarterSecond
      { StartedMonitor with ActiveContacts := ⟨[CupIndividual], by decide⟩ } true [] 2).2 =
      [Broadcast.OnEndGraspBoneOverlap CupIndividual] :=
  (SetGraspCheckPaused_true_force_closes QuarterSecond
    { StartedMonitor with ActiveContacts := ⟨[CupIndividual], by decide⟩ } [] 2 rfl).1

/-- C6, as stated, fails: the cup is grasped at time 0; at time 1 the grasp check is
paused and resumed while two components of the cup overlap the monitor. The resume
broadcasts two grasp begins for the cup. -/
theorem resume_re_emits_begin_for_each_component :
    CupIndividual ∈
      (Step QuarterSecond StartedMonitor (.GraspOverlapBegin Cup 0)).1.ActiveContacts.Elements ∧
    (SetGraspCheckPaused QuarterSecond
        (Step QuarterSecond StartedMonitor (.GraspOverlapBegin Cup 0)).1 true [Cup, Cup] 1).2
      = [Broadcast.OnEndGraspBoneOverlap CupIndividual] ∧
    (SetGraspCheckPaused QuarterSecond
      (SetGraspCheckPaused QuarterSecond
        (Step QuarterSecond StartedMonitor (.GraspOverlapBegin Cup 0)).1 true [Cup, Cup] 1).1
      false [Cup, Cup] 1).2
      = [Broadcast.OnBeginGraspBoneOverlap CupIndividual,
         Broadcast.OnBeginGraspBoneOverlap CupIndividual] := by
  decide!

/-- C6, amended: in every state the monitor reaches in which `A` is an active grasp
contact and the grasp check is not paused, `SetGraspCheckPaused(true)` followed at once by
`SetGraspCheckPaused(false)` broadcasts during the resume one grasp begin for `A` for each
overlapping component that belongs to an accepted actor of individual `A`: exactly one
when exactly one such component overlaps, none when none does. `A` is put back into
`ActiveContacts` when at least one such component overlaps, and the grasp callbacks are
bound again. -/
theorem resume_re_emits_begin_once (K : Constants) (m : USLManipulatorBoneContactMonitor)
    (t now : Time) (A : USLBaseIndividual) (CurrOverlappingComponents : List AActor)
    (hreach : Reachable K m t) (hnow : t ≤ now)
    (_hA : A ∈ m.ActiveContacts.Elements) (hnp : m.bIsGraspCheckPaused = false) :
    (SetGraspCheckPaused K (SetGraspCheckPaused K m true CurrOverlappingComponents now).1
        false CurrOverlappingComponents now).2.count (Broadcast.OnBeginGraspBoneOverlap A) =
      (CurrOverlappingComponents.filterMap (AcceptedIndividual m)).count A ∧
    ((CurrOverlappingComponents.filterMap (AcceptedIndividual m)).count A = 1 →
      (SetGraspCheckPaused K (SetGraspCheckPaused K m true CurrOverlappingComponents now).1
        false CurrOverlappingComponents now).2.count (Broadcast.OnBeginGraspBoneOverlap A) = 1)
    ∧
    (A ∈ (SetGraspCheckPaused K (SetGraspCheckPaused K m true CurrOverlappingComponents now).1
        false CurrOverlappingComponents now).1.ActiveContacts.Elements ↔
      0 < (CurrOverlappingComponents.filterMap (AcceptedIndividual m)).count A) ∧
    (SetGraspCheckPaused K (SetGraspCheckPaused K m true CurrOverlappingComponents now).1
        false CurrOverlappingComponents now).1.bGraspCallbacksBound = true := by
  have hJ := (JitterFree_mono K m t now hnow (JitterFree_of_Reachable hreach)) A
  have h0 : JitterCount K A now m.RecentlyEndedGraspOverlapEvents = 0 := by
    simp only [_hA, if_true] at hJ
    omega
  rw [SetGraspCheckPaused_pause K m _ now hnp, SetGraspCheckPaused_resume K _ _ now rfl]
  obtain ⟨h1, h2⟩ := TriggerInitialGraspOverlaps_without_jitter K now A m
    CurrOverlappingComponents
    { m with
        bIsGraspCheckPaused := false
        ShapeColor := if m.bVisualDebug then FColor.Red
          else (if m.bVisualDebug then FColor.Yellow else m.ShapeColor)
        ActiveContacts := TSet.Empty
        bGraspCallbacksBound := false } [] rfl rfl h0
  have hcount : ((TriggerInitialGraspOverlaps K
        { m with
          bIsGraspCheckPaused := false
          ShapeColor := if m.bVisualDebug then FColor.Red
            else (if m.bVisualDebug then FColor.Yellow else m.ShapeColor)
          ActiveContacts := TSet.Empty
          bGraspCallbacksBound := false } CurrOverlappingComponents now).2).count
        (Broadcast.OnBeginGraspBoneOverlap A) =
      (CurrOverlappingComponents.filterMap (AcceptedIndividual m)).count A := by
    simp only [TriggerInitialGraspOverlaps]
    rw [h1]
    simp
  refine ⟨hcount, fun hone => hcount.trans hone, ?_, rfl⟩
  simp only [TriggerInitialGraspOverlaps]
  rw [h2]
  simp [TSet.Empty]

/-- The cup is grasped at time 0; at time 1 the grasp check is paused and resumed while
the cup still overlaps with one component. -/
theorem resume_re_emits_begin_once_witness :
    (SetGraspCheckPaused QuarterSecond
      (SetGraspCheckPaused QuarterSecond
        (Step QuarterSecond StartedMonitor (.GraspOverlapBegin Cup 0)).1 true [Cup] 1).1
      false [Cup] 1).2.count (Broadcast.OnBeginGraspBoneOverlap CupIndividual) = 1 :=
  (resume_re_emits_begin_once QuarterSecond
    (Step QuarterSecond StartedMonitor (.GraspOverlapBegin Cup 0)).1 0 1 CupIndividual [Cup]
    (Reachable.event StartedMonitor 0 (.GraspOverlapBegin Cup 0)
      (Reachable.fresh StartedMonitor 0 (by decide!)) (by decide!))
    (by decide!) (by decide!) (by decide!)).2.1 (by decide!)

/-- C7: a signal whose other actor is the monitor's owner leaves the whole monitor
unchanged and broadcasts nothing, on each of the four overlap callbacks. -/
theorem self_overlap_is_ignored (K : Constants) (m : USLManipulatorBoneContactMonitor)
    (now : Time) :
    OnGraspOverlapBegin K m m.Owner now = (m, []) ∧
    OnGraspOverlapEnd K m m.Owner now = (m, []) ∧
    OnContactOverlapBegin K m m.Owner now = (m, []) ∧
    OnContactOverlapEnd K m m.Owner now = (m, []) :=
  rejected_signal K m m.Owner now (by simp [AcceptedIndividual])

/-- C8: a begin or end signal whose other actor is on the ignore list leaves the whole
monitor unchanged and broadcasts nothing, on each of the four overlap callbacks, also when
the actor is an annotated static mesh actor; whatever events and `Finish` follow, the
broadcasts are those made without the signal. -/
theorem ignore_list_is_enforced (K : Constants) (m : USLManipulatorBoneContactMonitor)
    (OtherActor : AActor) (now : Time) (h : some OtherActor ∈ m.IgnoreList) :
    OnGraspOverlapBegin K m OtherActor now = (m, []) ∧
    OnGraspOverlapEnd K m OtherActor now = (m, []) ∧
    OnContactOverlapBegin K m OtherActor now = (m, []) ∧
    OnContactOverlapEnd K m OtherActor now = (m, []) ∧
    (∀ (es : List Event) (bForced : Bool),
      RunThenFinish K m (.GraspOverlapBegin OtherActor now :: es) bForced =
        RunThenFinish K m es bForced ∧
      RunThenFinish K m (.GraspOverlapEnd OtherActor now :: es) bForced =
        RunThenFinish K m es bForced ∧
      RunThenFinish K m (.ContactOverlapBegin OtherActor now :: es) bForced =
        RunThenFinish K m es bForced ∧
      RunThenFinish K m (.ContactOverlapEnd OtherActor now :: es) bForced =
        RunThenFinish K m es bForced) := by
  obtain ⟨h1, h2, h3, h4⟩ :=
    rejected_signal K m OtherActor now (AcceptedIndividual_of_ignored m OtherActor h)
  refine ⟨h1, h2, h3, h4, ?_⟩
  intro es bForced
  simp [RunThenFinish, Run, Step, h1, h2, h3, h4]

/-- The cup is on the ignore list of the monitor. -/
theorem ignore_list_is_enforced_witness :
    OnGraspOverlapBegin QuarterSecond { StartedMonitor with IgnoreList := [some Cup] } Cup 1 =
      ({ StartedMonitor with IgnoreList := [some Cup] }, []) :=
  (ignore_list_is_enforced QuarterSecond { StartedMonitor with IgnoreList := [some Cup] }
    Cup 1 (by decide)).1

/-- C9: when `GetIndividualObject` returns null for the other actor, each of the four
overlap callbacks leaves the whole monitor unchanged and broadcasts nothing; and
`GetIndividualObject` returns null exactly when the actor has no individual component or
the component holds no individual object. -/
theorem identity_miss_drops_signal (K : Constants) (m : USLManipulatorBoneContactMonitor)
    (OtherActor : AActor) (now : Time) :
    (FSLIndividualUtils.GetIndividualObject OtherActor = none →
      OnGraspOverlapBegin K m OtherActor now = (m, []) ∧
      OnGraspOverlapEnd K m OtherActor now = (m, []) ∧
      OnContactOverlapBegin K m OtherActor now = (m, []) ∧
      OnContactOverlapEnd K m OtherActor now = (m, [])) ∧
    (FSLIndividualUtils.GetIndividualObject OtherActor = none ↔
      OtherActor.IndividualComponent = none ∨
        ∃ IC, OtherActor.IndividualComponent = some IC ∧ IC.IndividualObject = none) := by
  constructor
  · intro h
    apply rejected_signal
    unfold AcceptedIndividual
    rw [h]
    split <;> rfl
  · unfold FSLIndividualUtils.GetIndividualObject FSLIndividualUtils.GetIndividualComponent
      USLIndividualComponent.GetIndividualObject
    cases hc : OtherActor.IndividualComponent with
    | none => simp
    | some IC => simp

/-- The crate has an individual component without an individual object. -/
theorem identity_miss_drops_signal_witness :
    OnContactOverlapEnd QuarterSecond StartedMonitor Crate 1 = (StartedMonitor, []) :=
  ((identity_miss_drops_signal QuarterSecond StartedMonitor Crate 1).1 (by decide)).2.2.2

/-- C10: a second `Finish` right after a `Finish` changes no field and broadcasts
nothing, so two calls in a row leave the state and the broadcasts of one call; and
`Finish` on a monitor that is neither initialized nor started changes nothing and
broadcasts nothing. -/
theorem Finish_is_idempotent (m : USLManipulatorBoneContactMonitor) (bForced bForced2 : Bool) :
    Finish (Finish m bForced).1 bForced2 = ((Finish m bForced).1, []) ∧
    (Finish m bForced).2 ++ (Finish (Finish m bForced).1 bForced2).2 = (Finish m bForced).2 ∧
    (m.bIsInit = false → m.bIsStarted = false → Finish m bForced = (m, [])) := by
  have h1 : Finish (Finish m bForced).1 bForced2 = ((Finish m bForced).1, []) := by
    by_cases hlive : m.bIsFinished = false ∧ (m.bIsInit = true ∨ m.bIsStarted = true)
    · rw [Finish_of_live m bForced hlive.1 hlive.2]
      exact Finish_of_not_live _ _ (Or.inl rfl)
    · have hnot : m.bIsFinished = true ∨ (m.bIsInit = false ∧ m.bIsStarted = false) := by
        cases h1 : m.bIsFinished <;> cases h2 : m.bIsInit <;> cases h3 : m.bIsStarted <;>
          simp_all
      rw [Finish_of_not_live m bForced hnot]
      exact Finish_of_not_live m bForced2 hnot
  refine ⟨h1, ?_, ?_⟩
  · rw [h1]; simp
  · intro hi hs
    exact Finish_of_not_live m bForced (Or.inr ⟨hi, hs⟩)

/-- A monitor as the constructor leaves it is not changed by `Finish`. -/
theorem Finish_is_idempotent_witness :
    Finish { StartedMonitor with bIsInit := false, bIsStarted := false } true =
      ({ StartedMonitor with bIsInit := false, bIsStarted := false }, []) :=
  (Finish_is_idempotent { StartedMonitor with bIsInit := false, bIsStarted := false }
    true true).2.2 rfl rfl

/-- C11: after an `Init` that succeeded (`bIsInit` is true), a second `Init` with any
flag values leaves the whole monitor unchanged, with `bDetectGrasps`, `bDetectContacts`
and the bound overlap callbacks; so does any `Init` on an initialized monitor; and
`Init(false, false)` changes nothing in any state. -/
theorem Init_is_idempotent (m : USLManipulatorBoneContactMonitor)
    (bGrasp bContact bAttachToComponent bGrasp2 bContact2 bAttachToComponent2 : Bool) :
    ((Init m bGrasp bContact bAttachToComponent).bIsInit = true →
      Init (Init m bGrasp bContact bAttachToComponent) bGrasp2 bContact2 bAttachToComponent2 =
        Init m bGrasp bContact bAttachToComponent) ∧
    (m.bIsInit = true → Init m bGrasp2 bContact2 bAttachToComponent2 = m) ∧
    Init m false false bAttachToComponent = m :=
  ⟨fun h => Init_of_init _ _ _ _ h, fun h => Init_of_init _ _ _ _ h, Init_of_no_flag _ _⟩

/-- The monitor on the hand is initialized for grasps, then `Init` is called for
contacts. -/
theorem Init_is_idempotent_witness :
    Init (Init ConstructedMonitor true false true) false true true =
      Init ConstructedMonitor true false true :=
  (Init_is_idempotent ConstructedMonitor true false true false true true).1 (by decide!)

/-- C12: `Start` changes the monitor if and only if `bIsInit` is true and `bIsStarted`
is false, and then it enables the overlap events and sets `bIsStarted`. In particular
`Start` changes nothing on a monitor that is not initialized, also after `Init(false,
false)` and after an `Init` whose attachment to the bone failed, and nothing on a monitor
that is started. -/
theorem Start_requires_successful_Init (m : USLManipulatorBoneContactMonitor)
    (bGrasp bContact bAttachToComponent : Bool) :
    (Start m ≠ m ↔ (m.bIsInit = true ∧ m.bIsStarted = false)) ∧
    (m.bIsInit = true → m.bIsStarted = false →
      (Start m).bIsStarted = true ∧ (Start m).bGenerateOverlapEvents = true) ∧
    (m.bIsInit = false → Start m = m) ∧
    (m.bIsInit = false →
      Start (Init m false false bAttachToComponent) = Init m false false bAttachToComponent ∧
      (Init m false false bAttachToComponent).bIsStarted = m.bIsStarted) ∧
    (m.bIsInit = false → m.bIsNotSkeletal = false →
      AttachToBone m bAttachToComponent = false →
      Start (Init m bGrasp bContact bAttachToComponent) =
        Init m bGrasp bContact bAttachToComponent ∧
      (Init m bGrasp bContact bAttachToComponent).bIsStarted = m.bIsStarted) ∧
    (m.bIsStarted = true → Start m = m) := by
  refine ⟨?_, ?_, ?_, ?_, ?_, ?_⟩
  · constructor
    · intro hne
      by_contra hcon
      apply hne
      apply Start_of_not_ready
      cases hi : m.bIsInit <;> cases hs : m.bIsStarted <;> simp_all
    · rintro ⟨hi, hs⟩ heq
      have h := congrArg (fun x => x.bIsStarted) heq
      rw [Start_of_ready m hi hs] at h
      simp [hs] at h
  · intro hi hs
    rw [Start_of_ready m hi hs]
    exact ⟨rfl, rfl⟩
  · intro hi
    exact Start_of_not_ready m (Or.inl hi)
  · intro hi
    rw [Init_of_no_flag]
    exact ⟨Start_of_not_ready m (Or.inl hi), rfl⟩
  · intro hi hskel hatt
    by_cases hflag : (bGrasp || bContact) = true
    · rw [Init_of_failed_attach m bGrasp bContact bAttachToComponent hflag hi hskel hatt]
      exact ⟨Start_of_not_ready _ (Or.inl hi), rfl⟩
    · have hg : bGrasp = false := by cases bGrasp <;> simp_all
      have hc : bContact = false := by cases bContact <;> simp_all
      subst hg hc
      rw [Init_of_no_flag]
      exact ⟨Start_of_not_ready m (Or.inl hi), rfl⟩
  · intro hs
    exact Start_of_not_ready m (Or.inr hs)

/-- The engine refuses the attachment to the bone: the monitor on the hand cannot be
started. -/
theorem Start_requires_successful_Init_witness :
    Start (Init ConstructedMonitor true true false) = Init ConstructedMonitor true true false :=
  ((Start_requires_successful_Init ConstructedMonitor true true false).2.2.2.2.1
    (by decide!) (by decide!) (by decide!)).1

/-- C13, as stated, fails: on the started monitor that `Finish` has finished, `Init` and
`Start` make the monitor initialized and started again; and on a monitor finished while
the cup is grasped, `SetGraspCheckPaused(true)` broadcasts the end of the grasp. -/
theorem Finished_is_left_by_Init :
    (Finish StartedMonitor true).1.bIsFinished = true ∧
    (Finish StartedMonitor true).1.bIsInit = false ∧
    (Finish StartedMonitor true).1.bIsStarted = false ∧
    (ApplyAll QuarterSecond (Finish StartedMonitor true).1
      [.Init true true true, .Start]).1.bIsInit = true ∧
    (ApplyAll QuarterSecond (Finish StartedMonitor true).1
      [.Init true true true, .Start]).1.bIsStarted = true ∧
    (RunThenFinish QuarterSecond StartedMonitor [.GraspOverlapBegin Cup 0] true).1.bIsFinished
      = true ∧
    (ApplyAll QuarterSecond
      (RunThenFinish QuarterSecond StartedMonitor [.GraspOverlapBegin Cup 0] true).1
      [.SetGraspCheckPaused true [] 1]).2 = [Broadcast.OnEndGraspBoneOverlap CupIndividual] := by
  decide!

/-- C13, amended: once `bIsFinished` is set it stays set under every sequence of calls
(`Init`, `Start`, `SetGraspCheckPaused`, `Finish`, overlap signals and timer firings), and
every later `Finish` changes nothing and broadcasts nothing; as long as `Init` is not
called, a finished monitor that is neither initialized nor started stays so; and a
sequence of `Init`, `Start` and `Finish` calls on a finished monitor broadcasts
nothing. -/
theorem Finished_stays_finished (K : Constants) (m : USLManipulatorBoneContactMonitor)
    (cs : List Call) (bForced : Bool) (hfin : m.bIsFinished = true) :
    (ApplyAll K m cs).1.bIsFinished = true ∧
    Finish (ApplyAll K m cs).1 bForced = ((ApplyAll K m cs).1, []) ∧
    ((∀ c ∈ cs, c.IsInit = false) → m.bIsInit = false → m.bIsStarted = false →
      (ApplyAll K m cs).1.bIsInit = false ∧ (ApplyAll K m cs).1.bIsStarted = false) ∧
    ((∀ c ∈ cs, c.IsLifecycle = true ∧ c.IsSetGraspCheckPaused = false) →
      (ApplyAll K m cs).2 = []) :=
  ⟨ApplyAll_bIsFinished K cs m hfin,
    Finish_of_not_live _ bForced (Or.inl (ApplyAll_bIsFinished K cs m hfin)),
    ApplyAll_not_live K cs m, ApplyAll_silent K cs m hfin⟩

/-- The finished monitor is started, paused and finished again. -/
theorem Finished_stays_finished_witness :
    (ApplyAll QuarterSecond (Finish StartedMonitor true).1
      [.Start, .SetGraspCheckPaused true [] 1, .Finish true]).1.bIsInit = false ∧
    (ApplyAll QuarterSecond (Finish StartedMonitor true).1
      [.Start, .SetGraspCheckPaused true [] 1, .Finish true]).1.bIsStarted = false :=
  (Finished_stays_finished QuarterSecond (Finish StartedMonitor true).1
    [.Start, .SetGraspCheckPaused true [] 1, .Finish true] true (by decide!)).2.2.1
    (by decide) (by decide!) (by decide!)

/-- C14, on the code: `Finish` leaves both delay timer handles as they are, in every
state. The cup is grasped and touched at 0 s and released at 1 s, so both delay timers
are pending when the monitor is finished; `Finish` empties the two pending-end arrays
and both timers are still pending, and when the grasp timer fires afterwards the sweep
runs, on an empty array. -/
theorem Finish_leaves_the_delay_timers_pending (m : USLManipulatorBoneContactMonitor)
    (bForced : Bool) :
    (Finish m bForced).1.GraspDelayTimerHandle = m.GraspDelayTimerHandle ∧
    (Finish m bForced).1.ContactDelayTimerHandle = m.ContactDelayTimerHandle ∧
    (Run QuarterSecond StartedMonitor
      [.GraspOverlapBegin Cup 0, .ContactOverlapBegin Cup 0, .GraspOverlapEnd Cup 1,
       .ContactOverlapEnd Cup 1]).1.GraspDelayTimerHandle = some (51 / 40) ∧
    (RunThenFinish QuarterSecond StartedMonitor
      [.GraspOverlapBegin Cup 0, .ContactOverlapBegin Cup 0, .GraspOverlapEnd Cup 1,
       .ContactOverlapEnd Cup 1] true).1.bIsFinished = true ∧
    (RunThenFinish QuarterSecond StartedMonitor
      [.GraspOverlapBegin Cup 0, .ContactOverlapBegin Cup 0, .GraspOverlapEnd Cup 1,
       .ContactOverlapEnd Cup 1] true).1.RecentlyEndedGraspOverlapEvents = [] ∧
    IsTimerActive (RunThenFinish QuarterSecond StartedMonitor
      [.GraspOverlapBegin Cup 0, .ContactOverlapBegin Cup 0, .GraspOverlapEnd Cup 1,
       .ContactOverlapEnd Cup 1] true).1.GraspDelayTimerHandle = true ∧
    IsTimerActive (RunThenFinish QuarterSecond StartedMonitor
      [.GraspOverlapBegin Cup 0, .ContactOverlapBegin Cup 0, .GraspOverlapEnd Cup 1,
       .ContactOverlapEnd Cup 1] true).1.ContactDelayTimerHandle = true ∧
    NextExpired (RunThenFinish QuarterSecond StartedMonitor
      [.GraspOverlapBegin Cup 0, .ContactOverlapBegin Cup 0, .GraspOverlapEnd Cup 1,
       .ContactOverlapEnd Cup 1] true).1 2 = some (Event.GraspDelayTimer (51 / 40)) := by
  obtain ⟨_, _, _, _, f5, f6, _⟩ := Finish_frame m bForced
  exact ⟨f5, f6, by decide!, by decide!, by decide!, by decide!, by decide!, by decide!⟩

/-- C15, as stated, fails: the cup is touched at 0 s, released at 1 s, touched again at
1.26 s (outside the window of 0.25 s, before the sweep) and released at 1.27 s; the
state is reached with the timers firing on time, and each pending-end array holds two
entries of the cup. On the contact channel two ends at 1 s and 1.1 s even leave two
entries of the cup inside the window. -/
theorem two_pending_ends_of_one_individual :
    Reachable QuarterSecond
      (Run QuarterSecond StartedMonitor
        [.GraspOverlapBegin Cup 0, .GraspOverlapEnd Cup 1, .GraspOverlapBegin Cup (63 / 50),
         .GraspOverlapEnd Cup (127 / 100)]).1 (127 / 100) ∧
    RunTimed QuarterSecond 4 StartedMonitor
        [.GraspOverlapBegin Cup 0, .GraspOverlapEnd Cup 1, .GraspOverlapBegin Cup (63 / 50),
         .GraspOverlapEnd Cup (127 / 100)] =
      Run QuarterSecond StartedMonitor
        [.GraspOverlapBegin Cup 0, .GraspOverlapEnd Cup 1, .GraspOverlapBegin Cup (63 / 50),
         .GraspOverlapEnd Cup (127 / 100)] ∧
    (Run QuarterSecond StartedMonitor
        [.GraspOverlapBegin Cup 0, .GraspOverlapEnd Cup 1, .GraspOverlapBegin Cup (63 / 50),
         .GraspOverlapEnd Cup (127 / 100)]).1.RecentlyEndedGraspOverlapEvents =
      [⟨CupIndividual, 1⟩, ⟨CupIndividual, 127 / 100⟩] ∧
    (RunTimed QuarterSecond 4 StartedMonitor
        [.ContactOverlapBegin Cup 0, .ContactOverlapEnd Cup 1,
         .ContactOverlapBegin Cup (63 / 50),
         .ContactOverlapEnd Cup (127 / 100)]).1.RecentlyEndedContactOverlapEvents =
      [⟨CupIndividual, 1⟩, ⟨CupIndividual, 127 / 100⟩] ∧
    JitterCount QuarterSecond CupIndividual (11 / 10)
      (RunTimed QuarterSecond 4 StartedMonitor
        [.ContactOverlapEnd Cup 1,
         .ContactOverlapEnd Cup (11 / 10)]).1.RecentlyEndedContactOverlapEvents = 2 := by
  refine ⟨?_, by decide!, by decide!, by decide!, by decide!⟩
  exact Reachable.event _ (63 / 50) (.GraspOverlapEnd Cup (127 / 100))
    (Reachable.event _ 1 (.GraspOverlapBegin Cup (63 / 50))
      (Reachable.event _ 0 (.GraspOverlapEnd Cup 1)
        (Reachable.event StartedMonitor 0 (.GraspOverlapBegin Cup 0)
          (Reachable.fresh StartedMonitor 0 (by decide!)) (by decide!))
        (by decide!))
      (by decide!))
    (by decide!)

/-- C15, amended: in every state the monitor reaches from a monitor with nothing in
flight by overlap signals, timer firings, `SetGraspCheckPaused` and `Finish` under a world
time that never goes back, the grasp pending-end array holds, for any individual, at
most one entry that ended less than `ConcatenateIfSmaller` ago (by the `float` difference
of the code, the entries a begin would cancel), and none when the individual is an active
contact; this stays so at every later time. The contact
pending-end array holds at most one such entry of `X` after overlap signals and timer
firings in which the accepted contact signals of `X` alternate begin, end, begin, ... -/
theorem pending_end_is_unique_in_window (K : Constants)
    (m m0 : USLManipulatorBoneContactMonitor) (t t2 t0 : Time) (X : USLBaseIndividual)
    (es : List Event) (h : Reachable K m t) (ht : t ≤ t2) :
    JitterCount K X t2 m.RecentlyEndedGraspOverlapEvents ≤ 1 ∧
    (X ∈ m.ActiveContacts.Elements →
      JitterCount K X t2 m.RecentlyEndedGraspOverlapEvents = 0) ∧
    (m0.Fresh → Chronological t0 es = true →
      Alternates true (ContactSignalsOf m0 X es) = true →
      JitterCount K X (TimeAfter t0 es) (Run K m0 es).1.RecentlyEndedContactOverlapEvents ≤ 1)
    := by
  have hJ := JitterFree_mono K m t t2 ht (JitterFree_of_Reachable h) X
  refine ⟨?_, ?_, ?_⟩
  · omega
  · intro hX
    rw [if_pos hX] at hJ
    omega
  · intro hfresh hch halt
    obtain ⟨_, _, hCQ, _⟩ := hfresh
    have hr := Run_contact_jitter K X es m0 false t0 hch (by simp [hCQ, JitterCount]) halt
    omega

/-- The cup is grasped at 0 s and released at 1 s; and the cup is touched at 0 s,
released at 1 s, touched at 1.26 s and released at 1.27 s. -/
theorem pending_end_is_unique_in_window_witness :
    JitterCount QuarterSecond CupIndividual (6 / 5)
      (Step QuarterSecond (Step QuarterSecond StartedMonitor (.GraspOverlapBegin Cup 0)).1
        (.GraspOverlapEnd Cup 1)).1.RecentlyEndedGraspOverlapEvents ≤ 1 ∧
    JitterCount QuarterSecond CupIndividual
      (TimeAfter 0 [.ContactOverlapBegin Cup 0, .ContactOverlapEnd Cup 1,
        .ContactOverlapBegin Cup (63 / 50), .ContactOverlapEnd Cup (127 / 100)])
      (Run QuarterSecond StartedMonitor
        [.ContactOverlapBegin Cup 0, .ContactOverlapEnd Cup 1,
         .ContactOverlapBegin Cup (63 / 50),
         .ContactOverlapEnd Cup (127 / 100)]).1.RecentlyEndedContactOverlapEvents ≤ 1 :=
  ⟨(pending_end_is_unique_in_window QuarterSecond
      (Step QuarterSecond (Step QuarterSecond StartedMonitor (.GraspOverlapBegin Cup 0)).1
        (.GraspOverlapEnd Cup 1)).1 StartedMonitor 1 (6 / 5) 0 CupIndividual
      [.ContactOverlapBegin Cup 0, .ContactOverlapEnd Cup 1,
       .ContactOverlapBegin Cup (63 / 50), .ContactOverlapEnd Cup (127 / 100)]
      (Reachable.event _ 0 (.GraspOverlapEnd Cup 1)
        (Reachable.event StartedMonitor 0 (.GraspOverlapBegin Cup 0)
          (Reachable.fresh StartedMonitor 0 (by decide!)) (by decide!))
        (by decide!))
      (by decide!)).1,
    (pending_end_is_unique_in_window QuarterSecond
      (Step QuarterSecond (Step QuarterSecond StartedMonitor (.GraspOverlapBegin Cup 0)).1
        (.GraspOverlapEnd Cup 1)).1 StartedMonitor 1 (6 / 5) 0 CupIndividual
      [.ContactOverlapBegin Cup 0, .ContactOverlapEnd Cup 1,
       .ContactOverlapBegin Cup (63 / 50), .ContactOverlapEnd Cup (127 / 100)]
      (Reachable.event _ 0 (.GraspOverlapEnd Cup 1)
        (Reachable.event StartedMonitor 0 (.GraspOverlapBegin Cup 0)
          (Reachable.fresh StartedMonitor 0 (by decide!)) (by decide!))
        (by decide!))
      (by decide!)).2.2 (by decide!) (by decide!) (by decide!)⟩

/-- C18, as stated, fails: with a window of 0.25 s a sweep at the `float` time 19/64 s
finds a pending end with the `float` timestamp `12582911 / 2 ^ 28`. The entry is
`0.25 + 2 ^ (-28)` old, more than the window, but the `float` difference is 0.25, which is
not more: on both channels the sweep broadcasts nothing, keeps the entry and sets the
timer again. -/
theorem sweep_keeps_an_entry_older_than_the_window :
    RoundToFloat (19 / 64) = 19 / 64 ∧
    RoundToFloat (12582911 / 268435456) = 12582911 / 268435456 ∧
    (19 / 64 : Time) - 12582911 / 268435456 > QuarterSecond.ConcatenateIfSmaller ∧
    FloatSub (19 / 64) (12582911 / 268435456) = QuarterSecond.ConcatenateIfSmaller ∧
    (DelayedGraspOverlapEndEventCallback QuarterSecond { StartedMonitor with
        RecentlyEndedGraspOverlapEvents := [⟨CupIndividual, 12582911 / 268435456⟩] }
      (19 / 64)).2 = [] ∧
    (DelayedGraspOverlapEndEventCallback QuarterSecond { StartedMonitor with
        RecentlyEndedGraspOverlapEvents := [⟨CupIndividual, 12582911 / 268435456⟩] }
      (19 / 64)).1.RecentlyEndedGraspOverlapEvents =
      [⟨CupIndividual, 12582911 / 268435456⟩] ∧
    (DelayedGraspOverlapEndEventCallback QuarterSecond { StartedMonitor with
        RecentlyEndedGraspOverlapEvents := [⟨CupIndividual, 12582911 / 268435456⟩] }
      (19 / 64)).1.GraspDelayTimerHandle = some (19 / 64 + (1 / 4 + 1 / 20)) ∧
    (DelayContactEndCallback QuarterSecond { StartedMonitor with
        RecentlyEndedContactOverlapEvents := [⟨CupIndividual, 12582911 / 268435456⟩] }
      (19 / 64)).2 = [] ∧
    (DelayContactEndCallback QuarterSecond { StartedMonitor with
        RecentlyEndedContactOverlapEvents := [⟨CupIndividual, 12582911 / 268435456⟩] }
      (19 / 64)).1.RecentlyEndedContactOverlapEvents =
      [⟨CupIndividual, 12582911 / 268435456⟩] := by
  decide!

/-- C18, amended: one firing of the delayed sweep at time `T` broadcasts an end for exactly
the entries of the pending-end array for which the `float` difference `T - Timestamp`,
the one the code computes, is greater than `ConcatenateIfSmaller`, in array order and each
once, leaves in the array exactly the other entries in their order, and sets the timer
again if and only if the remaining array is not empty; this holds for
`DelayedGraspOverlapEndEventCallback` and for `DelayContactEndCallback`. After the firing
the timer is pending exactly when the remaining array is not empty, given a positive
delay `ConcatenateIfSmaller + ConcatenateIfSmallerDelay`. With a `float`
`ConcatenateIfSmaller`, every entry that the sweep publishes is older than
`ConcatenateIfSmaller` and every entry that is not older is kept. -/
theorem sweep_semantics (K : Constants) (m : USLManipulatorBoneContactMonitor) (T : Time) :
    ((DelayedGraspOverlapEndEventCallback K m T).2 =
        (m.RecentlyEndedGraspOverlapEvents.filter
          (fun Ev => decide (FloatSub T Ev.Timestamp > K.ConcatenateIfSmaller))).map
          (fun Ev => Broadcast.OnEndGraspBoneOverlap Ev.Other) ∧
      (DelayedGraspOverlapEndEventCallback K m T).1.RecentlyEndedGraspOverlapEvents =
        m.RecentlyEndedGraspOverlapEvents.filter
          (fun Ev => !decide (FloatSub T Ev.Timestamp > K.ConcatenateIfSmaller)) ∧
      (DelayedGraspOverlapEndEventCallback K m T).1.GraspDelayTimerHandle =
        (if (DelayedGraspOverlapEndEventCallback K m T).1.RecentlyEndedGraspOverlapEvents = []
          then m.GraspDelayTimerHandle
          else SetTimer T (K.ConcatenateIfSmaller + K.ConcatenateIfSmallerDelay))) ∧
    ((DelayContactEndCallback K m T).2 =
        (m.RecentlyEndedContactOverlapEvents.filter
          (fun Ev => decide (FloatSub T Ev.Timestamp > K.ConcatenateIfSmaller))).map
          (fun Ev => Broadcast.OnEndContactBoneOverlap Ev.Other) ∧
      (DelayContactEndCallback K m T).1.RecentlyEndedContactOverlapEvents =
        m.RecentlyEndedContactOverlapEvents.filter
          (fun Ev => !decide (FloatSub T Ev.Timestamp > K.ConcatenateIfSmaller)) ∧
      (DelayContactEndCallback K m T).1.ContactDelayTimerHandle =
        (if (DelayContactEndCallback K m T).1.RecentlyEndedContactOverlapEvents = []
          then m.ContactDelayTimerHandle
          else SetTimer T (K.ConcatenateIfSmaller + K.ConcatenateIfSmallerDelay))) ∧
    (0 < K.ConcatenateIfSmaller + K.ConcatenateIfSmallerDelay →
      (IsTimerActive (FireGraspDelayTimer K m T).1.GraspDelayTimerHandle = true ↔
        (FireGraspDelayTimer K m T).1.RecentlyEndedGraspOverlapEvents ≠ []) ∧
      (IsTimerActive (FireContactDelayTimer K m T).1.ContactDelayTimerHandle = true ↔
        (FireContactDelayTimer K m T).1.RecentlyEndedContactOverlapEvents ≠ [])) ∧
    (RoundToFloat K.ConcatenateIfSmaller = K.ConcatenateIfSmaller →
      (∀ Ev ∈ m.RecentlyEndedGraspOverlapEvents,
        (Ev ∉ (DelayedGraspOverlapEndEventCallback K m T).1.RecentlyEndedGraspOverlapEvents →
          T - Ev.Timestamp > K.ConcatenateIfSmaller) ∧
        (T - Ev.Timestamp ≤ K.ConcatenateIfSmaller →
          Ev ∈ (DelayedGraspOverlapEndEventCallback K m T).1.RecentlyEndedGraspOverlapEvents))
      ∧
      (∀ Ev ∈ m.RecentlyEndedContactOverlapEvents,
        (Ev ∉ (DelayContactEndCallback K m T).1.RecentlyEndedContactOverlapEvents →
          T - Ev.Timestamp > K.ConcatenateIfSmaller) ∧
        (T - Ev.Timestamp ≤ K.ConcatenateIfSmaller →
          Ev ∈ (DelayContactEndCallback K m T).1.RecentlyEndedContactOverlapEvents))) := by
  have hkey : RoundToFloat K.ConcatenateIfSmaller = K.ConcatenateIfSmaller →
      ∀ (Q : List FSLManipulatorContactMonitorEndEvent), ∀ Ev ∈ Q,
        (Ev ∉ Q.filter (fun Ev => !decide (FloatSub T Ev.Timestamp > K.ConcatenateIfSmaller)) →
          T - Ev.Timestamp > K.ConcatenateIfSmaller) ∧
        (T - Ev.Timestamp ≤ K.ConcatenateIfSmaller →
          Ev ∈ Q.filter
            (fun Ev => !decide (FloatSub T Ev.Timestamp > K.ConcatenateIfSmaller))) := by
    intro hCf Q Ev hEv
    constructor
    · intro hnot
      have hgt : FloatSub T Ev.Timestamp > K.ConcatenateIfSmaller := by
        by_contra hc
        exact hnot (List.mem_filter.mpr ⟨hEv, by simp [hc]⟩)
      exact lt_of_lt_FloatSub hCf hgt
    · intro hle
      refine List.mem_filter.mpr ⟨hEv, ?_⟩
      have hng : ¬ FloatSub T Ev.Timestamp > K.ConcatenateIfSmaller := by
        intro hc
        have := lt_of_lt_FloatSub hCf hc
        linarith
      simp [hng]
  refine ⟨?_, ?_, ?_, ?_⟩
  · rw [DelayedGraspOverlapEndEventCallback_eq]
    exact ⟨rfl, rfl, rfl⟩
  · rw [DelayContactEndCallback_eq]
    exact ⟨rfl, rfl, rfl⟩
  · intro hpos
    constructor
    · simp only [FireGraspDelayTimer, DelayedGraspOverlapEndEventCallback_eq]
      split <;> simp_all [IsTimerActive, SetTimer]
    · simp only [FireContactDelayTimer, DelayContactEndCallback_eq]
      split <;> simp_all [IsTimerActive, SetTimer]
  · intro hCf
    constructor
    · rw [DelayedGraspOverlapEndEventCallback_eq]
      exact hkey hCf m.RecentlyEndedGraspOverlapEvents
    · rw [DelayContactEndCallback_eq]
      exact hkey hCf m.RecentlyEndedContactOverlapEvents

/-- A sweep at 2 s over a pending end of 1 s and one of 1.9 s. -/
theorem sweep_semantics_witness :
    (IsTimerActive (FireGraspDelayTimer QuarterSecond { StartedMonitor with
        RecentlyEndedGraspOverlapEvents := [⟨CupIndividual, 1⟩, ⟨⟨8⟩, 19 / 10⟩]
        GraspDelayTimerHandle := some 2 } 2).1.GraspDelayTimerHandle = true ↔
      (FireGraspDelayTimer QuarterSecond { StartedMonitor with
        RecentlyEndedGraspOverlapEvents := [⟨CupIndividual, 1⟩, ⟨⟨8⟩, 19 / 10⟩]
        GraspDelayTimerHandle := some 2 } 2).1.RecentlyEndedGraspOverlapEvents ≠ []) ∧
    ((2 : Time) - 19 / 10 ≤ QuarterSecond.ConcatenateIfSmaller →
      (⟨⟨8⟩, 19 / 10⟩ : FSLManipulatorContactMonitorEndEvent) ∈
        (DelayedGraspOverlapEndEventCallback QuarterSecond { StartedMonitor with
          RecentlyEndedGraspOverlapEvents := [⟨CupIndividual, 1⟩, ⟨⟨8⟩, 19 / 10⟩]
          GraspDelayTimerHandle := some 2 } 2).1.RecentlyEndedGraspOverlapEvents) :=
  ⟨((sweep_semantics QuarterSecond { StartedMonitor with
        RecentlyEndedGraspOverlapEvents := [⟨CupIndividual, 1⟩, ⟨⟨8⟩, 19 / 10⟩]
        GraspDelayTimerHandle := some 2 } 2).2.2.1 (by decide!)).1,
   (((sweep_semantics QuarterSecond { StartedMonitor with
        RecentlyEndedGraspOverlapEvents := [⟨CupIndividual, 1⟩, ⟨⟨8⟩, 19 / 10⟩]
        GraspDelayTimerHandle := some 2 } 2).2.2.2 (by decide!)).1 ⟨⟨8⟩, 19 / 10⟩
      (by decide!)).2⟩

/-- C19: `OnContactOverlapBegin`, `OnContactOverlapEnd` and `DelayContactEndCallback`
leave `ActiveContacts`, the grasp pending-end array and the grasp timer as they are and
broadcast only on the contact delegates; `OnGraspOverlapBegin`, `OnGraspOverlapEnd`,
`DelayedGraspOverlapEndEventCallback` and `SetGraspCheckPaused` leave the contact
pending-end array and the contact timer as they are and broadcast only on the grasp
delegates. -/
theorem channels_are_independent (K : Constants) (m : USLManipulatorBoneContactMonitor)
    (OtherActor : AActor) (now : Time) (bNewValue : Bool)
    (CurrOverlappingComponents : List AActor) :
    ((OnContactOverlapBegin K m OtherActor now).1.ActiveContacts = m.ActiveContacts ∧
      (OnContactOverlapBegin K m OtherActor now).1.RecentlyEndedGraspOverlapEvents =
        m.RecentlyEndedGraspOverlapEvents ∧
      (OnContactOverlapBegin K m OtherActor now).1.GraspDelayTimerHandle =
        m.GraspDelayTimerHandle ∧
      (∀ b ∈ (OnContactOverlapBegin K m OtherActor now).2, IsContactBroadcast b = true)) ∧
    ((OnContactOverlapEnd K m OtherActor now).1.ActiveContacts = m.ActiveContacts ∧
      (OnContactOverlapEnd K m OtherActor now).1.RecentlyEndedGraspOverlapEvents =
        m.RecentlyEndedGraspOverlapEvents ∧
      (OnContactOverlapEnd K m OtherActor now).1.GraspDelayTimerHandle =
        m.GraspDelayTimerHandle ∧
      (∀ b ∈ (OnContactOverlapEnd K m OtherActor now).2, IsContactBroadcast b = true)) ∧
    ((DelayContactEndCallback K m now).1.ActiveContacts = m.ActiveContacts ∧
      (DelayContactEndCallback K m now).1.RecentlyEndedGraspOverlapEvents =
        m.RecentlyEndedGraspOverlapEvents ∧
      (DelayContactEndCallback K m now).1.GraspDelayTimerHandle = m.GraspDelayTimerHandle ∧
      (∀ b ∈ (DelayContactEndCallback K m now).2, IsContactBroadcast b = true)) ∧
    ((OnGraspOverlapBegin K m OtherActor now).1.RecentlyEndedContactOverlapEvents =
        m.RecentlyEndedContactOverlapEvents ∧
      (OnGraspOverlapBegin K m OtherActor now).1.ContactDelayTimerHandle =
        m.ContactDelayTimerHandle ∧
      (∀ b ∈ (OnGraspOverlapBegin K m OtherActor now).2, IsGraspBroadcast b = true)) ∧
    ((OnGraspOverlapEnd K m OtherActor now).1.RecentlyEndedContactOverlapEvents =
        m.RecentlyEndedContactOverlapEvents ∧
      (OnGraspOverlapEnd K m OtherActor now).1.ContactDelayTimerHandle =
        m.ContactDelayTimerHandle ∧
      (∀ b ∈ (OnGraspOverlapEnd K m OtherActor now).2, IsGraspBroadcast b = true)) ∧
    ((DelayedGraspOverlapEndEventCallback K m now).1.RecentlyEndedContactOverlapEvents =
        m.RecentlyEndedContactOverlapEvents ∧
      (DelayedGraspOverlapEndEventCallback K m now).1.ContactDelayTimerHandle =
        m.ContactDelayTimerHandle ∧
      (∀ b ∈ (DelayedGraspOverlapEndEventCallback K m now).2, IsGraspBroadcast b = true)) ∧
    ((SetGraspCheckPaused K m bNewValue
        CurrOverlappingComponents now).1.RecentlyEndedContactOverlapEvents =
        m.RecentlyEndedContactOverlapEvents ∧
      (SetGraspCheckPaused K m bNewValue CurrOverlappingComponents now).1.ContactDelayTimerHandle
        = m.ContactDelayTimerHandle ∧
      (∀ b ∈ (SetGraspCheckPaused K m bNewValue CurrOverlappingComponents now).2,
        IsGraspBroadcast b = true)) := by
  obtain ⟨a1, a2, a3, _, a5⟩ := OnContactOverlapBegin_frame K m OtherActor now
  obtain ⟨b1, b2, b3, _, b5⟩ := OnContactOverlapEnd_frame K m OtherActor now
  obtain ⟨c1, c2, _, c4, _⟩ := OnGraspOverlapBegin_frame K m OtherActor now
  obtain ⟨d1, d2, _, d4⟩ := OnGraspOverlapEnd_frame K m OtherActor now
  refine ⟨⟨a1, a2, a3, a5⟩, ⟨b1, b2, b3, ?_⟩, ?_, ⟨c1, c2, c4⟩, ⟨d1, d2, ?_⟩, ?_,
    SetGraspCheckPaused_frame K m bNewValue CurrOverlappingComponents now⟩
  · rw [b5]; simp
  · rw [DelayContactEndCallback_eq]
    refine ⟨rfl, rfl, rfl, ?_⟩
    intro b hb
    simp only [List.mem_map] at hb
    obtain ⟨Ev, _, rfl⟩ := hb
    rfl
  · rw [d4]; simp
  · rw [DelayedGraspOverlapEndEventCallback_eq]
    refine ⟨rfl, rfl, ?_⟩
    intro b hb
    simp only [List.mem_map] at hb
    obtain ⟨Ev, _, rfl⟩ := hb
    rfl

/-- C20, as stated, fails: the bone of the monitor on the hand is not a bone of the
hand's mesh, so the attachment fails; `Init(true, false)` leaves `bIsInit` false but has
set `bDetectGrasps` and has bound the grasp callbacks. -/
theorem failed_Init_changes_the_monitor :
    ({ ConstructedMonitor with BoneName := "index_04_r" } :
      USLManipulatorBoneContactMonitor).bIsInit = false ∧
    AttachToBone { ConstructedMonitor with BoneName := "index_04_r" } true = false ∧
    (Init { ConstructedMonitor with BoneName := "index_04_r" } true false true).bIsInit
      = false ∧
    (Init { ConstructedMonitor with BoneName := "index_04_r" } true false true).bDetectGrasps
      = true ∧
    (Init { ConstructedMonitor with BoneName := "index_04_r" } true false
      true).bGraspCallbacksBound = true ∧
    ConstructedMonitor.bDetectGrasps = false ∧
    ConstructedMonitor.bGraspCallbacksBound = false ∧
    Init { ConstructedMonitor with BoneName := "index_04_r" } true false true ≠
      { ConstructedMonitor with BoneName := "index_04_r" } := by
  decide!

/-- C20, amended: when `Init` with at least one flag set is called on a skeletal monitor
that is not initialized and the attachment to the bone fails, the monitor stays
un-initialized with the overlap events disabled, so that `Start` does not start it, and
`bIsStarted`, `bIsFinished`, the paused flag, `ActiveContacts`, the pending-end arrays, the
delay timers, the debug shape, the owner and the bone name are unchanged; `bDetectGrasps`
and `bDetectContacts` hold the flags of the call, the overlap callbacks of the channels
whose flag is set are bound, and the null entries are gone from the ignore list. -/
theorem failed_Init_leaves_monitor_uninitialized (m : USLManipulatorBoneContactMonitor)
    (bGrasp bContact bAttachToComponent : Bool)
    (hflag : (bGrasp || bContact) = true) (hinit : m.bIsInit = false)
    (hskel : m.bIsNotSkeletal = false) (hatt : AttachToBone m bAttachToComponent = false) :
    (Init m bGrasp bContact bAttachToComponent).bIsInit = false ∧
    (Init m bGrasp bContact bAttachToComponent).bGenerateOverlapEvents = false ∧
    Start (Init m bGrasp bContact bAttachToComponent) =
      Init m bGrasp bContact bAttachToComponent ∧
    (Init m bGrasp bContact bAttachToComponent).bIsStarted = m.bIsStarted ∧
    (Init m bGrasp bContact bAttachToComponent).bIsFinished = m.bIsFinished ∧
    (Init m bGrasp bContact bAttachToComponent).bIsGraspCheckPaused = m.bIsGraspCheckPaused ∧
    (Init m bGrasp bContact bAttachToComponent).ActiveContacts = m.ActiveContacts ∧
    (Init m bGrasp bContact bAttachToComponent).RecentlyEndedGraspOverlapEvents =
      m.RecentlyEndedGraspOverlapEvents ∧
    (Init m bGrasp bContact bAttachToComponent).RecentlyEndedContactOverlapEvents =
      m.RecentlyEndedContactOverlapEvents ∧
    (Init m bGrasp bContact bAttachToComponent).GraspDelayTimerHandle =
      m.GraspDelayTimerHandle ∧
    (Init m bGrasp bContact bAttachToComponent).ContactDelayTimerHandle =
      m.ContactDelayTimerHandle ∧
    (Init m bGrasp bContact bAttachToComponent).ShapeColor = m.ShapeColor ∧
    (Init m bGrasp bContact bAttachToComponent).bHiddenInGame = m.bHiddenInGame ∧
    (Init m bGrasp bContact bAttachToComponent).Owner = m.Owner ∧
    (Init m bGrasp bContact bAttachToComponent).BoneName = m.BoneName ∧
    (Init m bGrasp bContact bAttachToComponent).bDetectGrasps = bGrasp ∧
    (Init m bGrasp bContact bAttachToComponent).bDetectContacts = bContact ∧
    (Init m bGrasp bContact bAttachToComponent).bGraspCallbacksBound =
      (m.bGraspCallbacksBound || bGrasp) ∧
    (Init m bGrasp bContact bAttachToComponent).bContactCallbacksBound =
      (m.bContactCallbacksBound || bContact) ∧
    (Init m bGrasp bContact bAttachToComponent).IgnoreList =
      m.IgnoreList.filter (fun IA => decide (IA ≠ none)) := by
  rw [Init_of_failed_attach m bGrasp bContact bAttachToComponent hflag hinit hskel hatt]
  refine ⟨hinit, rfl, ?_, rfl, rfl, rfl, rfl, rfl, rfl, rfl, rfl, rfl, rfl, rfl, rfl, rfl, rfl,
    rfl, rfl, rfl⟩
  exact Start_of_not_ready _ (Or.inl hinit)

/-- The engine refuses the attachment of the monitor on the hand. -/
theorem failed_Init_leaves_monitor_uninitialized_witness :
    (Init ConstructedMonitor true true false).bIsInit = false :=
  (failed_Init_leaves_monitor_uninitialized ConstructedMonitor true true false
    (by decide!) (by decide!) (by decide!) (by decide!)).1

/-- C27: with a positive `ConcatenateIfSmaller` and a `ConcatenateIfSmallerDelay` that is
not negative, after every sequence of `Init`, `Start`, `SetGraspCheckPaused`, overlap
signals and timer firings on a monitor with nothing in flight, on each channel the
pending-end array is not empty if and only if the sweep timer of the channel is pending.
That a timer is pending whenever the array is not empty holds after `Finish` calls as
well. -/
theorem timer_pending_iff_end_pending (K : Constants) (m : USLManipulatorBoneContactMonitor)
    (cs : List Call) (hC : 0 < K.ConcatenateIfSmaller) (hD : 0 ≤ K.ConcatenateIfSmallerDelay)
    (hfresh : m.Fresh) :
    ((∀ c ∈ cs, c.IsFinish = false) →
      ((ApplyAll K m cs).1.RecentlyEndedGraspOverlapEvents ≠ [] ↔
        IsTimerActive (ApplyAll K m cs).1.GraspDelayTimerHandle = true) ∧
      ((ApplyAll K m cs).1.RecentlyEndedContactOverlapEvents ≠ [] ↔
        IsTimerActive (ApplyAll K m cs).1.ContactDelayTimerHandle = true)) ∧
    PendingHaveTimer (ApplyAll K m cs).1 := by
  have hg : 0 < K.ConcatenateIfSmaller * (11 / 10) := by linarith
  have hs : 0 < K.ConcatenateIfSmaller + K.ConcatenateIfSmallerDelay := by linarith
  obtain ⟨_, hGQ, hCQ, hGT, hCT⟩ := hfresh
  have h1 : PendingHaveTimer m := ⟨fun hc => absurd hGQ hc, fun hc => absurd hCQ hc⟩
  have h2 : TimersHavePending m := by
    constructor
    · intro hc
      simp [hGT, IsTimerActive] at hc
    · intro hc
      simp [hCT, IsTimerActive] at hc
  have p1 := ApplyAll_PendingHaveTimer K hg hs cs m h1
  refine ⟨?_, p1⟩
  intro hcs
  have p2 := ApplyAll_TimersHavePending K hg hs cs m hcs h2
  exact ⟨⟨p1.1, p2.1⟩, ⟨p1.2, p2.2⟩⟩

/-- The cup is touched and grasped at 0 s and released at 1 s; the grasp timer fires at
1.275 s. -/
theorem timer_pending_iff_end_pending_witness :
    ((ApplyAll QuarterSecond StartedMonitor
        [.Engine (.GraspOverlapBegin Cup 0), .Engine (.ContactOverlapBegin Cup 0),
         .Engine (.GraspOverlapEnd Cup 1), .Engine (.ContactOverlapEnd Cup 1),
         .Engine (.GraspDelayTimer (51 / 40))]).1.RecentlyEndedGraspOverlapEvents ≠ [] ↔
      IsTimerActive (ApplyAll QuarterSecond StartedMonitor
        [.Engine (.GraspOverlapBegin Cup 0), .Engine (.ContactOverlapBegin Cup 0),
         .Engine (.GraspOverlapEnd Cup 1), .Engine (.ContactOverlapEnd Cup 1),
         .Engine (.GraspDelayTimer (51 / 40))]).1.GraspDelayTimerHandle = true) ∧
    ((ApplyAll QuarterSecond StartedMonitor
        [.Engine (.GraspOverlapBegin Cup 0), .Engine (.ContactOverlapBegin Cup 0),
         .Engine (.GraspOverlapEnd Cup 1), .Engine (.ContactOverlapEnd Cup 1),
         .Engine (.GraspDelayTimer (51 / 40))]).1.RecentlyEndedContactOverlapEvents ≠ [] ↔
      IsTimerActive (ApplyAll QuarterSecond StartedMonitor
        [.Engine (.GraspOverlapBegin Cup 0), .Engine (.ContactOverlapBegin Cup 0),
         .Engine (.GraspOverlapEnd Cup 1), .Engine (.ContactOverlapEnd Cup 1),
         .Engine (.GraspDelayTimer (51 / 40))]).1.ContactDelayTimerHandle = true) :=
  (timer_pending_iff_end_pending QuarterSecond StartedMonitor
    [.Engine (.GraspOverlapBegin Cup 0), .Engine (.ContactOverlapBegin Cup 0),
     .Engine (.GraspOverlapEnd Cup 1), .Engine (.ContactOverlapEnd Cup 1),
     .Engine (.GraspDelayTimer (51 / 40))] (by decide!) (by decide!) (by decide!)).1
    (by decide)

end USLManipulatorBoneContactMonitor

namespace ASLSymbolicLogger

/-! ## The symbolic logger: lifecycle -/

theorem foldl_invariant {α β : Type} (P : β → Prop) (f : β → α → β)
    (hf : ∀ b a, P b → P (f b a)) : ∀ (l : List α) (b : β), P b → P (l.foldl f b)
  | [], _, h => h
  | a :: l, b, h => foldl_invariant P f hf l (f b a) (hf b a h)

/-- The lifecycle flags and the parameters are the same in the two loggers. -/
theorem InitContactMonitorsStep_flags (W : UWorld) (acc : Result) (Itr : UShapeComponent) :
    (InitContactMonitorsStep W acc Itr).1.bIsInit = acc.1.bIsInit ∧
    (InitContactMonitorsStep W acc Itr).1.bIsStarted = acc.1.bIsStarted ∧
    (InitContactMonitorsStep W acc Itr).1.bIsFinished = acc.1.bIsFinished ∧
    (InitContactMonitorsStep W acc Itr).1.LoggerParameters = acc.1.LoggerParameters := by
  unfold InitContactMonitorsStep
  split
  · split
    · split <;> exact ⟨rfl, rfl, rfl, rfl⟩
    · exact ⟨rfl, rfl, rfl, rfl⟩
  · exact ⟨rfl, rfl, rfl, rfl⟩

theorem InitContactMonitors_flags (W : UWorld) (L : ASLSymbolicLogger) :
    (InitContactMonitors W L).1.bIsInit = L.bIsInit ∧
    (InitContactMonitors W L).1.bIsStarted = L.bIsStarted ∧
    (InitContactMonitors W L).1.bIsFinished = L.bIsFinished ∧
    (InitContactMonitors W L).1.LoggerParameters = L.LoggerParameters := by
  unfold InitContactMonitors
  apply foldl_invariant
    (fun b : Result => b.1.bIsInit = L.bIsInit ∧ b.1.bIsStarted = L.bIsStarted ∧
      b.1.bIsFinished = L.bIsFinished ∧ b.1.LoggerParameters = L.LoggerParameters)
  · intro b a hb
    obtain ⟨h1, h2, h3, h4⟩ := InitContactMonitorsStep_flags W b a
    exact ⟨h1.trans hb.1, h2.trans hb.2.1, h3.trans hb.2.2.1, h4.trans hb.2.2.2⟩
  · exact ⟨rfl, rfl, rfl, rfl⟩

theorem InitManipulatorContactMonitorsStep_flags (W : UWorld) (acc : Result)
    (Itr : USLManipulatorListener) :
    (InitManipulatorContactMonitorsStep W acc Itr).1.bIsInit = acc.1.bIsInit ∧
    (InitManipulatorContactMonitorsStep W acc Itr).1.bIsStarted = acc.1.bIsStarted ∧
    (InitManipulatorContactMonitorsStep W acc Itr).1.bIsFinished = acc.1.bIsFinished ∧
    (InitManipulatorContactMonitorsStep W acc Itr).1.LoggerParameters =
      acc.1.LoggerParameters := by
  unfold InitManipulatorContactMonitorsStep
  split
  · split
    · dsimp only
      split <;> split <;> (try split) <;> exact ⟨rfl, rfl, rfl, rfl⟩
    · exact ⟨rfl, rfl, rfl, rfl⟩
  · exact ⟨rfl, rfl, rfl, rfl⟩

theorem InitManipulatorContactMonitors_flags (W : UWorld) (L : ASLSymbolicLogger) :
    (InitManipulatorContactMonitors W L).1.bIsInit = L.bIsInit ∧
    (InitManipulatorContactMonitors W L).1.bIsStarted = L.bIsStarted ∧
    (InitManipulatorContactMonitors W L).1.bIsFinished = L.bIsFinished ∧
    (InitManipulatorContactMonitors W L).1.LoggerParameters = L.LoggerParameters := by
  unfold InitManipulatorContactMonitors
  apply foldl_invariant
    (fun b : Result => b.1.bIsInit = L.bIsInit ∧ b.1.bIsStarted = L.bIsStarted ∧
      b.1.bIsFinished = L.bIsFinished ∧ b.1.LoggerParameters = L.LoggerParameters)
  · intro b a hb
    obtain ⟨h1, h2, h3, h4⟩ := InitManipulatorContactMonitorsStep_flags W b a
    exact ⟨h1.trans hb.1, h2.trans hb.2.1, h3.trans hb.2.2.1, h4.trans hb.2.2.2⟩
  · exact ⟨rfl, rfl, rfl, rfl⟩

theorem SetupMonitors_flags (W : UWorld) (L : ASLSymbolicLogger) :
    (SetupMonitors W L).1.bIsInit = L.bIsInit ∧
    (SetupMonitors W L).1.bIsStarted = L.bIsStarted ∧
    (SetupMonitors W L).1.bIsFinished = L.bIsFinished ∧
    (SetupMonitors W L).1.LoggerParameters = L.LoggerParameters := by
  obtain ⟨c1, c2, c3, c4⟩ := InitContactMonitors_flags W L
  obtain ⟨d1, d2, d3, d4⟩ := InitManipulatorContactMonitors_flags W (InitContactMonitors W L).1
  obtain ⟨e1, e2, e3, e4⟩ := InitManipulatorContactMonitors_flags W L
  unfold SetupMonitors
  simp only [InitManipulatorFixationMonitors, InitSlicingMonitors]
  split
  · exact ⟨d1.trans c1, d2.trans c2, d3.trans c3, d4.trans c4⟩
  · cases hc : L.LoggerParameters.bContact <;> cases hg : L.LoggerParameters.bGrasp
    · simp [hc, hg]
    · simp only [hc, hg, Bool.false_eq_true, if_false, Bool.or_false, if_true, ite_self]
      exact ⟨e1, e2, e3, e4⟩
    · simp only [hc, c4, if_true, Bool.or_true, ite_self]
      exact ⟨d1.trans c1, d2.trans c2, d3.trans c3, d4.trans c4⟩
    · simp only [hc, c4, if_true, Bool.or_true, ite_self]
      exact ⟨d1.trans c1, d2.trans c2, d3.trans c3, d4.trans c4⟩

theorem SetIndividualManager_flags (W : UWorld) (L : ASLSymbolicLogger) :
    (SetIndividualManager W L).1.bIsInit = L.bIsInit ∧
    (SetIndividualManager W L).1.bIsStarted = L.bIsStarted ∧
    (SetIndividualManager W L).1.bIsFinished = L.bIsFinished := by
  unfold SetIndividualManager
  split
  · exact ⟨rfl, rfl, rfl⟩
  · dsimp only
    exact foldl_invariant
      (fun b : ASLSymbolicLogger => b.bIsInit = L.bIsInit ∧ b.bIsStarted = L.bIsStarted ∧
        b.bIsFinished = L.bIsFinished) _
      (by
        intro b a hb
        split
        · exact hb
        · exact hb) W.IndividualManagers L ⟨rfl, rfl, rfl⟩

/-- `InitImpl` touches neither `bIsStarted` nor `bIsFinished`. -/
theorem InitImpl_flags (W : UWorld) (L : ASLSymbolicLogger) :
    (InitImpl W L).1.bIsStarted = L.bIsStarted ∧
    (InitImpl W L).1.bIsFinished = L.bIsFinished := by
  unfold InitImpl
  split
  · exact ⟨rfl, rfl⟩
  · dsimp only
    generalize hL2 : (if (!(if (!L.LocationParameters.bUseCustomTaskId) = true then
        ({ L with LocationParameters :=
            { L.LocationParameters with TaskId := W.Guids.headD "" } }, W.Guids.tail)
        else (L, W.Guids)).1.LocationParameters.bUseCustomEpisodeId) = true then _ else _) = L2
    have hflags : L2.1.bIsStarted = L.bIsStarted ∧ L2.1.bIsFinished = L.bIsFinished := by
      rw [← hL2]
      split <;> split <;> exact ⟨rfl, rfl⟩
    obtain ⟨_, s2, s3⟩ := SetIndividualManager_flags W L2.1
    split
    · exact ⟨s2.trans hflags.1, s3.trans hflags.2⟩
    · split
      · exact ⟨s2.trans hflags.1, s3.trans hflags.2⟩
      · split
        · exact ⟨s2.trans hflags.1, s3.trans hflags.2⟩
        · simp only [InitROSPublisher, ite_self]
          obtain ⟨_, m2, m3, _⟩ := SetupMonitors_flags W
            { (SetIndividualManager W L2.1).1 with
              ExperimentDoc := some (CreateEventsDocTemplate L2.2
                ESLOwlExperimentTemplate.Default
                (SetIndividualManager W L2.1).1.LocationParameters.EpisodeId).1 }
          exact ⟨m2.trans (s2.trans hflags.1), m3.trans (s3.trans hflags.2)⟩

/-- `ReachListeners`, `PickAndPlaceListeners` and `ContainerListeners` are the same in
the two loggers. -/
theorem InitContactMonitors_listeners (W : UWorld) (L : ASLSymbolicLogger) :
    (InitContactMonitors W L).1.ReachListeners = L.ReachListeners ∧
    (InitContactMonitors W L).1.PickAndPlaceListeners = L.PickAndPlaceListeners ∧
    (InitContactMonitors W L).1.ContainerListeners = L.ContainerListeners := by
  unfold InitContactMonitors
  apply foldl_invariant
    (fun b : Result => b.1.ReachListeners = L.ReachListeners ∧
      b.1.PickAndPlaceListeners = L.PickAndPlaceListeners ∧
      b.1.ContainerListeners = L.ContainerListeners)
  · intro b a hb
    unfold InitContactMonitorsStep
    split
    · split
      · split <;> exact hb
      · exact hb
    · exact hb
  · exact ⟨rfl, rfl, rfl⟩

theorem InitManipulatorContactMonitors_listeners (W : UWorld) (L : ASLSymbolicLogger) :
    (InitManipulatorContactMonitors W L).1.ReachListeners = L.ReachListeners ∧
    (InitManipulatorContactMonitors W L).1.PickAndPlaceListeners = L.PickAndPlaceListeners ∧
    (InitManipulatorContactMonitors W L).1.ContainerListeners = L.ContainerListeners := by
  unfold InitManipulatorContactMonitors
  apply foldl_invariant
    (fun b : Result => b.1.ReachListeners = L.ReachListeners ∧
      b.1.PickAndPlaceListeners = L.PickAndPlaceListeners ∧
      b.1.ContainerListeners = L.ContainerListeners)
  · intro b a hb
    unfold InitManipulatorContactMonitorsStep
    split
    · split
      · dsimp only
        split <;> split <;> (try split) <;> exact hb
      · exact hb
    · exact hb
  · exact ⟨rfl, rfl, rfl⟩

theorem SetupMonitors_listeners (W : UWorld) (L : ASLSymbolicLogger) :
    (SetupMonitors W L).1.ReachListeners = L.ReachListeners ∧
    (SetupMonitors W L).1.PickAndPlaceListeners = L.PickAndPlaceListeners ∧
    (SetupMonitors W L).1.ContainerListeners = L.ContainerListeners := by
  obtain ⟨_, _, _, c4⟩ := InitContactMonitors_flags W L
  obtain ⟨c1, c2, c3⟩ := InitContactMonitors_listeners W L
  obtain ⟨d1, d2, d3⟩ := InitManipulatorContactMonitors_listeners W (InitContactMonitors W L).1
  obtain ⟨e1, e2, e3⟩ := InitManipulatorContactMonitors_listeners W L
  unfold SetupMonitors
  simp only [InitManipulatorFixationMonitors, InitSlicingMonitors]
  split
  · exact ⟨d1.trans c1, d2.trans c2, d3.trans c3⟩
  · cases hc : L.LoggerParameters.bContact <;> cases hg : L.LoggerParameters.bGrasp
    · simp [hc, hg]
    · simp only [hc, hg, Bool.false_eq_true, if_false, Bool.or_false, if_true, ite_self]
      exact ⟨e1, e2, e3⟩
    · simp only [hc, c4, if_true, Bool.or_true, ite_self]
      exact ⟨d1.trans c1, d2.trans c2, d3.trans c3⟩
    · simp only [hc, c4, if_true, Bool.or_true, ite_self]
      exact ⟨d1.trans c1, d2.trans c2, d3.trans c3⟩

theorem SetIndividualManager_listeners (W : UWorld) (L : ASLSymbolicLogger) :
    (SetIndividualManager W L).1.ReachListeners = L.ReachListeners ∧
    (SetIndividualManager W L).1.PickAndPlaceListeners = L.PickAndPlaceListeners ∧
    (SetIndividualManager W L).1.ContainerListeners = L.ContainerListeners := by
  unfold SetIndividualManager
  split
  · exact ⟨rfl, rfl, rfl⟩
  · dsimp only
    exact foldl_invariant
      (fun b : ASLSymbolicLogger => b.ReachListeners = L.ReachListeners ∧
        b.PickAndPlaceListeners = L.PickAndPlaceListeners ∧
        b.ContainerListeners = L.ContainerListeners) _
      (by
        intro b a hb
        split
        · exact hb
        · exact hb) W.IndividualManagers L ⟨rfl, rfl, rfl⟩

/-- `InitImpl` adds nothing to `ReachListeners`, `PickAndPlaceListeners` and
`ContainerListeners`. -/
theorem InitImpl_listeners (W : UWorld) (L : ASLSymbolicLogger) :
    (InitImpl W L).1.ReachListeners = L.ReachListeners ∧
    (InitImpl W L).1.PickAndPlaceListeners = L.PickAndPlaceListeners ∧
    (InitImpl W L).1.ContainerListeners = L.ContainerListeners := by
  unfold InitImpl
  split
  · exact ⟨rfl, rfl, rfl⟩
  · dsimp only
    generalize hL2 : (if (!(if (!L.LocationParameters.bUseCustomTaskId) = true then
        ({ L with LocationParameters :=
            { L.LocationParameters with TaskId := W.Guids.headD "" } }, W.Guids.tail)
        else (L, W.Guids)).1.LocationParameters.bUseCustomEpisodeId) = true then _ else _) = L2
    have hflags : L2.1.ReachListeners = L.ReachListeners ∧
        L2.1.PickAndPlaceListeners = L.PickAndPlaceListeners ∧
        L2.1.ContainerListeners = L.ContainerListeners := by
      rw [← hL2]
      split <;> split <;> exact ⟨rfl, rfl, rfl⟩
    obtain ⟨s1, s2, s3⟩ := SetIndividualManager_listeners W L2.1
    split
    · exact ⟨s1.trans hflags.1, s2.trans hflags.2.1, s3.trans hflags.2.2⟩
    · split
      · exact ⟨s1.trans hflags.1, s2.trans hflags.2.1, s3.trans hflags.2.2⟩
      · split
        · exact ⟨s1.trans hflags.1, s2.trans hflags.2.1, s3.trans hflags.2.2⟩
        · simp only [InitROSPublisher, ite_self]
          obtain ⟨m1, m2, m3⟩ := SetupMonitors_listeners W
            { (SetIndividualManager W L2.1).1 with
              ExperimentDoc := some (CreateEventsDocTemplate L2.2
                ESLOwlExperimentTemplate.Default
                (SetIndividualManager W L2.1).1.LocationParameters.EpisodeId).1 }
          exact ⟨m1.trans (s1.trans hflags.1), m2.trans (s2.trans hflags.2.1),
            m3.trans (s3.trans hflags.2.2)⟩

theorem StartImpl_flags (L : ASLSymbolicLogger) :
    (StartImpl L).1.bIsInit = L.bIsInit ∧ (StartImpl L).1.bIsFinished = L.bIsFinished ∧
    ((StartImpl L).1.bIsStarted = true → L.bIsStarted = true ∨ L.bIsInit = true) := by
  unfold StartImpl
  split
  · rename_i h
    exact ⟨rfl, rfl, fun _ => Or.inl h⟩
  · split
    · exact ⟨rfl, rfl, fun h => Or.inl h⟩
    · rename_i h
      exact ⟨rfl, rfl, fun _ => Or.inr (by simpa using h)⟩

/-- What `FinishImpl` does on a logger that is not finished and is initialized or
started. -/
theorem FinishImpl_of_live (W : UWorld) (L : ASLSymbolicLogger) (bForced : Bool)
    (hfin : L.bIsFinished = false) (hlive : L.bIsInit = true ∨ L.bIsStarted = true) :
    FinishImpl W L bForced =
      ({ L with
          EventHandlers := []
          ContactShapes := []
          GraspListeners := []
          ReachListeners := []
          bIsStarted := false
          bIsInit := false
          bIsFinished := true },
        L.EventHandlers.map
            (fun EvHandler => EngineCall.EventHandlerFinish EvHandler L.EndTime bForced) ++
          L.ContactShapes.map EngineCall.ContactShapeFinish ++
          L.GraspListeners.map
            (fun SLManipulatorListener =>
              EngineCall.ManipulatorListenerFinish SLManipulatorListener bForced) ++
          L.ReachListeners.map EngineCall.ReachListenerStart ++
          (match L.ExperimentDoc with
            | some _ =>
              L.FinishedEvents.map EngineCall.AddToOwlDoc ++
                [EngineCall.AddTimepointIndividuals, EngineCall.AddObjectIndividuals,
                  EngineCall.AddExperimentIndividual]
            | none => []) ++
          WriteToFile W L) := by
  unfold FinishImpl
  rw [if_neg (by simp [hfin])]
  rw [if_neg (by rcases hlive with h | h <;> simp [h])]
  rfl

theorem FinishImpl_of_not_live (W : UWorld) (L : ASLSymbolicLogger) (bForced : Bool)
    (h : L.bIsFinished = true ∨ (L.bIsInit = false ∧ L.bIsStarted = false)) :
    FinishImpl W L bForced = (L, []) := by
  unfold FinishImpl
  rcases h with h | ⟨h1, h2⟩
  · simp [h]
  · simp [h1, h2]

theorem FinishImpl_flags (W : UWorld) (L : ASLSymbolicLogger) (bForced : Bool) :
    (L.bIsFinished = true → (FinishImpl W L bForced).1.bIsFinished = true) ∧
    ((FinishImpl W L bForced).1.bIsInit = true → L.bIsInit = true) ∧
    ((FinishImpl W L bForced).1.bIsStarted = true → L.bIsStarted = true) := by
  by_cases h : L.bIsFinished = false ∧ (L.bIsInit = true ∨ L.bIsStarted = true)
  · rw [FinishImpl_of_live W L bForced h.1 h.2]
    refine ⟨fun _ => rfl, ?_, ?_⟩ <;> intro hc <;> simp at hc
  · have h2 : L.bIsFinished = true ∨ (L.bIsInit = false ∧ L.bIsStarted = false) := by
      cases hf : L.bIsFinished <;> cases hi : L.bIsInit <;> cases hs : L.bIsStarted <;>
        simp_all
    rw [FinishImpl_of_not_live W L bForced h2]
    exact ⟨fun hf => hf, fun hi => hi, fun hs => hs⟩

/-- A finished logger stays finished under every call. -/
theorem Do_bIsFinished (L : ASLSymbolicLogger) (o : Op) (h : L.bIsFinished = true) :
    (Do L o).1.bIsFinished = true := by
  cases o with
  | InitImpl W => exact (InitImpl_flags W L).2.trans h
  | StartImpl => exact (StartImpl_flags L).2.1.trans h
  | FinishImpl W bForced => exact (FinishImpl_flags W L bForced).1 h
  | Init W P Q =>
    simp only [Do, Init]
    split
    · exact h
    · exact (InitImpl_flags W _).2.trans h
  | Start =>
    simp only [Do, Start]
    split
    · exact h
    · exact (StartImpl_flags L).2.1.trans h
  | Finish W bForced bForcedDefault =>
    simp only [Do, Finish]
    split
    · exact h
    · exact (FinishImpl_flags W L bForcedDefault).1 h
  | SemanticEventFinishedCallback Ev => exact h

theorem DoAll_bIsFinished :
    ∀ (os : List Op) (L : ASLSymbolicLogger),
      L.bIsFinished = true → (DoAll L os).1.bIsFinished = true
  | [], _, h => h
  | o :: os, L, h => DoAll_bIsFinished os (Do L o).1 (Do_bIsFinished L o h)

/-- Without a call of `InitImpl` or `Init`, a logger that is neither initialized nor
started stays so. -/
theorem Do_not_live (L : ASLSymbolicLogger) (o : Op) (ho : o.IsInit = false)
    (hi : L.bIsInit = false) (hs : L.bIsStarted = false) :
    (Do L o).1.bIsInit = false ∧ (Do L o).1.bIsStarted = false := by
  have hstart : StartImpl L = (L, []) := by
    unfold StartImpl
    simp [hi, hs]
  cases o with
  | InitImpl W => simp [Op.IsInit] at ho
  | Init W P Q => simp [Op.IsInit] at ho
  | StartImpl =>
    simp only [Do, hstart]
    exact ⟨hi, hs⟩
  | FinishImpl W bForced =>
    simp only [Do]
    rw [FinishImpl_of_not_live W L bForced (Or.inr ⟨hi, hs⟩)]
    exact ⟨hi, hs⟩
  | Start =>
    simp only [Do, Start, hstart, ite_self]
    exact ⟨hi, hs⟩
  | Finish W bForced bForcedDefault =>
    simp only [Do, Finish]
    rw [FinishImpl_of_not_live W L bForcedDefault (Or.inr ⟨hi, hs⟩)]
    simp only [ite_self]
    exact ⟨hi, hs⟩
  | SemanticEventFinishedCallback Ev => exact ⟨hi, hs⟩

theorem DoAll_not_live :
    ∀ (os : List Op) (L : ASLSymbolicLogger),
      (∀ o ∈ os, o.IsInit = false) → L.bIsInit = false → L.bIsStarted = false →
      (DoAll L os).1.bIsInit = false ∧ (DoAll L os).1.bIsStarted = false
  | [], _, _, hi, hs => ⟨hi, hs⟩
  | o :: os, L, ho, hi, hs => by
    obtain ⟨h1, h2⟩ := Do_not_live L o (ho o (List.mem_cons_self o os)) hi hs
    exact DoAll_not_live os (Do L o).1 (fun d hd => ho d (List.mem_cons_of_mem o hd)) h1 h2

/-- No call on the logger adds to `ReachListeners`, `PickAndPlaceListeners` or
`ContainerListeners`. -/
theorem Do_listeners (L : ASLSymbolicLogger) (o : Op)
    (h : L.ReachListeners = [] ∧ L.PickAndPlaceListeners = [] ∧ L.ContainerListeners = []) :
    (Do L o).1.ReachListeners = [] ∧ (Do L o).1.PickAndPlaceListeners = [] ∧
    (Do L o).1.ContainerListeners = [] := by
  have hstart : (StartImpl L).1.ReachListeners = [] ∧
      (StartImpl L).1.PickAndPlaceListeners = [] ∧ (StartImpl L).1.ContainerListeners = [] := by
    unfold StartImpl
    split
    · exact h
    · split <;> exact h
  have hfinish : ∀ W b, (FinishImpl W L b).1.ReachListeners = [] ∧
      (FinishImpl W L b).1.PickAndPlaceListeners = [] ∧
      (FinishImpl W L b).1.ContainerListeners = [] := by
    intro W b
    unfold FinishImpl
    split
    · exact h
    · split
      · exact h
      · exact ⟨rfl, h.2.1, h.2.2⟩
  cases o with
  | InitImpl W =>
    obtain ⟨i1, i2, i3⟩ := InitImpl_listeners W L
    exact ⟨i1.trans h.1, i2.trans h.2.1, i3.trans h.2.2⟩
  | StartImpl => exact hstart
  | FinishImpl W bForced => exact hfinish W bForced
  | Init W P Q =>
    simp only [Do, Init]
    split
    · exact h
    · obtain ⟨i1, i2, i3⟩ := InitImpl_listeners W
        { L with LoggerParameters := P, LocationParameters := Q }
      exact ⟨i1.trans h.1, i2.trans h.2.1, i3.trans h.2.2⟩
  | Start =>
    simp only [Do, Start]
    split
    · exact h
    · exact hstart
  | Finish W bForced bForcedDefault =>
    simp only [Do, Finish]
    split
    · exact h
    · exact hfinish W bForcedDefault
  | SemanticEventFinishedCallback Ev => exact h

theorem DoAll_listeners :
    ∀ (os : List Op) (L : ASLSymbolicLogger),
      L.ReachListeners = [] ∧ L.PickAndPlaceListeners = [] ∧ L.ContainerListeners = [] →
      (DoAll L os).1.ReachListeners = [] ∧ (DoAll L os).1.PickAndPlaceListeners = [] ∧
      (DoAll L os).1.ContainerListeners = []
  | [], _, h => h
  | o :: os, L, h => DoAll_listeners os (Do L o).1 (Do_listeners L o h)

/-! ## The symbolic logger: the handlers of the manipulator listeners -/

theorem InitManipulatorContactMonitorsStep_handlers (W : UWorld) (acc : Result)
    (Itr : USLManipulatorListener) (h : ISLEventHandler) :
    (h ∈ acc.1.EventHandlers → h ∈ (InitManipulatorContactMonitorsStep W acc Itr).1.EventHandlers)
    ∧
    (h ∈ (InitManipulatorContactMonitorsStep W acc Itr).1.EventHandlers →
      h ∈ acc.1.EventHandlers ∨ h.Class = ESLEventHandlerClass.FSLGraspEventHandler ∨
        (h.Class = ESLEventHandlerClass.FSLManipulatorContactEventHandler ∧
          acc.1.LoggerParameters.bContact = true)) ∧
    (IsValidAndLoaded W Itr.Owner = true → Itr.bInit = true → Itr.bGraspHandlerIsInit = true →
      (⟨ESLEventHandlerClass.FSLGraspEventHandler, Itr.ptr⟩ : ISLEventHandler) ∈
        (InitManipulatorContactMonitorsStep W acc Itr).1.EventHandlers) := by
  unfold InitManipulatorContactMonitorsStep
  cases hv : IsValidAndLoaded W Itr.Owner <;> cases hi : Itr.bInit <;>
    cases hg : Itr.bGraspHandlerIsInit <;> cases hc : acc.1.LoggerParameters.bContact <;>
    cases hm : Itr.bManipulatorContactHandlerIsInit <;>
    simp [hc] <;> aesop

theorem InitManipulatorContactMonitors_fold (W : UWorld) (h : ISLEventHandler) :
    ∀ (ls : List USLManipulatorListener) (acc : Result),
      (h ∈ acc.1.EventHandlers →
        h ∈ (ls.foldl (InitManipulatorContactMonitorsStep W) acc).1.EventHandlers) ∧
      (h ∈ (ls.foldl (InitManipulatorContactMonitorsStep W) acc).1.EventHandlers →
        h ∈ acc.1.EventHandlers ∨ h.Class = ESLEventHandlerClass.FSLGraspEventHandler ∨
          (h.Class = ESLEventHandlerClass.FSLManipulatorContactEventHandler ∧
            acc.1.LoggerParameters.bContact = true))
  | [], _ => ⟨id, fun hh => Or.inl hh⟩
  | Itr :: ls, acc => by
    obtain ⟨s1, s2, _⟩ := InitManipulatorContactMonitorsStep_handlers W acc Itr h
    obtain ⟨i1, i2⟩ := InitManipulatorContactMonitors_fold W h ls
      (InitManipulatorContactMonitorsStep W acc Itr)
    have hP := (InitManipulatorContactMonitorsStep_flags W acc Itr).2.2.2
    simp only [List.foldl_cons]
    refine ⟨fun hh => i1 (s1 hh), fun hh => ?_⟩
    rcases i2 hh with h1 | h1 | h1
    · exact s2 h1
    · exact Or.inr (Or.inl h1)
    · rw [hP] at h1
      exact Or.inr (Or.inr h1)

theorem InitManipulatorContactMonitors_registers (W : UWorld) (Itr : USLManipulatorListener)
    (hv : IsValidAndLoaded W Itr.Owner = true) (hi : Itr.bInit = true)
    (hg : Itr.bGraspHandlerIsInit = true) :
    ∀ (ls : List USLManipulatorListener) (acc : Result), Itr ∈ ls →
      (⟨ESLEventHandlerClass.FSLGraspEventHandler, Itr.ptr⟩ : ISLEventHandler) ∈
        (ls.foldl (InitManipulatorContactMonitorsStep W) acc).1.EventHandlers
  | [], _, hmem => by simp at hmem
  | x :: ls, acc, hmem => by
    simp only [List.foldl_cons]
    rcases List.mem_cons.mp hmem with hx | hx
    · subst hx
      exact (InitManipulatorContactMonitors_fold W
          ⟨ESLEventHandlerClass.FSLGraspEventHandler, Itr.ptr⟩ ls _).1
        ((InitManipulatorContactMonitorsStep_handlers W acc Itr
          ⟨ESLEventHandlerClass.FSLGraspEventHandler, Itr.ptr⟩).2.2 hv hi hg)
    · exact InitManipulatorContactMonitors_registers W Itr hv hi hg ls _ hx

/-! ## The claims on the symbolic logger -/

/-- C21, as stated, fails: the constructed logger is initialized, started and finished
in the kitchen; it is finished and neither initialized nor started. `InitImpl` then
initializes it again and `StartImpl` starts it again. -/
theorem finished_logger_is_initialized_again :
    (DoAll Constructed
      [.InitImpl Kitchen, .StartImpl, .FinishImpl Kitchen false]).1.bIsFinished = true ∧
    (DoAll Constructed
      [.InitImpl Kitchen, .StartImpl, .FinishImpl Kitchen false]).1.bIsInit = false ∧
    (DoAll Constructed
      [.InitImpl Kitchen, .StartImpl, .FinishImpl Kitchen false]).1.bIsStarted = false ∧
    (DoAll Constructed
      [.InitImpl Kitchen, .StartImpl, .FinishImpl Kitchen false,
       .InitImpl Kitchen]).1.bIsInit = true ∧
    (DoAll Constructed
      [.InitImpl Kitchen, .StartImpl, .FinishImpl Kitchen false,
       .InitImpl Kitchen, .StartImpl]).1.bIsStarted = true ∧
    (DoAll Constructed
      [.InitImpl Kitchen, .StartImpl, .FinishImpl Kitchen false,
       .InitImpl Kitchen, .StartImpl]).1.bIsFinished = true := by
  decide

/-- C21, amended: once `bIsFinished` is set it stays set under every sequence of calls
of `InitImpl`, `StartImpl`, `FinishImpl` and their public wrappers, and every later
`FinishImpl` changes nothing and calls nothing; as long as neither `InitImpl` nor `Init`
is called, a finished logger that is neither initialized nor started stays so. -/
theorem finished_logger_stays_finished (L : ASLSymbolicLogger) (os : List Op) (W : UWorld)
    (bForced : Bool) (hfin : L.bIsFinished = true) :
    (DoAll L os).1.bIsFinished = true ∧
    FinishImpl W (DoAll L os).1 bForced = ((DoAll L os).1, []) ∧
    ((∀ o ∈ os, o.IsInit = false) → L.bIsInit = false → L.bIsStarted = false →
      (DoAll L os).1.bIsInit = false ∧ (DoAll L os).1.bIsStarted = false) :=
  ⟨DoAll_bIsFinished os L hfin,
    FinishImpl_of_not_live W _ bForced (Or.inl (DoAll_bIsFinished os L hfin)),
    DoAll_not_live os L⟩

/-- The finished logger is started and finished again. -/
theorem finished_logger_stays_finished_witness :
    (DoAll
      (DoAll Constructed [.InitImpl Kitchen, .StartImpl, .FinishImpl Kitchen false]).1
      [.StartImpl, .Start, .FinishImpl Kitchen true]).1.bIsInit = false ∧
    (DoAll
      (DoAll Constructed [.InitImpl Kitchen, .StartImpl, .FinishImpl Kitchen false]).1
      [.StartImpl, .Start, .FinishImpl Kitchen true]).1.bIsStarted = false :=
  (finished_logger_stays_finished
    (DoAll Constructed [.InitImpl Kitchen, .StartImpl, .FinishImpl Kitchen false]).1
    [.StartImpl, .Start, .FinishImpl Kitchen true] Kitchen true (by decide)).2.2
    (by decide) (by decide) (by decide)

/-- C22: `FinishImpl` changes the logger or calls something if and only if the logger is
not finished and is initialized or started, and then it leaves the logger finished,
neither initialized nor started. A second `FinishImpl` after any `FinishImpl` changes no
member and calls nothing, and so does the destructor, which calls `FinishImpl(true)` only
on a logger that is no template, is not finished and is started or initialized. -/
theorem FinishImpl_is_guarded_and_idempotent (W W2 : UWorld) (L : ASLSymbolicLogger)
    (bForced bForced2 : Bool) :
    (FinishImpl W L bForced ≠ (L, []) ↔
      (L.bIsFinished = false ∧ (L.bIsInit = true ∨ L.bIsStarted = true))) ∧
    (L.bIsFinished = false → (L.bIsInit = true ∨ L.bIsStarted = true) →
      (FinishImpl W L bForced).1.bIsFinished = true ∧
      (FinishImpl W L bForced).1.bIsInit = false ∧
      (FinishImpl W L bForced).1.bIsStarted = false) ∧
    FinishImpl W2 (FinishImpl W L bForced).1 bForced2 = ((FinishImpl W L bForced).1, []) ∧
    Destructor W2 (FinishImpl W L bForced).1 = ((FinishImpl W L bForced).1, []) ∧
    Destructor W L =
      (if L.bIsTemplate = false ∧ L.bIsFinished = false ∧
          (L.bIsStarted = true ∨ L.bIsInit = true) then FinishImpl W L true
       else (L, [])) := by
  have hsecond : (FinishImpl W L bForced).1.bIsFinished = true ∨
      ((FinishImpl W L bForced).1.bIsInit = false ∧
        (FinishImpl W L bForced).1.bIsStarted = false) := by
    by_cases h : L.bIsFinished = false ∧ (L.bIsInit = true ∨ L.bIsStarted = true)
    · rw [FinishImpl_of_live W L bForced h.1 h.2]
      exact Or.inl rfl
    · have h2 : L.bIsFinished = true ∨ (L.bIsInit = false ∧ L.bIsStarted = false) := by
        cases hf : L.bIsFinished <;> cases hi : L.bIsInit <;> cases hs : L.bIsStarted <;>
          simp_all
      rw [FinishImpl_of_not_live W L bForced h2]
      exact h2
  refine ⟨?_, ?_, FinishImpl_of_not_live W2 _ bForced2 hsecond, ?_, ?_⟩
  · constructor
    · intro hne
      by_contra hcon
      apply hne
      apply FinishImpl_of_not_live
      cases hf : L.bIsFinished <;> cases hi : L.bIsInit <;> cases hs : L.bIsStarted <;>
        simp_all
    · rintro ⟨hf, hl⟩ heq
      have h := congrArg (fun r : Result => r.1.bIsFinished) heq
      rw [FinishImpl_of_live W L bForced hf hl] at h
      simp [hf] at h
  · intro hf hl
    rw [FinishImpl_of_live W L bForced hf hl]
    exact ⟨rfl, rfl, rfl⟩
  · unfold Destructor
    split
    · exact FinishImpl_of_not_live W2 _ true hsecond
    · rfl
  · unfold Destructor
    cases L.bIsTemplate <;> cases L.bIsFinished <;> cases L.bIsStarted <;> cases L.bIsInit <;>
      simp

/-- The logger that was initialized and started in the kitchen is finished. -/
theorem FinishImpl_is_guarded_and_idempotent_witness :
    (FinishImpl Kitchen (DoAll Constructed [.InitImpl Kitchen, .StartImpl]).1
      false).1.bIsFinished = true ∧
    (FinishImpl Kitchen (DoAll Constructed [.InitImpl Kitchen, .StartImpl]).1
      false).1.bIsInit = false ∧
    (FinishImpl Kitchen (DoAll Constructed [.InitImpl Kitchen, .StartImpl]).1
      false).1.bIsStarted = false :=
  (FinishImpl_is_guarded_and_idempotent Kitchen Kitchen
    (DoAll Constructed [.InitImpl Kitchen, .StartImpl]).1 false true).2.1
    (by decide) (Or.inl (by decide))

/-- C23: `ReachListeners`, `PickAndPlaceListeners` and `ContainerListeners` are empty in
a constructed logger and no function of the logger adds to them. In every state that a
logger with these three collections empty reaches by calls of its lifecycle functions,
`FinishImpl(bForced)` on a logger that is not finished and is initialized or started calls
`Finish` on every event handler first, then `Finish` on every contact shape and on every
grasp listener, and after that only adds to the document and writes the files; it calls
`Start` on nothing, and it leaves `EventHandlers` and the five collections empty. -/
theorem FinishImpl_finishes_handlers_then_listeners (L0 : ASLSymbolicLogger) (os : List Op)
    (W : UWorld) (bForced : Bool)
    (hR : L0.ReachListeners = []) (hP : L0.PickAndPlaceListeners = [])
    (hCo : L0.ContainerListeners = [])
    (hfin : (DoAll L0 os).1.bIsFinished = false)
    (hlive : (DoAll L0 os).1.bIsInit = true ∨ (DoAll L0 os).1.bIsStarted = true) :
    (∃ rest,
      (FinishImpl W (DoAll L0 os).1 bForced).2 =
        (DoAll L0 os).1.EventHandlers.map
            (fun EvHandler =>
              EngineCall.EventHandlerFinish EvHandler (DoAll L0 os).1.EndTime bForced) ++
          (DoAll L0 os).1.ContactShapes.map EngineCall.ContactShapeFinish ++
          (DoAll L0 os).1.GraspListeners.map
            (fun SLManipulatorListener =>
              EngineCall.ManipulatorListenerFinish SLManipulatorListener bForced) ++ rest ∧
      ∀ c ∈ rest, c = EngineCall.AddTimepointIndividuals ∨ c = EngineCall.AddObjectIndividuals ∨
        c = EngineCall.AddExperimentIndividual ∨
        (∃ Ev, c = EngineCall.AddToOwlDoc Ev) ∨ (∃ Evs D E, c = EngineCall.WriteTimelines Evs D E)
        ∨ (∃ D P, c = EngineCall.SaveStringToFile D P)) ∧
    (∀ c ∈ (FinishImpl W (DoAll L0 os).1 bForced).2, c.IsStart = false) ∧
    (FinishImpl W (DoAll L0 os).1 bForced).1.EventHandlers = [] ∧
    (FinishImpl W (DoAll L0 os).1 bForced).1.ContactShapes = [] ∧
    (FinishImpl W (DoAll L0 os).1 bForced).1.GraspListeners = [] ∧
    (FinishImpl W (DoAll L0 os).1 bForced).1.ReachListeners = [] ∧
    (FinishImpl W (DoAll L0 os).1 bForced).1.PickAndPlaceListeners = [] ∧
    (FinishImpl W (DoAll L0 os).1 bForced).1.ContainerListeners = [] := by
  obtain ⟨l1, l2, l3⟩ := DoAll_listeners os L0 ⟨hR, hP, hCo⟩
  generalize DoAll L0 os = r at hfin hlive l1 l2 l3
  have hrest : ∀ c ∈ (match r.1.ExperimentDoc with
        | some _ =>
          r.1.FinishedEvents.map EngineCall.AddToOwlDoc ++
            [EngineCall.AddTimepointIndividuals, EngineCall.AddObjectIndividuals,
              EngineCall.AddExperimentIndividual]
        | none => []) ++ WriteToFile W r.1,
      c = EngineCall.AddTimepointIndividuals ∨ c = EngineCall.AddObjectIndividuals ∨
        c = EngineCall.AddExperimentIndividual ∨
        (∃ Ev, c = EngineCall.AddToOwlDoc Ev) ∨ (∃ Evs D E, c = EngineCall.WriteTimelines Evs D E)
        ∨ (∃ D P, c = EngineCall.SaveStringToFile D P) := by
    intro c hc
    rcases List.mem_append.mp hc with hc | hc
    · cases hd : r.1.ExperimentDoc with
      | none => simp [hd] at hc
      | some D =>
        simp only [hd, List.mem_append, List.mem_map, List.mem_cons, List.mem_singleton,
          List.not_mem_nil, or_false] at hc
        rcases hc with ⟨Ev, _, rfl⟩ | rfl | rfl | rfl
        · exact Or.inr (Or.inr (Or.inr (Or.inl ⟨Ev, rfl⟩)))
        · exact Or.inl rfl
        · exact Or.inr (Or.inl rfl)
        · exact Or.inr (Or.inr (Or.inl rfl))
    · unfold WriteToFile at hc
      simp only [List.mem_append] at hc
      rcases hc with hc | hc
      · split at hc
        · simp only [List.mem_singleton] at hc
          exact Or.inr (Or.inr (Or.inr (Or.inr (Or.inl ⟨_, _, _, hc⟩))))
        · simp at hc
      · split at hc
        · simp only [List.mem_singleton] at hc
          exact Or.inr (Or.inr (Or.inr (Or.inr (Or.inr ⟨_, _, hc⟩))))
        · simp at hc
  rw [FinishImpl_of_live W r.1 bForced hfin hlive]
  rw [l1, List.map_nil, List.append_nil]
  refine ⟨⟨_, by simp only [List.append_assoc], hrest⟩, ?_, rfl, rfl, rfl, rfl, l2, l3⟩
  intro c hc
  simp only [List.append_assoc, List.mem_append, List.mem_map] at hc
  rcases hc with ⟨_, _, rfl⟩ | ⟨_, _, rfl⟩ | ⟨_, _, rfl⟩ | hc
  · rfl
  · rfl
  · rfl
  · rcases hrest c (List.mem_append.mpr hc) with
      rfl | rfl | rfl | ⟨_, rfl⟩ | ⟨_, _, _, rfl⟩ | ⟨_, _, rfl⟩ <;> rfl

/-- The logger that was constructed, initialized and started in the kitchen is
finished. -/
theorem FinishImpl_finishes_handlers_then_listeners_witness :
    (FinishImpl Kitchen (DoAll Constructed [.InitImpl Kitchen, .StartImpl]).1 true).2 =
      [EngineCall.EventHandlerFinish ⟨ESLEventHandlerClass.FSLContactEventHandler, 33⟩ 0 true,
       EngineCall.EventHandlerFinish ⟨ESLEventHandlerClass.FSLGraspEventHandler, 32⟩ 0 true,
       EngineCall.ContactShapeFinish RobotShape,
       EngineCall.ManipulatorListenerFinish HandListener true,
       EngineCall.AddTimepointIndividuals, EngineCall.AddObjectIndividuals,
       EngineCall.AddExperimentIndividual,
       EngineCall.SaveStringToFile "episode" "/Game/SL/task/episode_ED.owl"] ∧
    (∀ c ∈ (FinishImpl Kitchen (DoAll Constructed [.InitImpl Kitchen, .StartImpl]).1 true).2,
      c.IsStart = false) ∧
    (FinishImpl Kitchen
      (DoAll Constructed [.InitImpl Kitchen, .StartImpl]).1 true).1.ContactShapes = [] :=
  ⟨by decide!,
    (FinishImpl_finishes_handlers_then_listeners Constructed [.InitImpl Kitchen, .StartImpl]
      Kitchen true rfl rfl rfl (by decide) (Or.inr (by decide))).2.1,
    (FinishImpl_finishes_handlers_then_listeners Constructed [.InitImpl Kitchen, .StartImpl]
      Kitchen true rfl rfl rfl (by decide) (Or.inr (by decide))).2.2.2.1⟩

/-- C24, on the code: `ASLSymbolicLogger::SetIndividualManager` keeps a valid manager that
is already set; otherwise it spawns a new manager and sets `IndividualManager` to it,
whatever managers the world holds, while `ASLVizManager::SetIndividualManager` in a world
with a valid manager takes one of the world and spawns nothing. In the kitchen, whose
manager 40 is valid, the logger spawns manager 41 and the viz manager takes manager 40. -/
theorem SetIndividualManager_spawns_beside_an_existing_manager (W : UWorld)
    (L : ASLSymbolicLogger) (V : ASLVizManager) :
    (∀ IM, L.IndividualManager = some IM →
      (IM.bIsValidLowLevel && !IM.bIsPendingKillOrUnreachable) = true →
      SetIndividualManager W L = (L, [], true)) ∧
    ((∀ IM, L.IndividualManager = some IM →
        (IM.bIsValidLowLevel && !IM.bIsPendingKillOrUnreachable) = false) →
      (SetIndividualManager W L).1.IndividualManager = some W.SpawnedIndividualManager ∧
      (SetIndividualManager W L).2.1 = [EngineCall.SpawnIndividualManager]) ∧
    ((∀ IM, V.IndividualManager = some IM →
        (IM.bIsValidLowLevel && !IM.bIsPendingKillOrUnreachable) = false) →
      (∃ Iter ∈ W.IndividualManagers,
        (Iter.bIsValidLowLevel && !Iter.bIsPendingKillOrUnreachable) = true) →
      (ASLVizManager.SetIndividualManager W V).2.1 = [] ∧
      ∃ Iter ∈ W.IndividualManagers,
        (Iter.bIsValidLowLevel && !Iter.bIsPendingKillOrUnreachable) = true ∧
        (ASLVizManager.SetIndividualManager W V).1.IndividualManager = some Iter) ∧
    (SetIndividualManager Kitchen Constructed).1.IndividualManager = some { ptr := 41 } ∧
    (SetIndividualManager Kitchen Constructed).2.1 = [EngineCall.SpawnIndividualManager] ∧
    (ASLVizManager.SetIndividualManager Kitchen ASLVizManager.Constructed).1.IndividualManager
      = some { ptr := 40 } ∧
    (ASLVizManager.SetIndividualManager Kitchen ASLVizManager.Constructed).2.1 = [] := by
  refine ⟨?_, ?_, ?_, by decide, by decide, by decide, by decide⟩
  · intro IM hIM hvalid
    unfold SetIndividualManager
    rw [hIM]
    simp only [hvalid, if_true]
  · intro hnone
    have hguard : (match L.IndividualManager with
        | some IM => IM.bIsValidLowLevel && !IM.bIsPendingKillOrUnreachable
        | none => false) = false := by
      cases hIM : L.IndividualManager with
      | none => rfl
      | some IM => exact hnone IM hIM
    unfold SetIndividualManager
    rw [hguard]
    exact ⟨rfl, rfl⟩
  · intro hnone ⟨Iter, hmem, hvalid⟩
    have hguard : (match V.IndividualManager with
        | some IM => IM.bIsValidLowLevel && !IM.bIsPendingKillOrUnreachable
        | none => false) = false := by
      cases hIM : V.IndividualManager with
      | none => rfl
      | some IM => exact hnone IM hIM
    unfold ASLVizManager.SetIndividualManager
    rw [hguard]
    cases hfind : W.IndividualManagers.find?
        (fun Iter => Iter.bIsValidLowLevel && !Iter.bIsPendingKillOrUnreachable) with
    | none =>
      have := List.find?_eq_none.mp hfind Iter hmem
      simp only [hvalid] at this
      exact absurd trivial this
    | some Found =>
      refine ⟨rfl, Found, List.mem_of_find?_eq_some hfind, ?_, rfl⟩
      have hsome := @List.find?_some ASLIndividualManager
        (fun Iter => Iter.bIsValidLowLevel && !Iter.bIsPendingKillOrUnreachable) Found
        W.IndividualManagers hfind
      exact hsome

/-- In the kitchen the logger has no manager and spawns one. -/
theorem SetIndividualManager_spawns_beside_an_existing_manager_witness :
    (∃ Iter ∈ Kitchen.IndividualManagers,
      (Iter.bIsValidLowLevel && !Iter.bIsPendingKillOrUnreachable) = true) ∧
    (SetIndividualManager Kitchen Constructed).1.IndividualManager =
      some Kitchen.SpawnedIndividualManager ∧
    (SetIndividualManager Kitchen Constructed).2.1 = [EngineCall.SpawnIndividualManager] :=
  ⟨⟨{ ptr := 40 }, by decide, by decide⟩,
    (SetIndividualManager_spawns_beside_an_existing_manager Kitchen Constructed
      ASLVizManager.Constructed).2.1 (fun IM hIM => by
        have h : Constructed.IndividualManager = none := by decide
        rw [h] at hIM
        exact absurd hIM (by simp))⟩

/-- C25, on the code: `InitManipulatorContactMonitors`, which `InitImpl` with
`bSelectedEventsOnly` runs when `bGrasp` or `bContact` is set, registers a grasp event
handler for every eligible manipulator listener whose `Init` and whose handler's `Init`
succeed, whatever `bGrasp` is, and registers a manipulator-contact event handler only when
`bContact` is set. In the kitchen with `bSelectedEventsOnly` and `bContact` set and
`bGrasp` not set, `InitImpl` registers the grasp event handler of the hand listener. -/
theorem grasp_handler_is_registered_without_bGrasp (W : UWorld) (L : ASLSymbolicLogger)
    (Itr : USLManipulatorListener) :
    (Itr ∈ W.ManipulatorListeners → IsValidAndLoaded W Itr.Owner = true → Itr.bInit = true →
      Itr.bGraspHandlerIsInit = true →
      (⟨ESLEventHandlerClass.FSLGraspEventHandler, Itr.ptr⟩ : ISLEventHandler) ∈
        (InitManipulatorContactMonitors W L).1.EventHandlers) ∧
    (∀ h ∈ (InitManipulatorContactMonitors W L).1.EventHandlers,
      h.Class = ESLEventHandlerClass.FSLManipulatorContactEventHandler →
      h ∈ L.EventHandlers ∨ L.LoggerParameters.bContact = true) ∧
    (InitImpl Kitchen
      { Constructed with
        LoggerParameters := { bSelectedEventsOnly := true, bContact := true } }).1.EventHandlers
      = [⟨ESLEventHandlerClass.FSLContactEventHandler, 33⟩,
         ⟨ESLEventHandlerClass.FSLGraspEventHandler, 32⟩,
         ⟨ESLEventHandlerClass.FSLManipulatorContactEventHandler, 32⟩] ∧
    (InitImpl Kitchen
      { Constructed with
        LoggerParameters := { bSelectedEventsOnly := true, bContact := true } }
      ).1.LoggerParameters.bGrasp = false := by
  refine ⟨?_, ?_, by decide, by decide⟩
  · intro hmem hv hi hg
    exact InitManipulatorContactMonitors_registers W Itr hv hi hg W.ManipulatorListeners
      (L, []) hmem
  · intro h hh hclass
    rcases (InitManipulatorContactMonitors_fold W h W.ManipulatorListeners (L, [])).2 hh with
      h1 | h1 | h1
    · exact Or.inl h1
    · rw [hclass] at h1
      exact absurd h1 (by decide)
    · exact Or.inr h1.2

/-- The hand listener of the kitchen, in a logger that asks for contact events only. -/
theorem grasp_handler_is_registered_without_bGrasp_witness :
    ({ Constructed with
        LoggerParameters := { bSelectedEventsOnly := true, bContact := true } }
      : ASLSymbolicLogger).LoggerParameters.bGrasp = false ∧
    (⟨ESLEventHandlerClass.FSLGraspEventHandler, HandListener.ptr⟩ : ISLEventHandler) ∈
      (InitManipulatorContactMonitors Kitchen
        { Constructed with
          LoggerParameters := { bSelectedEventsOnly := true, bContact := true } }
        ).1.EventHandlers :=
  ⟨by decide,
    (grasp_handler_is_registered_without_bGrasp Kitchen
      { Constructed with
        LoggerParameters := { bSelectedEventsOnly := true, bContact := true } }
      HandListener).1 (by decide) (by decide) (by decide) (by decide)⟩

end ASLSymbolicLogger

namespace ASLVizManager

/-! ## The viz manager: `Reset` and the markers -/

theorem RemoveAllIndividualHighlights_Markers (V : ASLVizManager) :
    (RemoveAllIndividualHighlights V).1.Markers = V.Markers := by
  unfold RemoveAllIndividualHighlights
  split <;> rfl

/-- C26, on the code: `Reset` leaves `Markers` as it is, in every state; on an
initialized manager it empties `HighlightedIndividuals`, sets the four manager
references to null and `bIsInit` to false. The constructed manager is initialized in a
world without managers and creates the marker `m1`; after `Reset` the marker is still
in `Markers`, and after the following `Init` `CreatePrimitiveMarker` refuses the id
`m1`. -/
theorem Reset_keeps_the_markers (V : ASLVizManager) :
    (Reset V).1.Markers = V.Markers ∧
    (Reset V).1.HighlightedIndividuals =
      (if V.bIsInit = true then [] else V.HighlightedIndividuals) ∧
    (Reset V).1.IndividualManager = none ∧ (Reset V).1.HighlightManager = none ∧
    (Reset V).1.MarkerManager = none ∧ (Reset V).1.EpisodeReplayManager = none ∧
    (Reset V).1.bIsInit = false ∧
    (Init EmptyWorld Constructed).2.2 = true ∧
    (CreatePrimitiveMarker (Init EmptyWorld Constructed).1 "m1" (some 7)).2.2 = true ∧
    (Reset (CreatePrimitiveMarker (Init EmptyWorld Constructed).1 "m1" (some 7)).1).1.Markers
      = [("m1", 7)] ∧
    (Init ManagedWorld
      (Reset (CreatePrimitiveMarker (Init EmptyWorld Constructed).1 "m1"
        (some 7)).1).1).2.2 = true ∧
    (CreatePrimitiveMarker
      (Init ManagedWorld
        (Reset (CreatePrimitiveMarker (Init EmptyWorld Constructed).1 "m1" (some 7)).1).1).1
      "m1" (some 8)).2.2 = false := by
  refine ⟨RemoveAllIndividualHighlights_Markers V, ?_, rfl, rfl, rfl, rfl, rfl, by decide,
    by decide, by decide, by decide, by decide⟩
  unfold Reset RemoveAllIndividualHighlights
  cases V.bIsInit <;> rfl

end ASLVizManager

namespace FSLIndividualUtils

/-! ## Class names of constraints, and the actors that can have an individual -/

/-- C29: for every physics constraint actor that has a constraint component, and that is
not cast to one of the classes `GetIndividualClassName` tries before (static mesh actor,
skeletal mesh actor, virtual camera view), `GetIndividualClassName` and
`CalcDefaultClassValue` of an initialized individual whose parent is the actor return
the same string: `LinearJoint` if one of the three linear motions is not locked,
otherwise `RevoluteJoint` if one of swing 1, swing 2 and twist is not locked, otherwise
`FixedJoint`. -/
theorem constraint_class_names_agree (CompOwner : AActor) (PCC : UPhysicsConstraintComponent)
    (I : USLConstraintIndividual) (bDefaultToLabelName : Bool)
    (hPCA : CompOwner.bIsPhysicsConstraintActor = true)
    (hPCC : CompOwner.ConstraintComp = some PCC)
    (hSMA : CompOwner.bIsStaticMeshActor = false)
    (hSkMA : CompOwner.bIsSkeletalMeshActor = false)
    (hVCV : CompOwner.bIsVirtualCameraView = false)
    (hInit : I.bIsInit = true) (hParent : I.ParentActor = some CompOwner) :
    GetIndividualClassName CompOwner bDefaultToLabelName =
      some (USLConstraintIndividual.CalcDefaultClassValue I) ∧
    USLConstraintIndividual.CalcDefaultClassValue I =
      (if PCC.ConstraintInstance.LinearXMotion ≠ ELinearConstraintMotion.LCM_Locked ∨
          PCC.ConstraintInstance.LinearYMotion ≠ ELinearConstraintMotion.LCM_Locked ∨
          PCC.ConstraintInstance.LinearZMotion ≠ ELinearConstraintMotion.LCM_Locked then
        "LinearJoint"
      else if PCC.ConstraintInstance.AngularSwing1Motion ≠
            EAngularConstraintMotion.ACM_Locked ∨
          PCC.ConstraintInstance.AngularSwing2Motion ≠ EAngularConstraintMotion.ACM_Locked ∨
          PCC.ConstraintInstance.AngularTwistMotion ≠ EAngularConstraintMotion.ACM_Locked then
        "RevoluteJoint"
      else "FixedJoint") := by
  have hcalc : USLConstraintIndividual.CalcDefaultClassValue I =
      (if PCC.ConstraintInstance.LinearXMotion ≠ ELinearConstraintMotion.LCM_Locked ∨
          PCC.ConstraintInstance.LinearYMotion ≠ ELinearConstraintMotion.LCM_Locked ∨
          PCC.ConstraintInstance.LinearZMotion ≠ ELinearConstraintMotion.LCM_Locked then
        "LinearJoint"
      else if PCC.ConstraintInstance.AngularSwing1Motion ≠
            EAngularConstraintMotion.ACM_Locked ∨
          PCC.ConstraintInstance.AngularSwing2Motion ≠ EAngularConstraintMotion.ACM_Locked ∨
          PCC.ConstraintInstance.AngularTwistMotion ≠ EAngularConstraintMotion.ACM_Locked then
        "RevoluteJoint"
      else "FixedJoint") := by
    unfold USLConstraintIndividual.CalcDefaultClassValue
    rw [hInit, hParent]
    simp only [hPCA, if_true, hPCC]
  refine ⟨?_, hcalc⟩
  rw [hcalc]
  unfold GetIndividualClassName
  rw [hSMA, hSkMA, hVCV, hPCA]
  simp only [Bool.false_eq_true, if_false, if_true, hPCC]
  by_cases h1 : PCC.ConstraintInstance.LinearXMotion ≠ ELinearConstraintMotion.LCM_Locked ∨
      PCC.ConstraintInstance.LinearYMotion ≠ ELinearConstraintMotion.LCM_Locked ∨
      PCC.ConstraintInstance.LinearZMotion ≠ ELinearConstraintMotion.LCM_Locked
  · rw [if_pos h1, if_pos h1]
    decide
  · rw [if_neg h1, if_neg h1]
    by_cases h2 : PCC.ConstraintInstance.AngularSwing1Motion ≠
          EAngularConstraintMotion.ACM_Locked ∨
        PCC.ConstraintInstance.AngularSwing2Motion ≠ EAngularConstraintMotion.ACM_Locked ∨
        PCC.ConstraintInstance.AngularTwistMotion ≠ EAngularConstraintMotion.ACM_Locked
    · rw [if_pos h2, if_pos h2]
      decide
    · rw [if_neg h2, if_neg h2]
      decide

/-- The drawer rail is limited along X and free in twist: the linear freedom decides. -/
theorem constraint_class_names_agree_witness :
    GetIndividualClassName DrawerRail false =
      some (USLConstraintIndividual.CalcDefaultClassValue
        { bIsInit := true, ParentActor := some DrawerRail, TypeName := "ConstraintIndividual" }) ∧
    USLConstraintIndividual.CalcDefaultClassValue
        { bIsInit := true, ParentActor := some DrawerRail, TypeName := "ConstraintIndividual" } =
      "LinearJoint" :=
  ⟨(constraint_class_names_agree DrawerRail
      { ConstraintInstance :=
        { LinearXMotion := .LCM_Limited, LinearYMotion := .LCM_Locked,
          LinearZMotion := .LCM_Locked, AngularSwing1Motion := .ACM_Locked,
          AngularSwing2Motion := .ACM_Locked, AngularTwistMotion := .ACM_Free } }
      { bIsInit := true, ParentActor := some DrawerRail, TypeName := "ConstraintIndividual" }
      false (by decide) (by decide) (by decide) (by decide) (by decide) (by decide)
      (by decide)).1,
    (constraint_class_names_agree DrawerRail
      { ConstraintInstance :=
        { LinearXMotion := .LCM_Limited, LinearYMotion := .LCM_Locked,
          LinearZMotion := .LCM_Locked, AngularSwing1Motion := .ACM_Locked,
          AngularSwing2Motion := .ACM_Locked, AngularTwistMotion := .ACM_Free } }
      { bIsInit := true, ParentActor := some DrawerRail, TypeName := "ConstraintIndividual" }
      false (by decide) (by decide) (by decide) (by decide) (by decide) (by decide)
      (by decide)).2⟩

/-- C30: for every actor, `CanHaveIndividualComponent` is true if and only if
`CreateIndividualObject` returns an individual, and the class of the individual is that
of the first case that matches in the order static mesh actor (rigid), physics
constraint actor (constraint), virtual camera view (virtual view), skeletal mesh actor
(skeletal), atmospheric fog or a name that contains `SkySphere` (sky). -/
theorem CanHaveIndividualComponent_iff_created (Actor : AActor) :
    (CanHaveIndividualComponent Actor = true ↔ (CreateIndividualObject Actor).isSome = true) ∧
    (Actor.bIsStaticMeshActor = true →
      CreateIndividualObject Actor = some USLIndividualClass.USLRigidIndividual) ∧
    (Actor.bIsStaticMeshActor = false → Actor.bIsPhysicsConstraintActor = true →
      CreateIndividualObject Actor = some USLIndividualClass.USLConstraintIndividual) ∧
    (Actor.bIsStaticMeshActor = false → Actor.bIsPhysicsConstraintActor = false →
      Actor.bIsVirtualCameraView = true →
      CreateIndividualObject Actor = some USLIndividualClass.USLVirtualViewIndividual) ∧
    (Actor.bIsStaticMeshActor = false → Actor.bIsPhysicsConstraintActor = false →
      Actor.bIsVirtualCameraView = false → Actor.bIsSkeletalMeshActor = true →
      CreateIndividualObject Actor = some USLIndividualClass.USLSkeletalIndividual) ∧
    (Actor.bIsStaticMeshActor = false → Actor.bIsPhysicsConstraintActor = false →
      Actor.bIsVirtualCameraView = false → Actor.bIsSkeletalMeshActor = false →
      (Actor.bIsAtmosphericFog = true ∨ FString.Contains Actor.Name "SkySphere" = true) →
      CreateIndividualObject Actor = some USLIndividualClass.USLSkyIndividual) ∧
    (Actor.bIsStaticMeshActor = false → Actor.bIsPhysicsConstraintActor = false →
      Actor.bIsVirtualCameraView = false → Actor.bIsSkeletalMeshActor = false →
      Actor.bIsAtmosphericFog = false → FString.Contains Actor.Name "SkySphere" = false →
      CreateIndividualObject Actor = none ∧ CanHaveIndividualComponent Actor = false) := by
  unfold CanHaveIndividualComponent CreateIndividualObject
  cases Actor.bIsStaticMeshActor <;> cases Actor.bIsPhysicsConstraintActor <;>
    cases Actor.bIsVirtualCameraView <;> cases Actor.bIsSkeletalMeshActor <;>
    cases Actor.bIsAtmosphericFog <;> cases FString.Contains Actor.Name "SkySphere" <;>
    simp

/-- The sky sphere, of no supported class, gets a sky individual by its name; the light
gets none. -/
theorem CanHaveIndividualComponent_iff_created_witness :
    CreateIndividualObject SkySphereActor = some USLIndividualClass.USLSkyIndividual ∧
    (CreateIndividualObject LightActor = none ∧ CanHaveIndividualComponent LightActor = false) :=
  ⟨(CanHaveIndividualComponent_iff_created SkySphereActor).2.2.2.2.2.1 (by decide) (by decide)
      (by decide) (by decide) (Or.inr (by decide)),
    (CanHaveIndividualComponent_iff_created LightActor).2.2.2.2.2.2 (by decide) (by decide)
      (by decide) (by decide) (by decide) (by decide)⟩

end FSLIndividualUtils

end USemLog
